import Mathlib

/-!
Verification of the SEM-Karifa2022 firmware core (animation engine and
persistent settings store) against its natural-language specification.

The development shallowly embeds the C sources:
  * `src/firmware/src/util.c`     — CRC-16F/3 (`Util_CRC16`),
  * `src/firmware/src/persist.c`  — log-structured settings store,
  * `src/fw_py32/Src/animation.c` — two-channel animation engine,
  * `src/firmware/src/animation.c` — single-table animation engine variant.

Machine integers are modelled as `Nat` with explicit `% 256` / `% 65536`
wrapping where the C types (`U8`, `U16`) overflow, and signed `I8` values as
the usual two's-complement reading of a byte.  Fallible array accesses are
modelled with `Option`: a `none` result marks an out-of-bounds read that in
the C program would be undefined behaviour.
-/

/-! ### Byte and word helpers -/

/-- Wrap a natural number to an unsigned 8-bit value (C `U8` arithmetic). -/
def wrap8 (n : Nat) : Nat := n % 256

/-- Wrap a natural number to an unsigned 16-bit value (C `U16` arithmetic). -/
def wrap16 (n : Nat) : Nat := n % 65536

/-- Two's-complement reading of a byte, i.e. the value of `(I8)b` in C. -/
def i8val (b : Nat) : Int := if b % 256 < 128 then (b % 256 : Int) else (b % 256 : Int) - 256

/-- Add a signed 8-bit quantity to an unsigned byte with C's wrap-around
conversion back to `U8` (integer promotion, then truncation mod 256). -/
def addI8 (b : Nat) (d : Int) : Nat := (((b : Int) + d) % 256).toNat

/-- Wrapping 16-bit subtraction `a - b` (C `U16` subtraction). -/
def sub16 (a b : Nat) : Nat := (a + 65536 - b % 65536) % 65536

/-! ### `Util_CRC16` from `src/firmware/src/util.c` -/

/-- Precondition (initial value) of the CRC calculation, `CRC16_PRECONDITION`. -/
def CRC16_PRECONDITION : Nat := 0xBD26

/-- Lookup table for CRC-16F/3, `gcau16CRC16F3Table` from `util.c`. -/
def gcau16CRC16F3Table : List Nat :=
[ 0x0000, 0x1B2B, 0x3656, 0x2D7D, 0x6CAC, 0x7787, 0x5AFA, 0x41D1,
  0xD958, 0xC273, 0xEF0E, 0xF425, 0xB5F4, 0xAEDF, 0x83A2, 0x9889,
  0xA99B, 0xB2B0, 0x9FCD, 0x84E6, 0xC537, 0xDE1C, 0xF361, 0xE84A,
  0x70C3, 0x6BE8, 0x4695, 0x5DBE, 0x1C6F, 0x0744, 0x2A39, 0x3112,
  0x481D, 0x5336, 0x7E4B, 0x6560, 0x24B1, 0x3F9A, 0x12E7, 0x09CC,
  0x9145, 0x8A6E, 0xA713, 0xBC38, 0xFDE9, 0xE6C2, 0xCBBF, 0xD094,
  0xE186, 0xFAAD, 0xD7D0, 0xCCFB, 0x8D2A, 0x9601, 0xBB7C, 0xA057,
  0x38DE, 0x23F5, 0x0E88, 0x15A3, 0x5472, 0x4F59, 0x6224, 0x790F,
  0x903A, 0x8B11, 0xA66C, 0xBD47, 0xFC96, 0xE7BD, 0xCAC0, 0xD1EB,
  0x4962, 0x5249, 0x7F34, 0x641F, 0x25CE, 0x3EE5, 0x1398, 0x08B3,
  0x39A1, 0x228A, 0x0FF7, 0x14DC, 0x550D, 0x4E26, 0x635B, 0x7870,
  0xE0F9, 0xFBD2, 0xD6AF, 0xCD84, 0x8C55, 0x977E, 0xBA03, 0xA128,
  0xD827, 0xC30C, 0xEE71, 0xF55A, 0xB48B, 0xAFA0, 0x82DD, 0x99F6,
  0x017F, 0x1A54, 0x3729, 0x2C02, 0x6DD3, 0x76F8, 0x5B85, 0x40AE,
  0x71BC, 0x6A97, 0x47EA, 0x5CC1, 0x1D10, 0x063B, 0x2B46, 0x306D,
  0xA8E4, 0xB3CF, 0x9EB2, 0x8599, 0xC448, 0xDF63, 0xF21E, 0xE935,
  0x3B5F, 0x2074, 0x0D09, 0x1622, 0x57F3, 0x4CD8, 0x61A5, 0x7A8E,
  0xE207, 0xF92C, 0xD451, 0xCF7A, 0x8EAB, 0x9580, 0xB8FD, 0xA3D6,
  0x92C4, 0x89EF, 0xA492, 0xBFB9, 0xFE68, 0xE543, 0xC83E, 0xD315,
  0x4B9C, 0x50B7, 0x7DCA, 0x66E1, 0x2730, 0x3C1B, 0x1166, 0x0A4D,
  0x7342, 0x6869, 0x4514, 0x5E3F, 0x1FEE, 0x04C5, 0x29B8, 0x3293,
  0xAA1A, 0xB131, 0x9C4C, 0x8767, 0xC6B6, 0xDD9D, 0xF0E0, 0xEBCB,
  0xDAD9, 0xC1F2, 0xEC8F, 0xF7A4, 0xB675, 0xAD5E, 0x8023, 0x9B08,
  0x0381, 0x18AA, 0x35D7, 0x2EFC, 0x6F2D, 0x7406, 0x597B, 0x4250,
  0xAB65, 0xB04E, 0x9D33, 0x8618, 0xC7C9, 0xDCE2, 0xF19F, 0xEAB4,
  0x723D, 0x6916, 0x446B, 0x5F40, 0x1E91, 0x05BA, 0x28C7, 0x33EC,
  0x02FE, 0x19D5, 0x34A8, 0x2F83, 0x6E52, 0x7579, 0x5804, 0x432F,
  0xDBA6, 0xC08D, 0xEDF0, 0xF6DB, 0xB70A, 0xAC21, 0x815C, 0x9A77,
  0xE378, 0xF853, 0xD52E, 0xCE05, 0x8FD4, 0x94FF, 0xB982, 0xA2A9,
  0x3A20, 0x210B, 0x0C76, 0x175D, 0x568C, 0x4DA7, 0x60DA, 0x7BF1,
  0x4AE3, 0x51C8, 0x7CB5, 0x679E, 0x264F, 0x3D64, 0x1019, 0x0B32,
  0x93BB, 0x8890, 0xA5ED, 0xBEC6, 0xFF17, 0xE43C, 0xC941, 0xD26A ]

/-- One step of the CRC-16 loop body of `Util_CRC16`:
`u16Crc = (U16)(u16Crc << 8) ^ table[(U8)(u16Crc >> 8) ^ buf[idx]]`. -/
def crc16Step (crc b : Nat) : Nat :=
  wrap16 (crc * 256) ^^^ gcau16CRC16F3Table.getD ((crc / 256) ^^^ (b % 256)) 0

/-- `Util_CRC16` over a byte buffer (the C function takes the buffer and its
length; here the buffer is the list and the length is its length). -/
def Util_CRC16 (buf : List Nat) : Nat := buf.foldl crc16Step CRC16_PRECONDITION

/-! ### Persistent settings store from `src/firmware/src/persist.c`

The EEPROM arena is modelled as a byte map `Nat → Nat`; the IAP routines of
`persist.c` use only the lower 12 bits of an address (`IAP_ADDRH` is masked
with `0x0F`), which the model reproduces with `% 4096`.  A flash write can
only clear bits (erased cells read `0xFF` and programming can only drive
bits to `0`), so a byte write ANDs the new value into the cell; `IAP_Erase`
resets a whole 512-byte page (the lower 9 address bits are discarded) to
`0xFF`. -/

/-- EEPROM byte map.  Only offsets `0..4095` are ever addressed. -/
abbrev Arena := Nat → Nat

/-- `EEPROM_SIZE` from `persist.c`. -/
def EEPROM_SIZE : Nat := 4096

/-- `EEPROM_BASEADDRESS` from `persist.c`. -/
def EEPROM_BASEADDRESS : Nat := 0x2000

/-- Effective arena offset of an IAP address: only the lower 12 bits are used. -/
def iapAddr (a : Nat) : Nat := a % 4096

/-- The packed `S_PERSIST` record: one index byte and a 16-bit CRC. -/
structure S_PERSIST where
  u8AnimationIndex : Nat
  u16CRC : Nat
deriving Repr, DecidableEq

/-- Byte layout of a packed `S_PERSIST` (index byte, then the CRC bytes; the
byte order of the CRC only has to agree between `Persist_Save` and
`SearchForLatestSave`, which it does on the target and in this model). -/
def persistBytes (s : S_PERSIST) : List Nat :=
  [wrap8 s.u8AnimationIndex, s.u16CRC / 256 % 256, s.u16CRC % 256]

/-- Reassemble a `S_PERSIST` from its three stored bytes, as `IAP_Read` into
a local `S_PERSIST` copy does. -/
def persistOfBytes (b0 b1 b2 : Nat) : S_PERSIST := ⟨b0, b1 * 256 + b2⟩

/-- Read one EEPROM byte (`IAP_Read` of a single byte; the `IAP_DATA`
register is 8 bits wide, so a read always yields a byte). -/
def IAP_ReadByte (arena : Arena) (a : Nat) : Nat := arena (iapAddr a) % 256

/-- Read a 3-byte `S_PERSIST` block starting at `a` (`IAP_Read` of
`sizeof(S_PERSIST)` bytes). -/
def IAP_ReadPersist (arena : Arena) (a : Nat) : S_PERSIST :=
  persistOfBytes (IAP_ReadByte arena a) (IAP_ReadByte arena (a + 1)) (IAP_ReadByte arena (a + 2))

/-- Program one EEPROM byte: flash programming can only clear bits. -/
def flashProgramByte (arena : Arena) (a v : Nat) : Arena :=
  fun x => if x = iapAddr a then arena (iapAddr a) &&& v else arena x

/-- `IAP_Write`: program a byte buffer starting at address `a`. -/
def IAP_Write (arena : Arena) (a : Nat) (data : List Nat) : Arena :=
  match data with
  | [] => arena
  | v :: rest => IAP_Write (flashProgramByte arena a v) (a + 1) rest

/-- `IAP_Erase`: erase the 512-byte page containing address `a` (the lower
9 bits of the address are discarded by the hardware). -/
def IAP_Erase (arena : Arena) (a : Nat) : Arena :=
  fun x => if x / 512 = iapAddr a / 512 then 255 else arena x

/-- `IsSaveBlockEmpty`: a save block is empty when all of its bytes read
`0xFF`. -/
def IsSaveBlockEmpty (arena : Arena) (a : Nat) : Bool :=
  IAP_ReadByte arena a == 255 && IAP_ReadByte arena (a + 1) == 255 &&
    IAP_ReadByte arena (a + 2) == 255

/-- CRC validity check used by `SearchForLatestSave`: the stored CRC must
equal `Util_CRC16` over the record minus its CRC field (here: the single
index byte). -/
def persistRecordValid (r : S_PERSIST) : Bool :=
  r.u16CRC == Util_CRC16 [r.u8AnimationIndex]

/-- Module state of `persist.c`: the loaded settings (`gsPersistentData`)
and the raw 16-bit value of the `gpsNextSaveSlot` pointer. -/
structure PersistState where
  gsPersistentData : S_PERSIST
  gpsNextSaveSlot : Nat
deriving Repr, DecidableEq

/-- State of the C globals right after power-on: statics are
zero-initialised by the C runtime before `Persist_Init` runs. -/
def powerOnPersist : PersistState := ⟨⟨0, 0⟩, 0⟩

/-- Loop of `SearchForLatestSave`: scan `fuel` save blocks starting at
address `addr`, keeping the latest CRC-valid record (`cur`/`found`) and
stopping at the first fully-erased block encountered after a valid record
was seen (recording it as the next empty slot).  Returns the final
settings record, the next-empty address and the found flag. -/
def searchLoop (arena : Arena) : Nat → Nat → S_PERSIST → Nat → Bool → S_PERSIST × Nat × Bool
  | 0, _, cur, nextE, found => (cur, nextE, found)
  | fuel + 1, addr, cur, nextE, found =>
    let r := IAP_ReadPersist arena addr
    if persistRecordValid r then
      searchLoop arena fuel (addr + 3) r nextE true
    else if found && IsSaveBlockEmpty arena addr then
      (cur, addr, true)
    else
      searchLoop arena fuel (addr + 3) cur nextE found

/-- `SearchForLatestSave`: scan the whole arena
(`EEPROM_SIZE / sizeof(S_PERSIST)` blocks from `EEPROM_BASEADDRESS`).
When the scan ends without hitting an erased-after-valid block, the
next-empty output keeps its previous (caller-side) value, exactly as the
C out-parameter is left unassigned. -/
def SearchForLatestSave (arena : Arena) (s : PersistState) : S_PERSIST × Nat × Bool :=
  searchLoop arena (EEPROM_SIZE / 3) EEPROM_BASEADDRESS s.gsPersistentData s.gpsNextSaveSlot false

/-- `Persist_Init`: load the latest valid save, or fall back to an all-zero
record with the write cursor at the arena base. -/
def Persist_Init (arena : Arena) (s : PersistState) : PersistState :=
  let res := SearchForLatestSave arena s
  if res.2.2 then ⟨res.1, res.2.1⟩ else ⟨⟨0, 0⟩, EEPROM_BASEADDRESS⟩

/-- `Persist_Save`: write the current record (with a freshly computed CRC)
at the tracked slot, advance the slot, and erase ahead when the new slot is
not already empty.  The erase-address choice reproduces the source:
if `(next & 0xFE00) < prev` the page erase starts at `next + sizeof`,
otherwise at `next`. -/
def Persist_Save (arena : Arena) (s : PersistState) : Arena × PersistState :=
  let prevAddr := s.gpsNextSaveSlot
  let localCopy : S_PERSIST :=
    ⟨s.gsPersistentData.u8AnimationIndex, Util_CRC16 [s.gsPersistentData.u8AnimationIndex]⟩
  let arena1 := IAP_Write arena prevAddr (persistBytes localCopy)
  let nextSlot := wrap16 (prevAddr + 3)
  if IsSaveBlockEmpty arena1 nextSlot then
    (arena1, ⟨s.gsPersistentData, nextSlot⟩)
  else if nextSlot &&& 0xFE00 < prevAddr then
    (IAP_Erase arena1 (wrap16 (nextSlot + 3)), ⟨s.gsPersistentData, nextSlot⟩)
  else
    (IAP_Erase arena1 nextSlot, ⟨s.gsPersistentData, nextSlot⟩)

/-- A fully erased (virgin) arena. -/
def erasedArena : Arena := fun _ => 255


/-- Flip bit `i` of a byte. -/
def flipByteBit (b i : Nat) : Nat := b ^^^ (1 <<< i)

/-- Flip bit `k` (`0 ≤ k < 24`) of a stored 3-byte save slot: bits `0..7`
lie in the index byte, bits `8..15` in the first stored CRC byte and bits
`16..23` in the second. -/
def flipSlot (b0 b1 b2 k : Nat) : Nat × Nat × Nat :=
  if k < 8 then (flipByteBit b0 k, b1, b2)
  else if k < 16 then (b0, flipByteBit b1 (k - 8), b2)
  else (b0, b1, flipByteBit b2 (k - 16))

/-! ### Slot-level views of the arena and the scan order

`SearchForLatestSave` walks `EEPROM_SIZE / sizeof(S_PERSIST) = 1365` blocks
of 3 bytes from `EEPROM_BASEADDRESS`; these definitions give positional
access to that scan. -/

/-- Number of save slots scanned, `EEPROM_SIZE / sizeof(S_PERSIST)`. -/
def NUM_SLOTS : Nat := EEPROM_SIZE / 3

/-- Address of scan slot `j`. -/
def slotAddr (j : Nat) : Nat := EEPROM_BASEADDRESS + 3 * j

/-- Does scan slot `j` pass the CRC validation of the scan? -/
def slotValidAt (arena : Arena) (j : Nat) : Bool :=
  persistRecordValid (IAP_ReadPersist arena (slotAddr j))

/-- Is scan slot `j` fully erased? -/
def slotEmptyAt (arena : Arena) (j : Nat) : Bool :=
  IsSaveBlockEmpty arena (slotAddr j)

/-- The slot indices `[k, k+1, ..., k+n-1]`. -/
def idxList (k : Nat) : Nat → List Nat
  | 0 => []
  | n + 1 => k :: idxList (k + 1) n

/-- Specification-side description of the claim C5 is stated with (for the
refutation): the last checksum-valid slot of the whole arena in scan order,
with no stopping point. -/
def specLastValidSlot (arena : Arena) : Option Nat :=
  ((idxList 0 NUM_SLOTS).filter (slotValidAt arena)).getLast?

/-- A valid save record for index `idx`, as `Persist_Save` would store it. -/
def mkRecord (idx : Nat) : S_PERSIST := ⟨idx, Util_CRC16 [idx]⟩

/-- Build an arena from a list of 3-byte slots laid out from the arena
base; everything past the given slots is erased. -/
def arenaOfSlots (slots : List (List Nat)) : Arena :=
  fun a => (slots.getD (a / 3) [255, 255, 255]).getD (a % 3) 255

/-- Arena for the C5 counterexample: a valid record for index 1, an erased
slot, then a valid record for index 2 (rest of the arena erased). -/
def arenaGap : Arena :=
  arenaOfSlots [persistBytes (mkRecord 1), [255, 255, 255], persistBytes (mkRecord 2)]

/-- Arena with no valid record anywhere (all bytes zero). -/
def arenaZero : Arena := fun _ => 0

/-- Arena for the C4 counterexample: a valid record for index 7 in slot
171 (bytes 513–515), one garbage byte at offset 519 (making slot 173
non-erased), a valid record for index 9 in slot 400 (bytes 1200–1202),
everything else erased. -/
def arenaMidLog : Arena := fun a =>
  if 513 ≤ a ∧ a ≤ 515 then (persistBytes (mkRecord 7)).getD (a - 513) 255
  else if a = 519 then 0
  else if 1200 ≤ a ∧ a ≤ 1202 then (persistBytes (mkRecord 9)).getD (a - 1200) 255
  else 255

/-- Arena for the C6 failing input: slot 0 erased (it is the tracked
next-write slot), slot 1 not erased (one zero byte), rest erased. -/
def arenaStaleNeighbour : Arena := fun a => if a = 3 then 0 else 255

/-- Store state whose tracked next-write slot is the (erased) arena base
slot, with settings index 5 pending; the hypothesis state of claim C6. -/
def stateC6 : PersistState := ⟨⟨5, 0⟩, EEPROM_BASEADDRESS⟩

/-- Well-formed append-only store state of the amended claims C4/C6: every
slot before the cursor slot `k` holds a checksum-valid record and every
arena byte from the cursor slot on is erased. -/
def GoodStore (arena : Arena) (k : Nat) : Prop :=
  (∀ j, j < k → slotValidAt arena j = true) ∧
  (∀ a, 3 * k ≤ a → a < 4096 → IAP_ReadByte arena (EEPROM_BASEADDRESS + a) = 255)

/-! ### Shared pieces of the two animation-engine variants

Both `fw_py32/Src/animation.c` and `src/firmware/src/animation.c` contain
the same step-resolution walk, `ADD`, rotate, divide and `REPEAT` logic;
these helpers are shared by the two machine embeddings below. -/

/-- Element read `l[i]` (all accesses are guarded by the source's loop
bounds; the default is never reached on well-shaped state). -/
def bGet (l : List Nat) (i : Nat) : Nat := l.getD i 0

/-- Element write `l[i] = v`. -/
def bSet (l : List Nat) (i v : Nat) : List Nat := l.set i v

/-- Step-resolution walk: accumulate `u16TimingMs` (16-bit) until the
running sum exceeds the channel timer; returns the index at which that
happens, or the list length when the walk exhausts the sequence. -/
def walkIdx (durs : List Nat) (acc timer : Nat) : Nat :=
  match durs with
  | [] => 0
  | d :: rest =>
    let acc2 := wrap16 (acc + d)
    if timer < acc2 then 0 else walkIdx rest acc2 timer + 1

/-- `ADD` opcode: per-element 8-bit wrapping add; a result outside `[0,15]`
(overflow or underflow) resets the element to 0. -/
def applyADD (deltas b : List Nat) : List Nat :=
  List.zipWith (fun x d => let y := wrap8 (x + d); if 15 < y then 0 else y) b deltas

/-- `RSHIFT` opcode: rotate the vector one position towards higher indices
(`u8Temp = b[last]; shift up; b[0] = u8Temp`). -/
def rotateRight (b : List Nat) : List Nat :=
  match b.getLast? with
  | none => []
  | some t => t :: b.dropLast

/-- `LSHIFT` opcode: rotate one position towards lower indices. -/
def rotateLeft (b : List Nat) : List Nat :=
  match b with
  | [] => []
  | x :: rest => rest ++ [x]

/-- `DIV` opcode: divide each element by its delta when that is nonzero. -/
def applyDIV (deltas b : List Nat) : List Nat :=
  List.zipWith (fun x d => if d ≠ 0 then x / d else x) b deltas

/-- `REPEAT` bookkeeping shared by all channels (`repeatMask` is the
variant's `REPEAT` opcode bit).  Given the resolved step index, the
instruction fields and the channel's timer, repetition counter and
last-executed-step marker, return their updated values: on first encounter
load the counter and rewind the clock; afterwards decrement, rewinding
while the counter stays nonzero and marking the step executed when it
reaches zero. -/
def repeatStep (repeatMask dur operand opcode st timer counter lastState : Nat) :
    Nat × Nat × Nat :=
  if opcode &&& repeatMask ≠ 0 then
    if counter = 0 then (sub16 timer dur, operand, lastState)
    else
      let c := counter - 1
      if c ≠ 0 then (sub16 timer dur, c, lastState)
      else (timer, c, st)
  else (timer, counter, st)

namespace Py32

/-! ### Two-channel animation engine from `src/fw_py32/Src/animation.c` -/

/-- Opcode bits of the animation virtual machine (`E_ANIMATION_OPCODE`). -/
def LOAD : Nat := 0x00

def ADD : Nat := 0x01

def RSHIFT : Nat := 0x02

def LSHIFT : Nat := 0x04

def DIV : Nat := 0x10

def USOURCE : Nat := 0x20

def DSOURCE : Nat := 0x40

def REPEAT : Nat := 0x80

/-- `LEDS_NUM`: number of discrete LEDs (the instruction tables carry 12
brightness bytes per step). -/
def LEDS_NUM : Nat := 12

/-- `NUM_RGBLED_COLORS`. -/
def NUM_RGBLED_COLORS : Nat := 3

/-- `RIGHT_LEDS_START`: index of the first LED on the right side. -/
def RIGHT_LEDS_START : Nat := 6

/-- `S_ANIMATION_INSTRUCTION_NORMAL`. -/
structure InstrNormal where
  u16TimingMs : Nat
  au8LEDBrightness : List Nat
  u8AnimationOpcode : Nat
  u8AnimationOperand : Nat
deriving Repr, DecidableEq

/-- `S_ANIMATION_INSTRUCTION_RGB`. -/
structure InstrRGB where
  u16TimingMs : Nat
  au8RGBLEDBrightness : List Nat
  u8AnimationOpcode : Nat
  u8AnimationOperand : Nat
deriving Repr, DecidableEq

/-- `S_ANIMATION`: the `u8AnimationLength…` fields of the C struct always
hold the length of the pointed-to instruction array
(`sizeof(x)/sizeof(element)` in every initializer), so they are
represented by the list lengths. -/
structure S_ANIMATION where
  psInstructionsNormal : List InstrNormal
  psInstructionsRGB : List InstrRGB
deriving Repr, DecidableEq

/-- `SaturateBrightness`: clamp a brightness byte into `[0,15]`
interpreting it as `I8`; returns the clamped byte and the signed amount
the variable changed by. -/
def SaturateBrightness (b : Nat) : Nat × Int :=
  if i8val b < 0 then (0, i8val b)
  else if 15 < i8val b then (15, i8val b - 15)
  else (b, 0)

/-- Apply `SaturateBrightness` in place at index `i`, discarding the
returned carry. -/
def satAt (b : List Nat) (i : Nat) : List Nat := bSet b i (SaturateBrightness (bGet b i)).1

/-- Add the instruction's delta at index `i`, read as a signed `I8`
(`i8Change = instr[i]; b[i] += i8Change`). -/
def addDeltaAt (deltas b : List Nat) (i : Nat) : List Nat :=
  bSet b i (addI8 (bGet b i) (i8val (bGet deltas i)))

/-- Saturate-and-carry loop running upwards for `fuel` iterations:
`for (inner = j; inner < j+fuel; inner++) b[inner+1] += SaturateBrightness(&b[inner])`. -/
def carrySegUp (b : List Nat) (j : Nat) : Nat → List Nat
  | 0 => b
  | fuel + 1 =>
    let s := SaturateBrightness (bGet b j)
    let b1 := bSet b j s.1
    carrySegUp (bSet b1 (j + 1) (addI8 (bGet b1 (j + 1)) s.2)) (j + 1) fuel

/-- Saturate-and-carry loop running downwards for `fuel` iterations:
`for (inner = j; inner > j-fuel; inner--) b[inner-1] += SaturateBrightness(&b[inner])`. -/
def carrySegDown (b : List Nat) (j : Nat) : Nat → List Nat
  | 0 => b
  | fuel + 1 =>
    let s := SaturateBrightness (bGet b j)
    let b1 := bSet b j s.1
    carrySegDown (bSet b1 (j - 1) (addI8 (bGet b1 (j - 1)) s.2)) (j - 1) fuel

/-- Left-side loop of `USOURCE`
(`for (u8Index = 0; u8Index < RIGHT_LEDS_START-1; u8Index++)`; the inner
carry loop runs from `u8Index` up to `RIGHT_LEDS_START-2`). -/
def usourceLeftLoop (deltas b : List Nat) (i : Nat) : Nat → List Nat
  | 0 => b
  | fuel + 1 =>
    usourceLeftLoop deltas
      (carrySegUp (addDeltaAt deltas b i) i (RIGHT_LEDS_START - 1 - i)) (i + 1) fuel

/-- Right-side loop of `USOURCE`
(`for (u8Index = LEDS_NUM-1; u8Index > RIGHT_LEDS_START; u8Index--)`; the
inner carry loop always runs from `LEDS_NUM-1` down to
`RIGHT_LEDS_START+1`). -/
def usourceRightLoop (deltas b : List Nat) (i : Nat) : Nat → List Nat
  | 0 => b
  | fuel + 1 =>
    usourceRightLoop deltas
      (carrySegDown (addDeltaAt deltas b i) (LEDS_NUM - 1)
        (LEDS_NUM - 1 - RIGHT_LEDS_START)) (i - 1) fuel

/-- `USOURCE` opcode handler: both halves, then the pivot elements
(`RIGHT_LEDS_START-1` and `RIGHT_LEDS_START`) each get their delta and a
final saturation. -/
def applyUSOURCE (deltas b : List Nat) : List Nat :=
  let b1 := usourceLeftLoop deltas b 0 (RIGHT_LEDS_START - 1)
  let b2 := satAt (addDeltaAt deltas b1 (RIGHT_LEDS_START - 1)) (RIGHT_LEDS_START - 1)
  let b3 := usourceRightLoop deltas b2 (LEDS_NUM - 1) (LEDS_NUM - 1 - RIGHT_LEDS_START)
  satAt (addDeltaAt deltas b3 RIGHT_LEDS_START) RIGHT_LEDS_START

/-- Left-side loop of `DSOURCE`
(`for (u8Index = RIGHT_LEDS_START-1; u8Index > 0; u8Index--)`; the inner
carry loop runs from `u8Index` down to 1). -/
def dsourceLeftLoop (deltas b : List Nat) (i : Nat) : Nat → List Nat
  | 0 => b
  | fuel + 1 =>
    dsourceLeftLoop deltas (carrySegDown (addDeltaAt deltas b i) i i) (i - 1) fuel

/-- Right-side loop of `DSOURCE`
(`for (u8Index = RIGHT_LEDS_START; u8Index < LEDS_NUM-1; u8Index++)`; the
inner carry loop always runs from `RIGHT_LEDS_START` up to `LEDS_NUM-2`). -/
def dsourceRightLoop (deltas b : List Nat) (i : Nat) : Nat → List Nat
  | 0 => b
  | fuel + 1 =>
    dsourceRightLoop deltas
      (carrySegUp (addDeltaAt deltas b i) RIGHT_LEDS_START
        (LEDS_NUM - 1 - RIGHT_LEDS_START)) (i + 1) fuel

/-- `DSOURCE` opcode handler: both halves, then the outer elements
(0 and `LEDS_NUM-1`) each get their delta and a final saturation. -/
def applyDSOURCE (deltas b : List Nat) : List Nat :=
  let b1 := dsourceLeftLoop deltas b (RIGHT_LEDS_START - 1) (RIGHT_LEDS_START - 1)
  let b2 := satAt (addDeltaAt deltas b1 0) 0
  let b3 := dsourceRightLoop deltas b2 RIGHT_LEDS_START (LEDS_NUM - 1 - RIGHT_LEDS_START)
  satAt (addDeltaAt deltas b3 (LEDS_NUM - 1)) (LEDS_NUM - 1)

/-- Opcode pipeline for the normal-LED channel in the source's fixed order:
`ADD`, `RSHIFT`, `LSHIFT`, `USOURCE`, `DSOURCE`, `DIV`. -/
def executeNormalOps (ins : InstrNormal) (b0 : List Nat) : List Nat :=
  let d := ins.au8LEDBrightness
  let op := ins.u8AnimationOpcode
  let b1 := if op &&& ADD ≠ 0 then applyADD d b0 else b0
  let b2 := if op &&& RSHIFT ≠ 0 then rotateRight b1 else b1
  let b3 := if op &&& LSHIFT ≠ 0 then rotateLeft b2 else b2
  let b4 := if op &&& USOURCE ≠ 0 then applyUSOURCE d b3 else b3
  let b5 := if op &&& DSOURCE ≠ 0 then applyDSOURCE d b4 else b4
  if op &&& DIV ≠ 0 then applyDIV d b5 else b5

/-- Opcode pipeline for the RGB channel: only `ADD` and `DIV` are
implemented; the shift and source opcodes are explicit no-ops there. -/
def executeRGBOps (ins : InstrRGB) (r0 : List Nat) : List Nat :=
  let d := ins.au8RGBLEDBrightness
  let op := ins.u8AnimationOpcode
  let r1 := if op &&& ADD ≠ 0 then applyADD d r0 else r0
  if op &&& DIV ≠ 0 then applyDIV d r1 else r1

/-- Module state of `fw_py32/Src/animation.c`: the two brightness arrays,
the two channel timers, the call timestamp, the per-channel last-state and
repetition counters, and the `gsPersistentData.u8AnimationIndex` byte the
engine reads and clamps. -/
structure EngineState where
  gau8LEDBrightness : List Nat
  gau8RGBLEDs : List Nat
  gu16NormalTimer : Nat
  gu16RGBTimer : Nat
  gu16LastCall : Nat
  u8LastState : Nat
  u8RepetitionCounter : Nat
  u8LastStateRGB : Nat
  u8RepetitionCounterRGB : Nat
  u8AnimationIndex : Nat
deriving Repr, DecidableEq

/-- `Animation_Cycle`, parameterised by the animation table and the
`NUM_ANIMATIONS` bound it is compiled against.  `timeNow` is the value
read from `Util_GetTimerMs()`.  A `none` result marks an out-of-bounds
instruction fetch (undefined behaviour in the C program). -/
def Animation_Cycle (table : List S_ANIMATION) (numAnims : Nat)
    (timeNow : Nat) (s : EngineState) : Option EngineState :=
  if timeNow = s.gu16LastCall then some s else
  let delta := sub16 timeNow s.gu16LastCall
  let nt0 := wrap16 (s.gu16NormalTimer + delta)
  let rt0 := wrap16 (s.gu16RGBTimer + delta)
  let aIdx := if numAnims ≤ s.u8AnimationIndex then 0 else s.u8AnimationIndex
  let anim := table.getD aIdx ⟨[], []⟩
  let stN0 := walkIdx (anim.psInstructionsNormal.map (·.u16TimingMs)) 0 nt0
  let restart := anim.psInstructionsNormal.length ≤ stN0
  let stN := if restart then 0 else stN0
  let nt1 := if restart then 0 else nt0
  let rt1 := if restart then 0 else rt0
  let afterNormal : Option (List Nat × Nat × Nat × Nat) :=
    if s.u8LastState ≠ stN then
      match anim.psInstructionsNormal.get? stN with
      | none => none
      | some ins =>
        if ins.u8AnimationOpcode = LOAD then
          some (ins.au8LEDBrightness, nt1, s.u8RepetitionCounter, stN)
        else
          let b := executeNormalOps ins s.gau8LEDBrightness
          let r := repeatStep REPEAT ins.u16TimingMs ins.u8AnimationOperand
            ins.u8AnimationOpcode stN nt1 s.u8RepetitionCounter s.u8LastState
          some (b, r.1, r.2.1, r.2.2)
    else some (s.gau8LEDBrightness, nt1, s.u8RepetitionCounter, s.u8LastState)
  match afterNormal with
  | none => none
  | some (b, nt2, cnt, lastN) =>
    let stR := walkIdx (anim.psInstructionsRGB.map (·.u16TimingMs)) 0 rt1
    let afterRGB : Option (List Nat × Nat × Nat × Nat) :=
      if s.u8LastStateRGB ≠ stR then
        match anim.psInstructionsRGB.get? stR with
        | none => none
        | some ins =>
          if ins.u8AnimationOpcode = LOAD then
            some (ins.au8RGBLEDBrightness, rt1, s.u8RepetitionCounterRGB, stR)
          else
            let rg := executeRGBOps ins s.gau8RGBLEDs
            let rr := repeatStep REPEAT ins.u16TimingMs ins.u8AnimationOperand
              ins.u8AnimationOpcode stR rt1 s.u8RepetitionCounterRGB s.u8LastStateRGB
            some (rg, rr.1, rr.2.1, rr.2.2)
      else some (s.gau8RGBLEDs, rt1, s.u8RepetitionCounterRGB, s.u8LastStateRGB)
    match afterRGB with
    | none => none
    | some (rg, rt2, cntR, lastR) =>
      some ⟨b, rg, nt2, rt2, timeNow, lastN, cnt, lastR, cntR, aIdx⟩

/-- `Animation_Set`, parameterised by the `NUM_ANIMATIONS` bound: an
in-range index is stored and both channel cursors are reset; an
out-of-range index leaves the state untouched. -/
def Animation_Set (numAnims idx : Nat) (s : EngineState) : EngineState :=
  if idx < numAnims then
    ⟨s.gau8LEDBrightness, s.gau8RGBLEDs, 0, 0, s.gu16LastCall, 0xFF, 0, 0xFF, 0, idx⟩
  else s

/-- Engine state at boot: the C runtime zero-initialises the brightness
arrays and the repetition counters, the last-state markers start at the
`0xFF` sentinel, `Animation_Init` zeroes both timers and records the
current time `t0`, and `Persist_Init` has loaded `idx` as the persisted
animation index. -/
def bootEngine (idx t0 : Nat) : EngineState :=
  ⟨List.replicate LEDS_NUM 0, List.replicate NUM_RGBLED_COLORS 0, 0, 0, t0, 0xFF, 0, 0xFF, 0, idx⟩

/-- One well-paced driver step: call `Animation_Cycle` one millisecond
after the previous call, as the main loop is required to. -/
def stepMs (table : List S_ANIMATION) (numAnims : Nat) (s : Option EngineState) :
    Option EngineState :=
  s.bind (fun st => Animation_Cycle table numAnims (wrap16 (st.gu16LastCall + 1)) st)

/-- Drive the engine through `fuel` well-paced 1 ms cycles. -/
def runMsO (table : List S_ANIMATION) (numAnims : Nat) :
    Nat → Option EngineState → Option EngineState
  | 0, s => s
  | fuel + 1, s => runMsO table numAnims fuel (stepMs table numAnims s)

end Py32

namespace Py32

/-! ### The compiled-in animation tables of fw_py32 (transcribed from
the constant instruction arrays in `src/fw_py32/Src/animation.c`;
negative C initializers appear as their unsigned byte values). -/

def gasRetroVersion : List InstrNormal := [
  ⟨133, [15, 0, 15, 0, 0, 15, 15, 0, 15, 0, 0, 15], 0, 0⟩,
  ⟨133, [0, 15, 0, 15, 15, 0, 0, 15, 0, 15, 15, 0], 0, 0⟩,
  ⟨133, [15, 0, 0, 0, 0, 0, 15, 0, 0, 0, 0, 0], 0, 0⟩,
  ⟨133, [0, 15, 0, 15, 15, 0, 0, 15, 0, 15, 15, 0], 0, 0⟩,
  ⟨133, [15, 0, 0, 0, 0, 0, 15, 0, 0, 0, 0, 0], 0, 0⟩,
  ⟨133, [0, 0, 0, 15, 0, 0, 0, 0, 0, 15, 0, 0], 0, 0⟩,
  ⟨133, [15, 0, 15, 0, 0, 15, 15, 0, 0, 15, 0, 15], 0, 0⟩,
  ⟨133, [0, 0, 0, 15, 0, 0, 0, 0, 0, 15, 0, 0], 0, 0⟩
]

def gasRetroVersionRGB : List InstrRGB := [
  ⟨133, [15, 0, 0], 0, 0⟩,
  ⟨665, [0, 0, 0], 0, 0⟩,
  ⟨133, [15, 0, 0], 0, 0⟩,
  ⟨133, [0, 0, 0], 0, 0⟩
]

def gasSoftFlashing : List InstrNormal := [
  ⟨125, [0, 0, 0, 0, 0, 0, 0, 0, 0, 0, 0, 0], 0, 0⟩,
  ⟨125, [1, 1, 1, 1, 1, 1, 1, 1, 1, 1, 1, 1], 129, 14⟩,
  ⟨125, [15, 15, 15, 15, 15, 15, 15, 15, 15, 15, 15, 15], 0, 0⟩,
  ⟨125, [255, 255, 255, 255, 255, 255, 255, 255, 255, 255, 255, 255], 129, 14⟩
]

def gasSoftFlashingRGB : List InstrRGB := [
  ⟨125, [0, 0, 0], 0, 0⟩,
  ⟨125, [1, 0, 0], 129, 14⟩,
  ⟨125, [15, 0, 0], 0, 0⟩,
  ⟨125, [255, 0, 0], 129, 14⟩
]

def gasFadeRing : List InstrNormal := [
  ⟨40, [15, 1, 15, 1, 15, 1, 1, 15, 1, 15, 1, 15], 0, 0⟩,
  ⟨40, [255, 1, 255, 1, 255, 1, 1, 255, 1, 255, 1, 255], 129, 13⟩,
  ⟨40, [1, 255, 1, 255, 1, 255, 255, 1, 255, 1, 255, 1], 129, 13⟩
]

def gasFadeRingRGB : List InstrRGB := [
  ⟨40, [15, 1, 0], 0, 0⟩,
  ⟨40, [255, 0, 0], 129, 13⟩,
  ⟨40, [1, 0, 0], 129, 13⟩
]

def gasShootingStar : List InstrNormal := [
  ⟨100, [5, 10, 15, 0, 0, 0, 0, 0, 0, 0, 0, 0], 0, 0⟩,
  ⟨100, [0, 0, 0, 0, 0, 0, 0, 0, 0, 0, 0, 0], 130, 2⟩,
  ⟨100, [0, 0, 0, 0, 5, 10, 0, 0, 0, 0, 0, 0], 0, 0⟩,
  ⟨100, [0, 0, 0, 0, 0, 5, 15, 0, 0, 0, 0, 0], 0, 0⟩,
  ⟨100, [0, 0, 0, 0, 0, 0, 10, 15, 0, 0, 0, 0], 0, 0⟩,
  ⟨100, [0, 0, 0, 0, 0, 0, 5, 10, 15, 0, 0, 0], 0, 0⟩,
  ⟨100, [0, 0, 0, 0, 0, 0, 0, 0, 0, 0, 0, 0], 130, 4⟩
]

def gasShootingStarRGB : List InstrRGB := [
  ⟨400, [0, 0, 0], 0, 0⟩,
  ⟨100, [15, 0, 0], 0, 0⟩,
  ⟨100, [251, 0, 0], 129, 1⟩,
  ⟨600, [0, 0, 0], 0, 0⟩
]

def gasStarLaunch : List InstrNormal := [
  ⟨400, [0, 0, 0, 0, 0, 0, 0, 0, 0, 0, 0, 0], 0, 0⟩,
  ⟨200, [5, 0, 0, 0, 0, 0, 0, 0, 0, 0, 0, 0], 0, 0⟩,
  ⟨200, [5, 0, 0, 0, 0, 0, 0, 0, 0, 0, 0, 5], 160, 18⟩,
  ⟨200, [15, 15, 15, 15, 15, 15, 10, 15, 15, 15, 15, 15], 0, 0⟩,
  ⟨200, [0, 0, 0, 0, 0, 251, 251, 0, 0, 0, 0, 0], 192, 16⟩
]

def gasStarLaunchRGB : List InstrRGB := [
  ⟨4000, [0, 0, 0], 0, 0⟩,
  ⟨800, [15, 15, 0], 0, 0⟩,
  ⟨200, [0, 255, 0], 129, 9⟩,
  ⟨200, [253, 255, 0], 129, 4⟩,
  ⟨200, [0, 0, 0], 0, 0⟩
]

def gasGenericFlasher : List InstrNormal := [
  ⟨500, [15, 15, 15, 15, 15, 15, 15, 15, 15, 15, 15, 15], 0, 0⟩,
  ⟨500, [0, 0, 0, 0, 0, 0, 0, 0, 0, 0, 0, 0], 0, 0⟩
]

def gasGenericFlasherRGB : List InstrRGB := [
  ⟨500, [7, 7, 7], 0, 0⟩,
  ⟨500, [0, 0, 0], 0, 0⟩
]

def gasKITT : List InstrNormal := [
  ⟨200, [0, 0, 0, 0, 0, 0, 0, 0, 0, 0, 0, 0], 0, 0⟩,
  ⟨100, [5, 0, 0, 0, 0, 0, 0, 0, 0, 0, 0, 5], 0, 0⟩,
  ⟨100, [10, 5, 0, 0, 0, 0, 0, 0, 0, 0, 5, 10], 0, 0⟩,
  ⟨100, [15, 10, 5, 0, 0, 0, 0, 0, 0, 5, 10, 15], 0, 0⟩,
  ⟨100, [10, 15, 10, 5, 0, 0, 0, 0, 5, 10, 15, 10], 0, 0⟩,
  ⟨100, [5, 10, 15, 10, 5, 0, 0, 5, 10, 15, 10, 5], 0, 0⟩,
  ⟨100, [0, 5, 10, 15, 10, 5, 5, 10, 15, 10, 5, 0], 0, 0⟩,
  ⟨100, [0, 0, 5, 10, 15, 10, 10, 15, 10, 5, 0, 0], 0, 0⟩,
  ⟨100, [0, 0, 0, 5, 10, 15, 15, 10, 5, 0, 0, 0], 0, 0⟩,
  ⟨100, [0, 0, 0, 0, 5, 10, 10, 5, 0, 0, 0, 0], 0, 0⟩,
  ⟨100, [0, 0, 0, 0, 0, 5, 5, 0, 0, 0, 0, 0], 0, 0⟩,
  ⟨100, [0, 0, 0, 0, 0, 0, 0, 0, 0, 0, 0, 0], 0, 0⟩,
  ⟨100, [0, 0, 0, 0, 0, 5, 5, 0, 0, 0, 0, 0], 0, 0⟩,
  ⟨100, [0, 0, 0, 0, 5, 10, 10, 5, 0, 0, 0, 0], 0, 0⟩,
  ⟨100, [0, 0, 0, 5, 10, 15, 15, 10, 5, 0, 0, 0], 0, 0⟩,
  ⟨100, [0, 0, 5, 10, 15, 10, 10, 15, 10, 5, 0, 0], 0, 0⟩,
  ⟨100, [0, 5, 10, 15, 10, 5, 5, 10, 15, 10, 5, 0], 0, 0⟩,
  ⟨100, [5, 10, 15, 10, 5, 0, 0, 5, 10, 15, 10, 5], 0, 0⟩,
  ⟨100, [10, 15, 10, 5, 0, 0, 0, 0, 5, 10, 15, 10], 0, 0⟩,
  ⟨100, [15, 10, 5, 0, 0, 0, 0, 0, 0, 5, 10, 15], 0, 0⟩,
  ⟨100, [10, 5, 0, 0, 0, 0, 0, 0, 0, 0, 5, 10], 0, 0⟩,
  ⟨100, [5, 0, 0, 0, 0, 0, 0, 0, 0, 0, 0, 5], 0, 0⟩
]

def gasKITTRGB : List InstrRGB := [
  ⟨800, [0, 0, 0], 0, 0⟩,
  ⟨100, [5, 0, 0], 129, 3⟩,
  ⟨100, [251, 0, 0], 129, 3⟩,
  ⟨1300, [0, 0, 0], 0, 0⟩
]

def gasDisco : List InstrNormal := [
  ⟨40, [0, 15, 0, 15, 0, 15, 0, 15, 0, 15, 0, 15], 0, 0⟩,
  ⟨40, [1, 2, 1, 2, 1, 2, 1, 2, 1, 2, 1, 2], 144, 3⟩,
  ⟨100, [0, 0, 0, 0, 0, 0, 0, 0, 0, 0, 0, 0], 0, 0⟩,
  ⟨40, [15, 0, 15, 0, 15, 0, 15, 0, 15, 0, 15, 0], 0, 0⟩,
  ⟨40, [2, 1, 2, 1, 2, 1, 2, 1, 2, 1, 2, 1], 144, 3⟩,
  ⟨100, [0, 0, 0, 0, 0, 0, 0, 0, 0, 0, 0, 0], 0, 0⟩
]

def gasDiscoRGB : List InstrRGB := [
  ⟨40, [15, 0, 15], 0, 0⟩,
  ⟨40, [2, 1, 2], 144, 3⟩,
  ⟨100, [0, 0, 0], 0, 0⟩,
  ⟨40, [0, 15, 0], 0, 0⟩,
  ⟨40, [2, 1, 2], 144, 3⟩,
  ⟨100, [0, 0, 0], 0, 0⟩
]

def gasPseudoRandomFade : List InstrNormal := [
  ⟨66, [0, 0, 0, 0, 0, 0, 0, 0, 0, 0, 0, 0], 0, 0⟩,
  ⟨66, [0, 0, 0, 0, 0, 0, 0, 1, 0, 0, 0, 0], 129, 14⟩,
  ⟨66, [0, 0, 1, 0, 0, 0, 0, 255, 0, 0, 0, 0], 129, 14⟩,
  ⟨66, [0, 0, 255, 0, 0, 0, 0, 0, 0, 0, 1, 0], 129, 14⟩,
  ⟨66, [1, 0, 0, 0, 0, 0, 0, 0, 0, 0, 255, 0], 129, 14⟩,
  ⟨66, [255, 0, 0, 0, 0, 1, 0, 0, 0, 0, 0, 0], 129, 14⟩,
  ⟨66, [0, 0, 0, 0, 0, 255, 0, 1, 0, 0, 0, 0], 129, 14⟩,
  ⟨66, [0, 0, 0, 0, 0, 0, 0, 255, 0, 0, 0, 1], 129, 14⟩,
  ⟨66, [0, 1, 0, 0, 0, 0, 0, 0, 0, 0, 0, 255], 129, 14⟩,
  ⟨66, [0, 255, 0, 1, 0, 0, 0, 0, 0, 0, 0, 0], 129, 14⟩,
  ⟨66, [0, 0, 0, 255, 0, 0, 1, 0, 0, 0, 0, 0], 129, 14⟩,
  ⟨66, [0, 0, 0, 0, 0, 0, 255, 0, 0, 0, 0, 0], 129, 14⟩,
  ⟨66, [0, 0, 0, 0, 0, 0, 0, 0, 0, 1, 0, 0], 129, 14⟩,
  ⟨66, [0, 0, 0, 0, 1, 0, 0, 0, 0, 255, 0, 0], 129, 14⟩,
  ⟨66, [0, 0, 0, 0, 255, 0, 0, 0, 0, 0, 0, 0], 129, 14⟩
]

def gasPseudoRandomFadeRGB : List InstrRGB := [
  ⟨9966, [0, 0, 0], 0, 0⟩,
  ⟨66, [1, 0, 0], 129, 14⟩,
  ⟨66, [255, 0, 0], 129, 14⟩,
  ⟨1980, [0, 0, 0], 0, 0⟩
]

def gasCrissCross : List InstrNormal := [
  ⟨350, [15, 0, 0, 0, 0, 0, 0, 0, 0, 0, 0, 0], 0, 0⟩,
  ⟨350, [0, 0, 15, 0, 0, 0, 0, 0, 0, 0, 0, 0], 0, 0⟩,
  ⟨350, [0, 0, 0, 0, 0, 0, 0, 0, 15, 0, 0, 0], 0, 0⟩,
  ⟨350, [0, 0, 0, 0, 15, 0, 0, 0, 0, 0, 0, 0], 0, 0⟩,
  ⟨350, [0, 0, 0, 0, 0, 0, 15, 0, 0, 0, 0, 0], 0, 0⟩,
  ⟨350, [0, 0, 0, 0, 0, 15, 0, 0, 0, 0, 0, 0], 0, 0⟩,
  ⟨350, [0, 0, 0, 0, 0, 0, 0, 15, 0, 0, 0, 0], 0, 0⟩,
  ⟨350, [0, 0, 0, 15, 0, 0, 0, 0, 0, 0, 0, 0], 0, 0⟩,
  ⟨350, [0, 0, 0, 0, 0, 0, 0, 0, 0, 15, 0, 0], 0, 0⟩,
  ⟨350, [0, 0, 0, 0, 0, 0, 0, 0, 0, 0, 0, 15], 0, 0⟩,
  ⟨350, [0, 15, 0, 0, 0, 0, 0, 0, 0, 0, 0, 0], 0, 0⟩,
  ⟨350, [0, 15, 0, 0, 0, 0, 0, 0, 0, 0, 15, 0], 0, 0⟩
]

def gasCrissCrossRGB : List InstrRGB := [
  ⟨1050, [0, 15, 15], 0, 0⟩,
  ⟨1050, [15, 0, 0], 0, 0⟩,
  ⟨1050, [2, 10, 10], 0, 0⟩,
  ⟨1050, [15, 15, 0], 0, 0⟩
]

def gasFadeout : List InstrNormal := [
  ⟨350, [0, 0, 0, 0, 4, 0, 9, 0, 0, 15, 0, 0], 0, 0⟩,
  ⟨350, [0, 0, 0, 15, 0, 0, 4, 0, 0, 9, 0, 0], 0, 0⟩,
  ⟨350, [15, 0, 0, 9, 0, 0, 0, 0, 0, 4, 0, 0], 0, 0⟩,
  ⟨350, [9, 0, 0, 4, 0, 0, 0, 15, 0, 0, 0, 0], 0, 0⟩,
  ⟨350, [4, 0, 0, 0, 0, 0, 0, 9, 0, 0, 0, 15], 0, 0⟩,
  ⟨350, [0, 0, 0, 0, 0, 0, 0, 4, 15, 0, 0, 9], 0, 0⟩,
  ⟨350, [0, 0, 15, 0, 0, 0, 0, 0, 9, 0, 0, 4], 0, 0⟩,
  ⟨350, [0, 0, 9, 0, 0, 0, 0, 0, 4, 0, 15, 0], 0, 0⟩,
  ⟨350, [0, 0, 4, 0, 0, 15, 0, 0, 0, 0, 9, 0], 0, 0⟩,
  ⟨350, [0, 15, 0, 0, 0, 9, 0, 0, 0, 0, 4, 0], 0, 0⟩,
  ⟨350, [0, 9, 0, 0, 15, 4, 0, 0, 0, 0, 0, 0], 0, 0⟩,
  ⟨350, [0, 4, 0, 0, 9, 0, 15, 0, 0, 0, 0, 0], 0, 0⟩
]

def gasFadeoutRGB : List InstrRGB := [
  ⟨700, [15, 10, 0], 0, 0⟩,
  ⟨700, [11, 6, 0], 0, 0⟩,
  ⟨700, [4, 2, 0], 0, 0⟩,
  ⟨700, [0, 0, 0], 0, 0⟩,
  ⟨700, [4, 2, 0], 0, 0⟩,
  ⟨700, [11, 6, 0], 0, 0⟩
]

def gasFlicker : List InstrNormal := [
  ⟨200, [0, 0, 0, 0, 0, 0, 0, 0, 15, 0, 0, 0], 0, 0⟩,
  ⟨200, [0, 0, 15, 0, 0, 0, 0, 0, 0, 0, 0, 0], 0, 0⟩,
  ⟨200, [0, 0, 0, 0, 0, 0, 0, 0, 0, 0, 15, 0], 0, 0⟩,
  ⟨200, [0, 0, 0, 0, 0, 15, 0, 0, 0, 0, 0, 0], 0, 0⟩,
  ⟨200, [15, 0, 0, 0, 0, 0, 0, 0, 0, 0, 0, 0], 0, 0⟩,
  ⟨200, [0, 15, 0, 0, 0, 0, 0, 0, 0, 0, 0, 0], 0, 0⟩,
  ⟨200, [0, 0, 0, 0, 0, 0, 0, 0, 0, 0, 0, 15], 0, 0⟩,
  ⟨200, [0, 0, 0, 0, 0, 0, 0, 15, 0, 0, 0, 0], 0, 0⟩,
  ⟨200, [0, 0, 0, 15, 0, 0, 0, 0, 0, 0, 0, 0], 0, 0⟩,
  ⟨200, [0, 0, 0, 0, 0, 0, 0, 0, 0, 15, 0, 0], 0, 0⟩
]

def gasFlickerRGB : List InstrRGB := [
  ⟨400, [15, 0, 0], 0, 0⟩,
  ⟨100, [15, 15, 0], 0, 0⟩,
  ⟨800, [15, 0, 0], 0, 0⟩,
  ⟨100, [15, 15, 0], 0, 0⟩,
  ⟨500, [15, 0, 0], 0, 0⟩,
  ⟨100, [15, 15, 0], 0, 0⟩
]

def gasPingpong : List InstrNormal := [
  ⟨175, [15, 0, 0, 0, 0, 0, 0, 0, 0, 0, 0, 0], 0, 0⟩,
  ⟨175, [0, 0, 0, 0, 0, 0, 0, 0, 0, 0, 0, 0], 130, 4⟩,
  ⟨175, [0, 0, 0, 0, 0, 0, 0, 0, 0, 0, 0, 0], 0, 0⟩,
  ⟨175, [0, 0, 0, 0, 0, 0, 15, 0, 0, 0, 0, 0], 0, 0⟩,
  ⟨175, [0, 0, 0, 0, 0, 0, 0, 0, 0, 0, 0, 0], 130, 4⟩,
  ⟨175, [0, 0, 0, 0, 0, 0, 0, 0, 0, 0, 0, 0], 0, 0⟩,
  ⟨175, [0, 0, 0, 0, 0, 0, 0, 0, 0, 0, 0, 15], 0, 0⟩,
  ⟨175, [0, 0, 0, 0, 0, 0, 0, 0, 0, 0, 0, 0], 132, 4⟩,
  ⟨175, [0, 0, 0, 0, 0, 0, 0, 0, 0, 0, 0, 0], 0, 0⟩,
  ⟨175, [0, 0, 0, 0, 0, 15, 0, 0, 0, 0, 0, 0], 0, 0⟩,
  ⟨175, [0, 0, 0, 0, 0, 0, 0, 0, 0, 0, 0, 0], 132, 4⟩,
  ⟨175, [0, 0, 0, 0, 0, 0, 0, 0, 0, 0, 0, 0], 0, 0⟩
]

def gasPingpongRGB : List InstrRGB := [
  ⟨1050, [15, 15, 0], 0, 0⟩,
  ⟨2450, [0, 15, 15], 0, 0⟩,
  ⟨1400, [15, 15, 0], 0, 0⟩
]

def gasSparkle : List InstrNormal := [
  ⟨200, [4, 4, 4, 4, 15, 4, 4, 4, 4, 4, 4, 4], 0, 0⟩,
  ⟨200, [4, 15, 4, 4, 4, 4, 4, 4, 4, 4, 4, 4], 0, 0⟩,
  ⟨200, [4, 4, 4, 4, 4, 4, 15, 4, 4, 4, 4, 4], 0, 0⟩,
  ⟨200, [4, 4, 4, 4, 4, 4, 4, 4, 4, 4, 15, 4], 0, 0⟩,
  ⟨200, [4, 4, 15, 4, 4, 4, 4, 4, 4, 4, 4, 4], 0, 0⟩,
  ⟨200, [15, 4, 4, 4, 4, 4, 4, 4, 4, 4, 4, 4], 0, 0⟩,
  ⟨200, [4, 4, 4, 4, 4, 4, 4, 4, 4, 4, 4, 15], 0, 0⟩,
  ⟨200, [4, 4, 4, 15, 4, 4, 4, 4, 4, 4, 4, 4], 0, 0⟩,
  ⟨200, [4, 4, 4, 4, 4, 4, 4, 4, 4, 15, 4, 4], 0, 0⟩,
  ⟨200, [4, 4, 4, 4, 4, 15, 4, 4, 4, 4, 4, 4], 0, 0⟩
]

def gasSparkleRGB : List InstrRGB := [
  ⟨500, [15, 0, 0], 0, 0⟩,
  ⟨250, [15, 3, 1], 0, 0⟩,
  ⟨250, [15, 6, 2], 0, 0⟩,
  ⟨500, [15, 10, 3], 0, 0⟩,
  ⟨250, [15, 6, 2], 0, 0⟩,
  ⟨250, [15, 3, 1], 0, 0⟩
]

def gasSplit2 : List InstrNormal := [
  ⟨500, [15, 0, 15, 0, 15, 0, 15, 0, 15, 0, 15, 0], 0, 0⟩,
  ⟨500, [0, 15, 0, 15, 0, 15, 0, 15, 0, 15, 0, 15], 0, 0⟩
]

def gasSplit2RGB : List InstrRGB := [
  ⟨333, [15, 0, 15], 0, 0⟩,
  ⟨333, [0, 15, 15], 0, 0⟩,
  ⟨334, [15, 15, 0], 0, 0⟩
]

def gasStepping : List InstrNormal := [
  ⟨350, [15, 0, 0, 0, 0, 0, 0, 0, 0, 0, 0, 0], 0, 0⟩,
  ⟨350, [0, 0, 0, 0, 0, 0, 0, 0, 0, 0, 0, 0], 130, 10⟩
]

def gasSteppingRGB : List InstrRGB := [
  ⟨350, [15, 0, 0], 0, 0⟩,
  ⟨350, [15, 6, 0], 0, 0⟩,
  ⟨350, [15, 10, 0], 0, 0⟩,
  ⟨350, [15, 15, 0], 0, 0⟩,
  ⟨350, [0, 15, 0], 0, 0⟩,
  ⟨350, [0, 10, 0], 0, 0⟩,
  ⟨350, [2, 10, 10], 0, 0⟩,
  ⟨350, [0, 15, 15], 0, 0⟩,
  ⟨350, [7, 5, 10], 0, 0⟩,
  ⟨350, [15, 0, 15], 0, 0⟩,
  ⟨350, [15, 12, 12], 0, 0⟩
]

def gasRace : List InstrNormal := [
  ⟨100, [5, 10, 15, 0, 0, 0, 0, 0, 0, 0, 0, 0], 0, 0⟩,
  ⟨100, [0, 0, 0, 0, 0, 0, 0, 0, 0, 0, 0, 0], 130, 2⟩,
  ⟨100, [0, 0, 0, 0, 5, 10, 0, 0, 0, 0, 0, 0], 0, 0⟩,
  ⟨100, [0, 0, 0, 0, 0, 5, 15, 0, 0, 0, 0, 0], 0, 0⟩,
  ⟨100, [0, 0, 0, 0, 0, 0, 10, 15, 0, 0, 0, 0], 0, 0⟩,
  ⟨100, [0, 0, 0, 0, 0, 0, 5, 10, 15, 0, 0, 0], 0, 0⟩,
  ⟨100, [0, 0, 0, 0, 0, 0, 0, 0, 0, 0, 0, 0], 130, 4⟩,
  ⟨70, [5, 10, 15, 0, 0, 0, 0, 0, 0, 0, 0, 0], 0, 0⟩,
  ⟨70, [0, 0, 0, 0, 0, 0, 0, 0, 0, 0, 0, 0], 130, 2⟩,
  ⟨70, [0, 0, 0, 0, 5, 10, 0, 0, 0, 0, 0, 0], 0, 0⟩,
  ⟨70, [0, 0, 0, 0, 0, 5, 15, 0, 0, 0, 0, 0], 0, 0⟩,
  ⟨70, [0, 0, 0, 0, 0, 0, 10, 15, 0, 0, 0, 0], 0, 0⟩,
  ⟨70, [0, 0, 0, 0, 0, 0, 5, 10, 15, 0, 0, 0], 0, 0⟩,
  ⟨70, [0, 0, 0, 0, 0, 0, 0, 0, 0, 0, 0, 0], 130, 4⟩,
  ⟨40, [5, 10, 15, 0, 0, 0, 0, 0, 0, 0, 0, 0], 0, 0⟩,
  ⟨40, [0, 0, 0, 0, 0, 0, 0, 0, 0, 0, 0, 0], 130, 2⟩,
  ⟨40, [0, 0, 0, 0, 5, 10, 0, 0, 0, 0, 0, 0], 0, 0⟩,
  ⟨40, [0, 0, 0, 0, 0, 5, 15, 0, 0, 0, 0, 0], 0, 0⟩,
  ⟨40, [0, 0, 0, 0, 0, 0, 10, 15, 0, 0, 0, 0], 0, 0⟩,
  ⟨40, [0, 0, 0, 0, 0, 0, 5, 10, 15, 0, 0, 0], 0, 0⟩,
  ⟨40, [0, 0, 0, 0, 0, 0, 0, 0, 0, 0, 0, 0], 130, 4⟩
]

def gasRaceRGB : List InstrRGB := [
  ⟨400, [0, 0, 0], 0, 0⟩,
  ⟨100, [15, 0, 0], 0, 0⟩,
  ⟨100, [251, 0, 0], 129, 1⟩,
  ⟨600, [0, 0, 0], 0, 0⟩,
  ⟨280, [0, 0, 0], 0, 0⟩,
  ⟨70, [15, 0, 0], 0, 0⟩,
  ⟨70, [251, 0, 0], 129, 1⟩,
  ⟨420, [0, 0, 0], 0, 0⟩,
  ⟨160, [0, 0, 0], 0, 0⟩,
  ⟨40, [15, 0, 0], 0, 0⟩,
  ⟨40, [251, 0, 0], 129, 1⟩,
  ⟨240, [0, 0, 0], 0, 0⟩
]

def gasYingYang : List InstrNormal := [
  ⟨150, [0, 5, 10, 15, 0, 0, 0, 5, 10, 15, 0, 0], 0, 0⟩,
  ⟨150, [0, 0, 0, 0, 0, 0, 0, 0, 0, 0, 0, 0], 130, 4⟩
]

def gasYingYangRGB : List InstrRGB := [
  ⟨450, [2, 6, 15], 0, 0⟩,
  ⟨450, [15, 8, 1], 0, 0⟩
]

def gasIce : List InstrNormal := [
  ⟨300, [0, 0, 0, 0, 0, 15, 0, 0, 0, 0, 0, 0], 0, 0⟩,
  ⟨300, [0, 0, 0, 0, 15, 10, 0, 0, 0, 0, 0, 0], 0, 0⟩,
  ⟨300, [0, 0, 0, 15, 10, 5, 15, 0, 0, 0, 0, 0], 0, 0⟩,
  ⟨300, [0, 0, 15, 10, 5, 0, 10, 15, 0, 0, 0, 0], 0, 0⟩,
  ⟨300, [0, 15, 10, 5, 0, 0, 5, 10, 15, 0, 0, 0], 0, 0⟩,
  ⟨300, [15, 10, 5, 0, 0, 0, 0, 5, 10, 15, 0, 0], 0, 0⟩,
  ⟨300, [15, 5, 0, 0, 0, 0, 0, 0, 5, 10, 15, 0], 0, 0⟩,
  ⟨300, [15, 0, 0, 0, 0, 0, 0, 0, 0, 5, 10, 15], 0, 0⟩,
  ⟨300, [0, 0, 0, 0, 0, 0, 0, 0, 0, 0, 5, 15], 0, 0⟩,
  ⟨300, [0, 0, 0, 0, 0, 0, 0, 0, 0, 0, 0, 15], 0, 0⟩,
  ⟨300, [0, 0, 0, 0, 0, 0, 0, 0, 0, 0, 0, 0], 0, 0⟩
]

def gasIceRGB : List InstrRGB := [
  ⟨194, [0, 15, 15], 0, 0⟩,
  ⟨194, [0, 255, 0], 129, 15⟩
]

def gasBlackness : List InstrNormal := [
  ⟨65535, [0, 0, 0, 0, 0, 0, 0, 0, 0, 0, 0, 0], 0, 0⟩
]

def gasBlacknessRGB : List InstrRGB := [
  ⟨65535, [0, 0, 0], 0, 0⟩
]

/-- Table of animations, `gasAnimations` of fw_py32 (18 initializers; the
entries follow the source order, with the commented-out rows omitted and
`gasStepping` repeated as the reserved last entry). -/
def gasAnimations : List S_ANIMATION :=
[ ⟨gasRetroVersion, gasRetroVersionRGB⟩,
  ⟨gasSoftFlashing, gasSoftFlashingRGB⟩,
  ⟨gasDisco, gasDiscoRGB⟩,
  ⟨gasStarLaunch, gasStarLaunchRGB⟩,
  ⟨gasCrissCross, gasCrissCrossRGB⟩,
  ⟨gasGenericFlasher, gasGenericFlasherRGB⟩,
  ⟨gasKITT, gasKITTRGB⟩,
  ⟨gasPingpong, gasPingpongRGB⟩,
  ⟨gasFadeRing, gasFadeRingRGB⟩,
  ⟨gasYingYang, gasYingYangRGB⟩,
  ⟨gasPseudoRandomFade, gasPseudoRandomFadeRGB⟩,
  ⟨gasFlicker, gasFlickerRGB⟩,
  ⟨gasRace, gasRaceRGB⟩,
  ⟨gasSparkle, gasSparkleRGB⟩,
  ⟨gasIce, gasIceRGB⟩,
  ⟨gasSplit2, gasSplit2RGB⟩,
  ⟨gasStepping, gasSteppingRGB⟩,
  ⟨gasStepping, gasSteppingRGB⟩ ]

/-- Modelled from the spec: `NUM_ANIMATIONS` for the fw_py32 build.  The
`animation.h` of fw_py32 is not under `src/`; the value is fixed by the
catalog itself — `gasAnimations` is declared with `NUM_ANIMATIONS` entries
and carries 18 initializers, and the spec places one reserved animation in
the catalog's last slot — so `NUM_ANIMATIONS = 18`. -/
def NUM_ANIMATIONS : Nat := 18

end Py32

namespace Fw

/-! ### Single-table animation engine from `src/firmware/src/animation.c`

This variant keeps one instruction stream per animation carrying both the
LED and the RGB brightness bytes, one shared timer
(`gu16SynchronizedTimer`) and one cursor. -/

/-- Opcode bits of this variant's `E_ANIMATION_OPCODE`. -/
def LOAD : Nat := 0x00

def ADD : Nat := 0x01

def RSHIFT : Nat := 0x02

def LSHIFT : Nat := 0x04

def USHIFT : Nat := 0x08

def DSHIFT : Nat := 0x10

def REPEAT : Nat := 0x20

/-- `LEDS_NUM`. -/
def LEDS_NUM : Nat := 12

/-- `RIGHT_LEDS_START`. -/
def RIGHT_LEDS_START : Nat := 6

/-- `S_ANIMATION_INSTRUCTION` of this variant. -/
structure InstrFw where
  u16TimingMs : Nat
  au8LEDBrightness : List Nat
  au8RGBLEDBrightness : List Nat
  u8AnimationOpcode : Nat
  u8AnimationOperand : Nat
deriving Repr, DecidableEq

/-- `USHIFT` opcode: rotate the left half (indices `0..RIGHT_LEDS_START-1`)
one position towards higher indices and the right half one position
towards lower indices. -/
def applyUSHIFT (b : List Nat) : List Nat :=
  rotateRight (b.take RIGHT_LEDS_START) ++ rotateLeft (b.drop RIGHT_LEDS_START)

/-- Module state of `src/firmware/src/animation.c`. -/
structure FwState where
  gau8LEDBrightness : List Nat
  gau8RGBLEDs : List Nat
  gu16SynchronizedTimer : Nat
  gu16LastCall : Nat
  u8LastState : Nat
  u8RepetitionCounter : Nat
  u8AnimationIndex : Nat
deriving Repr, DecidableEq

/-- `Animation_Cycle` of the firmware variant; an animation is its
instruction list (the C `u8AnimationLength` field always equals the length
of the pointed-to array, and a zero-initialised table entry has length 0
and a null instruction pointer, i.e. the empty list).  A `none` result
marks an out-of-bounds instruction fetch. -/
def Animation_Cycle (table : List (List InstrFw)) (numAnims : Nat)
    (timeNow : Nat) (s : FwState) : Option FwState :=
  if timeNow = s.gu16LastCall then some s else
  let delta := sub16 timeNow s.gu16LastCall
  let t0 := wrap16 (s.gu16SynchronizedTimer + delta)
  let aIdx := if numAnims ≤ s.u8AnimationIndex then 0 else s.u8AnimationIndex
  let anim := table.getD aIdx []
  let st0 := walkIdx (anim.map (·.u16TimingMs)) 0 t0
  let restart := anim.length ≤ st0
  let st := if restart then 0 else st0
  let t1 := if restart then 0 else t0
  if s.u8LastState ≠ st then
    match anim.get? st with
    | none => none
    | some ins =>
      if ins.u8AnimationOpcode = LOAD then
        some ⟨ins.au8LEDBrightness, ins.au8RGBLEDBrightness, t1, timeNow, st,
          s.u8RepetitionCounter, aIdx⟩
      else
        let b1 := if ins.u8AnimationOpcode &&& ADD ≠ 0 then
          applyADD ins.au8LEDBrightness s.gau8LEDBrightness else s.gau8LEDBrightness
        let r1 := if ins.u8AnimationOpcode &&& ADD ≠ 0 then
          applyADD ins.au8RGBLEDBrightness s.gau8RGBLEDs else s.gau8RGBLEDs
        let b2 := if ins.u8AnimationOpcode &&& RSHIFT ≠ 0 then rotateRight b1 else b1
        let b3 := if ins.u8AnimationOpcode &&& LSHIFT ≠ 0 then rotateLeft b2 else b2
        let b4 := if ins.u8AnimationOpcode &&& USHIFT ≠ 0 then applyUSHIFT b3 else b3
        let r := repeatStep REPEAT ins.u16TimingMs ins.u8AnimationOperand
          ins.u8AnimationOpcode st t1 s.u8RepetitionCounter s.u8LastState
        some ⟨b4, r1, r.1, timeNow, r.2.2, r.2.1, aIdx⟩
  else
    some ⟨s.gau8LEDBrightness, s.gau8RGBLEDs, t1, timeNow, s.u8LastState,
      s.u8RepetitionCounter, aIdx⟩

/-- `Animation_Set` of the firmware variant. -/
def Animation_Set (numAnims idx : Nat) (s : FwState) : FwState :=
  if idx < numAnims then
    ⟨s.gau8LEDBrightness, s.gau8RGBLEDs, 0, s.gu16LastCall, 0xFF, 0, idx⟩
  else s

/-- Firmware-variant state at boot with persisted index `idx` loaded. -/
def bootFw (idx t0 : Nat) : FwState :=
  ⟨List.replicate LEDS_NUM 0, List.replicate 3 0, 0, t0, 0xFF, 0, idx⟩

/-! ### The compiled-in animation table of the firmware variant
(transcribed from `src/firmware/src/animation.c`; `gasStarLaunch` is
declared with 39 entries but carries 38 initializers, so its last entry is
zero-initialised). -/

def gasRetroVersionFw : List InstrFw := [
  ⟨133, [15, 0, 15, 0, 0, 15, 15, 0, 15, 0, 0, 15], [15, 0, 0], 0, 0⟩,
  ⟨133, [0, 15, 0, 15, 15, 0, 0, 15, 0, 15, 15, 0], [0, 0, 0], 0, 0⟩,
  ⟨133, [15, 0, 0, 0, 0, 0, 15, 0, 0, 0, 0, 0], [0, 0, 0], 0, 0⟩,
  ⟨133, [0, 15, 0, 15, 15, 0, 0, 15, 0, 15, 15, 0], [0, 0, 0], 0, 0⟩,
  ⟨133, [15, 0, 0, 0, 0, 0, 15, 0, 0, 0, 0, 0], [0, 0, 0], 0, 0⟩,
  ⟨133, [0, 0, 0, 15, 0, 0, 0, 0, 0, 15, 0, 0], [0, 0, 0], 0, 0⟩,
  ⟨133, [15, 0, 15, 0, 0, 15, 15, 0, 0, 15, 0, 15], [15, 0, 0], 0, 0⟩,
  ⟨133, [0, 0, 0, 15, 0, 0, 0, 0, 0, 15, 0, 0], [0, 0, 0], 0, 0⟩
]

def gasSoftFlashingFw : List InstrFw := [
  ⟨100, [0, 0, 0, 0, 0, 0, 0, 0, 0, 0, 0, 0], [0, 0, 0], 0, 0⟩,
  ⟨50, [1, 1, 1, 1, 1, 1, 1, 1, 1, 1, 1, 1], [1, 0, 0], 33, 14⟩,
  ⟨100, [15, 15, 15, 15, 15, 15, 15, 15, 15, 15, 15, 15], [15, 0, 0], 0, 0⟩,
  ⟨50, [255, 255, 255, 255, 255, 255, 255, 255, 255, 255, 255, 255], [255, 0, 0], 33, 14⟩
]

def gasShootingStarFw : List InstrFw := [
  ⟨100, [5, 10, 15, 0, 0, 0, 0, 0, 0, 0, 0, 0], [0, 0, 0], 0, 0⟩,
  ⟨100, [0, 0, 0, 0, 0, 0, 0, 0, 0, 0, 0, 0], [0, 0, 0], 34, 2⟩,
  ⟨100, [0, 0, 0, 0, 5, 10, 0, 0, 0, 0, 0, 0], [15, 0, 0], 0, 0⟩,
  ⟨100, [0, 0, 0, 0, 0, 5, 15, 0, 0, 0, 0, 0], [10, 0, 0], 0, 0⟩,
  ⟨100, [0, 0, 0, 0, 0, 0, 10, 15, 0, 0, 0, 0], [5, 0, 0], 0, 0⟩,
  ⟨100, [0, 0, 0, 0, 0, 0, 5, 10, 15, 0, 0, 0], [0, 0, 0], 0, 0⟩,
  ⟨100, [0, 0, 0, 0, 0, 0, 0, 0, 0, 0, 0, 0], [0, 0, 0], 34, 4⟩
]

def gasStarLaunchFw : List InstrFw := [
  ⟨400, [0, 0, 0, 0, 0, 0, 0, 0, 0, 0, 0, 0], [0, 0, 0], 0, 0⟩,
  ⟨200, [5, 0, 0, 0, 0, 0, 0, 0, 0, 0, 0, 0], [0, 0, 0], 0, 0⟩,
  ⟨200, [10, 0, 0, 0, 0, 0, 0, 0, 0, 0, 0, 5], [0, 0, 0], 0, 0⟩,
  ⟨200, [15, 0, 0, 0, 0, 0, 0, 0, 0, 0, 0, 10], [0, 0, 0], 0, 0⟩,
  ⟨200, [15, 5, 0, 0, 0, 0, 0, 0, 0, 0, 0, 15], [0, 0, 0], 0, 0⟩,
  ⟨200, [15, 10, 0, 0, 0, 0, 0, 0, 0, 0, 5, 15], [0, 0, 0], 0, 0⟩,
  ⟨200, [15, 15, 0, 0, 0, 0, 0, 0, 0, 0, 10, 15], [0, 0, 0], 0, 0⟩,
  ⟨200, [15, 15, 5, 0, 0, 0, 0, 0, 0, 0, 15, 15], [0, 0, 0], 0, 0⟩,
  ⟨200, [15, 15, 10, 0, 0, 0, 0, 0, 0, 5, 15, 15], [0, 0, 0], 0, 0⟩,
  ⟨200, [15, 15, 15, 0, 0, 0, 0, 0, 0, 10, 15, 15], [0, 0, 0], 0, 0⟩,
  ⟨200, [15, 15, 15, 5, 0, 0, 0, 0, 0, 15, 15, 15], [0, 0, 0], 0, 0⟩,
  ⟨200, [15, 15, 15, 10, 0, 0, 0, 0, 5, 15, 15, 15], [0, 0, 0], 0, 0⟩,
  ⟨200, [15, 15, 15, 15, 0, 0, 0, 0, 10, 15, 15, 15], [0, 0, 0], 0, 0⟩,
  ⟨200, [15, 15, 15, 15, 5, 0, 0, 0, 15, 15, 15, 15], [0, 0, 0], 0, 0⟩,
  ⟨200, [15, 15, 15, 15, 10, 0, 0, 5, 15, 15, 15, 15], [0, 0, 0], 0, 0⟩,
  ⟨200, [15, 15, 15, 15, 15, 0, 0, 10, 15, 15, 15, 15], [0, 0, 0], 0, 0⟩,
  ⟨200, [15, 15, 15, 15, 15, 5, 0, 15, 15, 15, 15, 15], [0, 0, 0], 0, 0⟩,
  ⟨200, [15, 15, 15, 15, 15, 10, 5, 15, 15, 15, 15, 15], [0, 0, 0], 0, 0⟩,
  ⟨200, [15, 15, 15, 15, 15, 15, 10, 15, 15, 15, 15, 15], [0, 0, 0], 0, 0⟩,
  ⟨400, [15, 15, 15, 15, 15, 15, 15, 15, 15, 15, 15, 15], [15, 15, 0], 0, 0⟩,
  ⟨200, [15, 15, 15, 15, 15, 15, 10, 15, 15, 15, 15, 15], [15, 15, 0], 0, 0⟩,
  ⟨200, [15, 15, 15, 15, 15, 10, 5, 15, 15, 15, 15, 15], [15, 15, 0], 0, 0⟩,
  ⟨200, [15, 15, 15, 15, 15, 5, 0, 15, 15, 15, 15, 15], [15, 14, 0], 0, 0⟩,
  ⟨200, [15, 15, 15, 15, 15, 0, 0, 10, 15, 15, 15, 15], [15, 13, 0], 0, 0⟩,
  ⟨200, [15, 15, 15, 15, 10, 0, 0, 5, 15, 15, 15, 15], [15, 12, 0], 0, 0⟩,
  ⟨200, [15, 15, 15, 15, 5, 0, 0, 0, 15, 15, 15, 15], [15, 11, 0], 0, 0⟩,
  ⟨200, [15, 15, 15, 15, 0, 0, 0, 0, 10, 15, 15, 15], [15, 10, 0], 0, 0⟩,
  ⟨200, [15, 15, 15, 10, 0, 0, 0, 0, 5, 15, 15, 15], [15, 9, 0], 0, 0⟩,
  ⟨200, [15, 15, 15, 5, 0, 0, 0, 0, 0, 15, 15, 15], [15, 8, 0], 0, 0⟩,
  ⟨200, [15, 15, 15, 0, 0, 0, 0, 0, 0, 10, 15, 15], [15, 7, 0], 0, 0⟩,
  ⟨200, [15, 15, 10, 0, 0, 0, 0, 0, 0, 5, 15, 15], [15, 6, 0], 0, 0⟩,
  ⟨200, [15, 15, 5, 0, 0, 0, 0, 0, 0, 0, 15, 15], [15, 5, 0], 0, 0⟩,
  ⟨200, [15, 15, 0, 0, 0, 0, 0, 0, 0, 0, 10, 15], [12, 4, 0], 0, 0⟩,
  ⟨200, [15, 10, 0, 0, 0, 0, 0, 0, 0, 0, 5, 15], [9, 3, 0], 0, 0⟩,
  ⟨200, [15, 5, 0, 0, 0, 0, 0, 0, 0, 0, 0, 15], [6, 2, 0], 0, 0⟩,
  ⟨200, [15, 0, 0, 0, 0, 0, 0, 0, 0, 0, 0, 10], [3, 1, 0], 0, 0⟩,
  ⟨200, [10, 0, 0, 0, 0, 0, 0, 0, 0, 0, 0, 5], [0, 0, 0], 0, 0⟩,
  ⟨200, [5, 0, 0, 0, 0, 0, 0, 0, 0, 0, 0, 0], [0, 0, 0], 0, 0⟩,
  ⟨0, [0, 0, 0, 0, 0, 0, 0, 0, 0, 0, 0, 0], [0, 0, 0], 0, 0⟩
]

def gasGenericFlasherFw : List InstrFw := [
  ⟨500, [15, 15, 15, 15, 15, 15, 15, 15, 15, 15, 15, 15], [7, 7, 7], 0, 0⟩,
  ⟨500, [0, 0, 0, 0, 0, 0, 0, 0, 0, 0, 0, 0], [0, 0, 0], 0, 0⟩
]

def gasKITTFw : List InstrFw := [
  ⟨200, [0, 0, 0, 0, 0, 0, 0, 0, 0, 0, 0, 0], [0, 0, 0], 0, 0⟩,
  ⟨100, [5, 0, 0, 0, 0, 0, 0, 0, 0, 0, 0, 5], [0, 0, 0], 0, 0⟩,
  ⟨100, [10, 5, 0, 0, 0, 0, 0, 0, 0, 0, 5, 10], [0, 0, 0], 0, 0⟩,
  ⟨100, [15, 10, 5, 0, 0, 0, 0, 0, 0, 5, 10, 15], [0, 0, 0], 0, 0⟩,
  ⟨100, [10, 15, 10, 5, 0, 0, 0, 0, 5, 10, 15, 10], [0, 0, 0], 0, 0⟩,
  ⟨100, [5, 10, 15, 10, 5, 0, 0, 5, 10, 15, 10, 5], [0, 0, 0], 0, 0⟩,
  ⟨100, [0, 5, 10, 15, 10, 5, 5, 10, 15, 10, 5, 0], [0, 0, 0], 0, 0⟩,
  ⟨100, [0, 0, 0, 0, 0, 241, 241, 0, 0, 0, 0, 0], [5, 0, 0], 41, 2⟩,
  ⟨100, [0, 0, 0, 0, 0, 241, 241, 0, 0, 0, 0, 0], [251, 0, 0], 41, 2⟩,
  ⟨100, [0, 0, 0, 0, 0, 5, 5, 0, 0, 0, 0, 0], [0, 0, 0], 0, 0⟩,
  ⟨100, [0, 0, 0, 0, 5, 10, 10, 5, 0, 0, 0, 0], [0, 0, 0], 0, 0⟩,
  ⟨100, [0, 0, 0, 5, 10, 15, 15, 10, 5, 0, 0, 0], [0, 0, 0], 0, 0⟩,
  ⟨100, [0, 0, 5, 10, 15, 10, 10, 15, 10, 5, 0, 0], [0, 0, 0], 0, 0⟩,
  ⟨100, [0, 5, 10, 15, 10, 5, 5, 10, 15, 10, 5, 0], [0, 0, 0], 0, 0⟩,
  ⟨100, [5, 10, 15, 10, 5, 0, 0, 5, 10, 15, 10, 5], [0, 0, 0], 0, 0⟩,
  ⟨100, [10, 15, 10, 5, 0, 0, 0, 0, 5, 10, 15, 10], [0, 0, 0], 0, 0⟩,
  ⟨100, [15, 10, 5, 0, 0, 0, 0, 0, 0, 5, 10, 15], [0, 0, 0], 0, 0⟩,
  ⟨100, [10, 5, 0, 0, 0, 0, 0, 0, 0, 0, 5, 10], [0, 0, 0], 0, 0⟩,
  ⟨100, [5, 0, 0, 0, 0, 0, 0, 0, 0, 0, 0, 5], [0, 0, 0], 0, 0⟩
]

def gasDiscoFw : List InstrFw := [
  ⟨40, [0, 15, 0, 15, 0, 15, 0, 15, 0, 15, 0, 15], [15, 0, 15], 0, 0⟩,
  ⟨40, [0, 7, 0, 7, 0, 7, 0, 7, 0, 7, 0, 7], [7, 0, 7], 0, 0⟩,
  ⟨40, [0, 4, 0, 4, 0, 4, 0, 4, 0, 4, 0, 4], [4, 0, 4], 0, 0⟩,
  ⟨40, [0, 2, 0, 2, 0, 2, 0, 2, 0, 2, 0, 2], [2, 0, 2], 0, 0⟩,
  ⟨40, [0, 1, 0, 1, 0, 1, 0, 1, 0, 1, 0, 1], [1, 0, 1], 0, 0⟩,
  ⟨100, [0, 0, 0, 0, 0, 0, 0, 0, 0, 0, 0, 0], [0, 0, 0], 0, 0⟩,
  ⟨40, [15, 0, 15, 0, 15, 0, 15, 0, 15, 0, 15, 0], [0, 15, 0], 0, 0⟩,
  ⟨40, [7, 0, 7, 0, 7, 0, 7, 0, 7, 0, 7, 0], [0, 7, 0], 0, 0⟩,
  ⟨40, [4, 0, 4, 0, 4, 0, 4, 0, 4, 0, 4, 0], [0, 4, 0], 0, 0⟩,
  ⟨40, [2, 0, 2, 0, 2, 0, 2, 0, 2, 0, 2, 0], [0, 2, 0], 0, 0⟩,
  ⟨40, [1, 0, 1, 0, 1, 0, 1, 0, 1, 0, 1, 0], [0, 1, 0], 0, 0⟩,
  ⟨100, [0, 0, 0, 0, 0, 0, 0, 0, 0, 0, 0, 0], [0, 0, 0], 0, 0⟩
]

def gasBlacknessFw : List InstrFw := [
  ⟨65535, [0, 0, 0, 0, 0, 0, 0, 0, 0, 0, 0, 0], [0, 0, 0], 0, 0⟩
]

/-- `NUM_ANIMATIONS` of the firmware variant (`src/firmware/src/animation.h`). -/
def NUM_ANIMATIONS : Nat := 15

/-- Table of animations, `gasAnimations` of the firmware variant: the
array is declared with `NUM_ANIMATIONS = 15` entries but its initializer
lists only 8 animations, so the remaining 7 entries are zero-initialised
(length 0, null instruction pointer). -/
def gasAnimations : List (List InstrFw) :=
[ gasRetroVersionFw, gasSoftFlashingFw, gasShootingStarFw, gasStarLaunchFw,
  gasGenericFlasherFw, gasKITTFw, gasDiscoFw, gasBlacknessFw ] ++
  List.replicate 7 []

end Fw

namespace Py32

/-! ### States and predicates the claims are stated with -/

/-- Generic fade animation for the repeat-correctness claim: a `LOAD` of
the start vector `v` held for `dur0` ms, then an `ADD|REPEAT` step with
delta vector `d`, duration `dur` and operand `n`; the accent sequence is a
single all-off `LOAD` held for `0xFFFF` ms (as in `gasBlackness`). -/
def fadeAnimation (v d : List Nat) (dur0 dur n : Nat) : S_ANIMATION :=
  ⟨[⟨dur0, v, LOAD, 0⟩, ⟨dur, d, ADD ||| REPEAT, n⟩], [⟨0xFFFF, [0, 0, 0], LOAD, 0⟩]⟩

/-- Catalog holding just the generic fade animation. -/
def fadeTable (v d : List Nat) (dur0 dur n : Nat) : List S_ANIMATION :=
  [fadeAnimation v d dur0 dur n]

/-- `k`-fold application of the `ADD` opcode with delta vector `d`. -/
def addIter (d : List Nat) : Nat → List Nat → List Nat
  | 0, b => b
  | k + 1, b => applyADD d (addIter d k b)

/-- Every element of both brightness arrays lies in the 4-bit range. -/
def brightnessInRange (s : EngineState) : Prop :=
  (∀ x ∈ s.gau8LEDBrightness, x ≤ 15) ∧ (∀ x ∈ s.gau8RGBLEDs, x ≤ 15)

/-- Shape invariant: the brightness arrays have their C sizes. -/
def wellShaped (s : EngineState) : Prop :=
  s.gau8LEDBrightness.length = LEDS_NUM ∧ s.gau8RGBLEDs.length = NUM_RGBLED_COLORS

/-- Data constraints the brightness invariant needs from an instruction:
the delta vector has the channel width, and a plain-`LOAD` step only
stores 4-bit values. -/
def instrNormalGood (ins : InstrNormal) : Bool :=
  ins.au8LEDBrightness.length == LEDS_NUM &&
    (!(ins.u8AnimationOpcode == LOAD) || ins.au8LEDBrightness.all (· ≤ 15))

/-- Same for an accent-channel instruction. -/
def instrRGBGood (ins : InstrRGB) : Bool :=
  ins.au8RGBLEDBrightness.length == NUM_RGBLED_COLORS &&
    (!(ins.u8AnimationOpcode == LOAD) || ins.au8RGBLEDBrightness.all (· ≤ 15))

/-- Data constraints over a whole animation. -/
def animationGood (a : S_ANIMATION) : Bool :=
  a.psInstructionsNormal.all instrNormalGood && a.psInstructionsRGB.all instrRGBGood

/-- Data constraints over a whole catalog. -/
def tableGood (t : List S_ANIMATION) : Bool := t.all animationGood

/-- Reachable engine states: boot with any persisted index byte and boot
time, then any interleaving of (defined) `Animation_Cycle` calls and
`Animation_Set` calls against the fw_py32 catalog. -/
inductive Reachable : EngineState → Prop
  | boot (idx t0 : Nat) : Reachable (bootEngine idx t0)
  | cycle {s s' : EngineState} (t : Nat) : Reachable s →
      Animation_Cycle gasAnimations NUM_ANIMATIONS t s = some s' → Reachable s'
  | set {s : EngineState} (idx : Nat) : Reachable s →
      Reachable (Animation_Set NUM_ANIMATIONS idx s)

/-- Engine state right after selecting the Ice animation (entry 14). -/
def iceStart : EngineState := Animation_Set NUM_ANIMATIONS 14 (bootEngine 0 0)

/-- Engine state 600 well-paced cycles into the Ice animation. -/
def iceS1 : EngineState :=
  ⟨[0, 0, 0, 15, 10, 5, 15, 0, 0, 0, 0, 0], [0, 12, 15], 600, 18, 600, 2, 0, 0, 13, 14⟩

/-- Engine state 1200 well-paced cycles into the Ice animation. -/
def iceS2 : EngineState :=
  ⟨[0, 15, 10, 5, 0, 0, 5, 10, 15, 0, 0, 0], [0, 9, 15], 1200, 36, 1200, 4, 0, 0, 10, 14⟩

/-- Engine state 1800 well-paced cycles into the Ice animation. -/
def iceS3 : EngineState :=
  ⟨[15, 5, 0, 0, 0, 0, 0, 0, 5, 10, 15, 0], [0, 6, 15], 1800, 54, 1800, 6, 0, 0, 7, 14⟩

/-- Engine state 2400 well-paced cycles into the Ice animation. -/
def iceS4 : EngineState :=
  ⟨[0, 0, 0, 0, 0, 0, 0, 0, 0, 0, 5, 15], [0, 3, 15], 2400, 72, 2400, 8, 0, 0, 4, 14⟩

/-- Engine state 3000 well-paced cycles into the Ice animation. -/
def iceS5 : EngineState :=
  ⟨[0, 0, 0, 0, 0, 0, 0, 0, 0, 0, 0, 0], [0, 0, 15], 3000, 90, 3000, 10, 0, 0, 1, 14⟩

end Py32

/-- Last checksum-valid slot of `l` in scan order, read as a record; `cur`
when no slot of `l` validates. -/
def lastValidRecord (arena : Arena) (l : List Nat) (cur : S_PERSIST) : S_PERSIST :=
  match (l.filter (slotValidAt arena)).getLast? with
  | some j => IAP_ReadPersist arena (slotAddr j)
  | none => cur

/-! ## Theorems -/

/-! ### CRC facts and single-bit corruption (claim C9) -/

set_option maxRecDepth 20000 in
theorem crcTable_nodup : gcau16CRC16F3Table.Nodup := by decide

set_option maxRecDepth 20000 in
theorem crcTable_length : gcau16CRC16F3Table.length = 256 := by decide

/-- XOR by a fixed value is injective on `Nat`. -/
theorem xor_left_cancel {a b c : Nat} (h : a ^^^ b = a ^^^ c) : b = c := by
  have := congrArg (fun x => a ^^^ x) h
  simpa [← Nat.xor_assoc, Nat.xor_self, Nat.zero_xor] using this

/-- `Util_CRC16` of a single byte, unfolded to one table lookup. -/
theorem crc16_single (b : Nat) (hb : b < 256) :
    Util_CRC16 [b] = 0x2600 ^^^ gcau16CRC16F3Table.getD (0xBD ^^^ b) 0 := by
  show crc16Step CRC16_PRECONDITION b = _
  rw [crc16Step, CRC16_PRECONDITION]
  rw [Nat.mod_eq_of_lt hb]
  norm_num [wrap16]

/-- `Util_CRC16` is injective on single bytes: the lookup table has no
duplicate entries and the XOR preprocessing is injective. -/
theorem crc16_single_injective {a b : Nat} (ha : a < 256) (hb : b < 256)
    (h : Util_CRC16 [a] = Util_CRC16 [b]) : a = b := by
  rw [crc16_single a ha, crc16_single b hb] at h
  have h2 : gcau16CRC16F3Table.getD (0xBD ^^^ a) 0 =
      gcau16CRC16F3Table.getD (0xBD ^^^ b) 0 := xor_left_cancel h
  have hia : 0xBD ^^^ a < 256 := Nat.xor_lt_two_pow (n := 8) (by norm_num) ha
  have hib : 0xBD ^^^ b < 256 := Nat.xor_lt_two_pow (n := 8) (by norm_num) hb
  rw [List.getD_eq_getElem _ _ (by rw [crcTable_length]; exact hia),
      List.getD_eq_getElem _ _ (by rw [crcTable_length]; exact hib)] at h2
  have h3 := (List.Nodup.getElem_inj_iff crcTable_nodup).mp h2
  exact xor_left_cancel h3

/-- Flipping a bit of a byte changes the byte. -/
theorem flipByteBit_ne (b i : Nat) : flipByteBit b i ≠ b := by
  intro h
  have h1 : b ^^^ (1 <<< i) = b ^^^ 0 := by simpa [flipByteBit, Nat.xor_zero] using h
  have h2 : (1 <<< i) = 0 := xor_left_cancel h1
  have h3 : 0 < 1 <<< i := by
    rw [Nat.shiftLeft_eq, Nat.one_mul]
    exact Nat.pos_pow_of_pos i (by norm_num)
  omega

/-- Flipping one of the low 8 bits keeps a byte below 256. -/
theorem flipByteBit_lt (b i : Nat) (hb : b < 256) (hi : i < 8) : flipByteBit b i < 256 := by
  have h1 : 1 <<< i < 256 := by
    rw [Nat.shiftLeft_eq, Nat.one_mul]
    calc 2 ^ i < 2 ^ 8 := Nat.pow_lt_pow_right (by norm_num) hi
    _ = 256 := by norm_num
  exact Nat.xor_lt_two_pow (n := 8) hb h1

/-- **C9** (confirmed): for every stored 3-byte save slot that passes the
CRC validation of `SearchForLatestSave`, flipping any single bit — in the
index byte or in either stored checksum byte — makes the slot fail that
same CRC comparison, so `Persist_Init`'s scan does not accept it as a
valid record. -/
theorem c9_single_bit_flip_rejected (b0 b1 b2 : Nat) (hb0 : b0 < 256) (hb1 : b1 < 256)
    (hb2 : b2 < 256) (hvalid : persistRecordValid (persistOfBytes b0 b1 b2) = true)
    (k : Nat) (hk : k < 24) :
    persistRecordValid (persistOfBytes (flipSlot b0 b1 b2 k).1 (flipSlot b0 b1 b2 k).2.1
      (flipSlot b0 b1 b2 k).2.2) = false := by
  simp only [persistRecordValid, persistOfBytes, beq_iff_eq] at hvalid
  by_cases hk8 : k < 8
  · simp only [flipSlot, if_pos hk8]
    simp only [persistRecordValid, persistOfBytes, beq_eq_false_iff_ne, ne_eq]
    intro hcontra
    have hflt : flipByteBit b0 k < 256 := flipByteBit_lt b0 k hb0 hk8
    have : b0 = flipByteBit b0 k :=
      crc16_single_injective hb0 hflt (by rw [← hvalid, hcontra])
    exact flipByteBit_ne b0 k this.symm
  · by_cases hk16 : k < 16
    · simp only [flipSlot, if_neg hk8, if_pos hk16]
      simp only [persistRecordValid, persistOfBytes, beq_eq_false_iff_ne, ne_eq]
      intro hcontra
      have hne : flipByteBit b1 (k - 8) ≠ b1 := flipByteBit_ne b1 (k - 8)
      omega
    · simp only [flipSlot, if_neg hk8, if_neg hk16]
      simp only [persistRecordValid, persistOfBytes, beq_eq_false_iff_ne, ne_eq]
      intro hcontra
      have hne : flipByteBit b2 (k - 16) ≠ b2 := flipByteBit_ne b2 (k - 16)
      omega

/-- Witness for C9: the valid record for index 0 (CRC `0x5206`), corrupted
in bit 0 of its index byte, is rejected by the scan's validity check. -/
theorem c9_witness :
    persistRecordValid (persistOfBytes (flipSlot 0 82 6 0).1 (flipSlot 0 82 6 0).2.1
      (flipSlot 0 82 6 0).2.2) = false :=
  c9_single_bit_flip_rejected 0 82 6 (by norm_num) (by norm_num) (by norm_num)
    (by decide) 0 (by norm_num)

/-! ### Accent-channel walk overrun (claim C2) -/

/-- Splitting a well-paced run. -/
theorem runMsO_add (table : List Py32.S_ANIMATION) (n a b : Nat)
    (s : Option Py32.EngineState) :
    Py32.runMsO table n (a + b) s = Py32.runMsO table n b (Py32.runMsO table n a s) := by
  induction a generalizing s with
  | zero => rw [Nat.zero_add]; rfl
  | succ a ih =>
    have h : a + 1 + b = a + b + 1 := by omega
    rw [h]
    show Py32.runMsO table n (a + b) (Py32.stepMs table n s) = _
    rw [ih]
    rfl

set_option maxRecDepth 100000 in
/-- **C2** (code bug): driving the Ice animation (catalog entry 14 of
fw_py32) from `Animation_Set(14)` with 3298 well-paced 1 ms
`Animation_Cycle` calls makes the accent channel's accumulated time reach
its sequence's total duration (388 ms) before the matrix channel wraps
(its period is 3300 ms); the accent walk then resolves to index 2, which
equals the accent sequence's length, and the instruction fetch reads past
the end of `gasIceRGB` — the `none` result below.  The matrix-channel
restart that would reset the clocks exists in the source only for the
matrix walk; the corresponding accent-channel block is commented out. -/
theorem ice_accent_walk_reads_past_end :
    Py32.runMsO Py32.gasAnimations Py32.NUM_ANIMATIONS 3298 (some Py32.iceStart) = none := by
  have e1 : Py32.runMsO Py32.gasAnimations Py32.NUM_ANIMATIONS 600 (some Py32.iceStart) =
      some Py32.iceS1 := by decide
  have e2 : Py32.runMsO Py32.gasAnimations Py32.NUM_ANIMATIONS 600 (some Py32.iceS1) =
      some Py32.iceS2 := by decide
  have e3 : Py32.runMsO Py32.gasAnimations Py32.NUM_ANIMATIONS 600 (some Py32.iceS2) =
      some Py32.iceS3 := by decide
  have e4 : Py32.runMsO Py32.gasAnimations Py32.NUM_ANIMATIONS 600 (some Py32.iceS3) =
      some Py32.iceS4 := by decide
  have e5 : Py32.runMsO Py32.gasAnimations Py32.NUM_ANIMATIONS 600 (some Py32.iceS4) =
      some Py32.iceS5 := by decide
  have e6 : Py32.runMsO Py32.gasAnimations Py32.NUM_ANIMATIONS 298 (some Py32.iceS5) =
      none := by decide
  have hsplit : (3298 : Nat) = 600 + 600 + 600 + 600 + 600 + 298 := by norm_num
  rw [hsplit, runMsO_add, runMsO_add, runMsO_add, runMsO_add, runMsO_add,
    e1, e2, e3, e4, e5, e6]

/-! ### Stale `NUM_ANIMATIONS` bound of the firmware variant (claim C8) -/

set_option maxRecDepth 20000 in
/-- **C8** (code bug): in the firmware variant the loaded animation index 8
passes `Animation_Cycle`'s range check (`8 < NUM_ANIMATIONS = 15`), but the
catalog initializer lists only 8 animations, so entry 8 is a
zero-initialised `S_ANIMATION` (length 0, null instruction pointer); the
very first `Cycle()` call then fetches instruction 0 of an empty sequence —
an out-of-bounds read through a null pointer, the `none` result below. -/
theorem fw_loaded_index_eight_reads_out_of_bounds :
    8 < Fw.NUM_ANIMATIONS ∧ Fw.gasAnimations.getD 8 [] = [] ∧
      Fw.Animation_Cycle Fw.gasAnimations Fw.NUM_ANIMATIONS 1 (Fw.bootFw 8 0) = none := by
  refine ⟨by decide, by decide, by decide⟩

/-! ### `Persist_Save` erasing its own record (claim C6) -/

set_option maxRecDepth 20000 in
/-- **C6** (code bug): from a store state whose tracked next-write slot is
the (erased) arena base slot while the following slot is not erased,
`Persist_Save` writes its record and then erases the flash page starting
at the base — the page containing the record it just wrote.  After `Save()`
returns, the three cells of the just-written record read `0xFF` again even
though the record's bytes are not `0xFF`. -/
theorem save_page_erase_covers_own_record :
    IsSaveBlockEmpty arenaStaleNeighbour stateC6.gpsNextSaveSlot = true ∧
      persistBytes (mkRecord 5) ≠ [255, 255, 255] ∧
      IAP_ReadByte (Persist_Save arenaStaleNeighbour stateC6).1 EEPROM_BASEADDRESS = 255 ∧
      IAP_ReadByte (Persist_Save arenaStaleNeighbour stateC6).1 (EEPROM_BASEADDRESS + 1) = 255 ∧
      IAP_ReadByte (Persist_Save arenaStaleNeighbour stateC6).1 (EEPROM_BASEADDRESS + 2) = 255 := by
  refine ⟨by decide, by decide, by decide, by decide, by decide⟩

/-! ### Counterexamples over the persistent store (claims C5 and C4) -/

set_option maxRecDepth 100000 in
/-- Counterexample for **C5**: in the arena
`[valid record (index 1), erased slot, valid record (index 2), erased…]`
the last checksum-valid slot in scan order is slot 2 with index 2, but
`Persist_Init` selects index 1: `SearchForLatestSave` stops at the erased
slot 1 (the first erased slot after a valid record) and never examines
slot 2. -/
theorem init_skips_valid_record_after_gap :
    specLastValidSlot arenaGap = some 2 ∧
      (IAP_ReadPersist arenaGap (slotAddr 2)).u8AnimationIndex = 2 ∧
      persistRecordValid (IAP_ReadPersist arenaGap (slotAddr 2)) = true ∧
      (Persist_Init arenaGap powerOnPersist).gsPersistentData.u8AnimationIndex = 1 ∧
      (1 : Nat) ≠ 2 := by
  refine ⟨by decide, by decide, by decide, by decide, by decide⟩

set_option maxRecDepth 100000 in
set_option maxHeartbeats 1000000 in
/-- Counterexample for **C4**: a store state reachable by the documented
operations on which save-then-reboot does not restore the saved index.
Booting (`Persist_Init`) on `arenaMidLog` loads the record for index 7 at
slot 171 and tracks the erased slot 172 as the next write position.
Saving index 5 writes slot 172 cleanly, but the following slot is not
erased, and the erase-address arithmetic of `Persist_Save`
(`(next & 0xFE00) < prev`, then erase at `next + sizeof`) erases the very
page holding both the just-written record and its predecessor.  After a
power cycle, `Persist_Init` selects the surviving record for index 9 —
not the index 5 that was saved, whose slot no longer passes the CRC
validation. -/
theorem save_then_init_loses_saved_index :
    (Persist_Init arenaMidLog powerOnPersist).gsPersistentData.u8AnimationIndex = 7 ∧
      (Persist_Init arenaMidLog powerOnPersist).gpsNextSaveSlot = slotAddr 172 ∧
      IsSaveBlockEmpty arenaMidLog (slotAddr 172) = true ∧
      (Persist_Init
        (Persist_Save arenaMidLog
          ⟨⟨5, (Persist_Init arenaMidLog powerOnPersist).gsPersistentData.u16CRC⟩,
            (Persist_Init arenaMidLog powerOnPersist).gpsNextSaveSlot⟩).1
        powerOnPersist).gsPersistentData.u8AnimationIndex = 9 ∧
      (9 : Nat) ≠ 5 := by
  have h0 : Persist_Init arenaMidLog powerOnPersist = ⟨⟨7, 5079⟩, slotAddr 172⟩ := by decide
  refine ⟨by rw [h0], by rw [h0], by decide, ?_, by decide⟩
  rw [h0]
  decide

/-! ### `Animation_Set` (claims C7 and C10) -/

/-- **C7** (confirmed): `Animation_Set` with an index inside the catalog
selects that animation and resets both channel cursors — both channel
clocks to 0, both last-executed-step markers to the `0xFF` sentinel, both
repetition counters to 0 — leaving the brightness arrays and the call
timestamp as they were; with an out-of-range index it leaves the whole
state unchanged. -/
theorem animation_set_bounds (idx : Nat) (s : Py32.EngineState) :
    (idx < Py32.NUM_ANIMATIONS →
      Py32.Animation_Set Py32.NUM_ANIMATIONS idx s =
        ⟨s.gau8LEDBrightness, s.gau8RGBLEDs, 0, 0, s.gu16LastCall, 0xFF, 0, 0xFF, 0, idx⟩) ∧
    (Py32.NUM_ANIMATIONS ≤ idx → Py32.Animation_Set Py32.NUM_ANIMATIONS idx s = s) := by
  constructor
  · intro h
    simp [Py32.Animation_Set, h]
  · intro h
    simp [Py32.Animation_Set, Nat.not_lt.mpr h]

/-- Witness for C7: index 3 is accepted and resets the cursors; index 200
is silently ignored. -/
theorem animation_set_bounds_witness :
    Py32.Animation_Set Py32.NUM_ANIMATIONS 3 (Py32.bootEngine 0 7) =
      ⟨List.replicate 12 0, List.replicate 3 0, 0, 0, 7, 0xFF, 0, 0xFF, 0, 3⟩ ∧
      Py32.Animation_Set Py32.NUM_ANIMATIONS 200 (Py32.bootEngine 0 7) =
        Py32.bootEngine 0 7 := by
  refine ⟨(animation_set_bounds 3 (Py32.bootEngine 0 7)).1 (by decide),
    (animation_set_bounds 200 (Py32.bootEngine 0 7)).2 (by decide)⟩

/-- **C10** (confirmed): for an in-range index, `Animation_Set` leaves both
brightness arrays (and the last-call timestamp) untouched: only the
selected index, the channel clocks, the last-executed-step sentinels and
the repetition counters change, so the previously rendered frame stays
visible until a later `Animation_Cycle` resolves a step. -/
theorem animation_set_preserves_frame (idx : Nat) (s : Py32.EngineState)
    (h : idx < Py32.NUM_ANIMATIONS) :
    (Py32.Animation_Set Py32.NUM_ANIMATIONS idx s).gau8LEDBrightness = s.gau8LEDBrightness ∧
      (Py32.Animation_Set Py32.NUM_ANIMATIONS idx s).gau8RGBLEDs = s.gau8RGBLEDs ∧
      (Py32.Animation_Set Py32.NUM_ANIMATIONS idx s).gu16LastCall = s.gu16LastCall ∧
      (Py32.Animation_Set Py32.NUM_ANIMATIONS idx s).u8AnimationIndex = idx ∧
      (Py32.Animation_Set Py32.NUM_ANIMATIONS idx s).gu16NormalTimer = 0 ∧
      (Py32.Animation_Set Py32.NUM_ANIMATIONS idx s).gu16RGBTimer = 0 ∧
      (Py32.Animation_Set Py32.NUM_ANIMATIONS idx s).u8LastState = 0xFF ∧
      (Py32.Animation_Set Py32.NUM_ANIMATIONS idx s).u8RepetitionCounter = 0 ∧
      (Py32.Animation_Set Py32.NUM_ANIMATIONS idx s).u8LastStateRGB = 0xFF ∧
      (Py32.Animation_Set Py32.NUM_ANIMATIONS idx s).u8RepetitionCounterRGB = 0 := by
  simp [Py32.Animation_Set, h]

/-- Witness for C10: switching to animation 5 from a lit frame keeps the
frame. -/
theorem animation_set_preserves_frame_witness :
    (Py32.Animation_Set Py32.NUM_ANIMATIONS 5
        ⟨[1, 2, 3, 4, 5, 6, 7, 8, 9, 10, 11, 12], [13, 14, 15], 40, 50, 60, 2, 3, 1, 4, 9⟩
      ).gau8LEDBrightness = [1, 2, 3, 4, 5, 6, 7, 8, 9, 10, 11, 12] ∧
      (Py32.Animation_Set Py32.NUM_ANIMATIONS 5
        ⟨[1, 2, 3, 4, 5, 6, 7, 8, 9, 10, 11, 12], [13, 14, 15], 40, 50, 60, 2, 3, 1, 4, 9⟩
      ).gau8RGBLEDs = [13, 14, 15] :=
  ⟨(animation_set_preserves_frame 5 _ (by decide)).1,
    (animation_set_preserves_frame 5 _ (by decide)).2.1⟩

/-! ### What the save-slot scan computes (claims C5 and C4) -/


theorem slotEmptyAt_not_valid {arena : Arena} {j : Nat} (h : slotEmptyAt arena j = true) :
    slotValidAt arena j = false := by
  unfold slotEmptyAt IsSaveBlockEmpty at h
  simp only [Bool.and_eq_true, beq_iff_eq] at h
  obtain ⟨⟨h0, h1⟩, h2⟩ := h
  unfold slotValidAt IAP_ReadPersist
  rw [h0, h1, h2]
  decide

theorem idxList_succ (k n : Nat) : idxList k (n + 1) = k :: idxList (k + 1) n := rfl

theorem mem_idxList {j : Nat} : ∀ {n k : Nat}, j ∈ idxList k n ↔ k ≤ j ∧ j < k + n := by
  intro n
  induction n with
  | zero => intro k; simp [idxList]
  | succ n ih =>
    intro k
    rw [idxList_succ, List.mem_cons, ih]
    omega

theorem slotAddr_succ (k : Nat) : slotAddr k + 3 = slotAddr (k + 1) := by
  unfold slotAddr; omega

theorem lastValidRecord_cons_valid {arena : Arena} {k : Nat} {l : List Nat} {cur : S_PERSIST}
    (h : slotValidAt arena k = true) :
    lastValidRecord arena (k :: l) cur =
      lastValidRecord arena l (IAP_ReadPersist arena (slotAddr k)) := by
  unfold lastValidRecord
  rw [List.filter_cons_of_pos h]
  cases hfl : l.filter (slotValidAt arena) with
  | nil => simp
  | cons x xs =>
    have hs : ((x :: xs).getLast?).isSome := by simp
    obtain ⟨y, hy⟩ := Option.isSome_iff_exists.mp hs
    rw [List.getLast?_cons_cons, hy]

theorem lastValidRecord_cons_invalid {arena : Arena} {k : Nat} {l : List Nat} {cur : S_PERSIST}
    (h : slotValidAt arena k = false) :
    lastValidRecord arena (k :: l) cur = lastValidRecord arena l cur := by
  unfold lastValidRecord
  rw [List.filter_cons_of_neg (by simp [h])]

theorem searchLoop_no_valid (arena : Arena) : ∀ (n k : Nat) (cur : S_PERSIST) (nextE : Nat),
    (∀ j ∈ idxList k n, slotValidAt arena j = false) →
    searchLoop arena n (slotAddr k) cur nextE false = (cur, nextE, false) := by
  intro n
  induction n with
  | zero => intro k cur nextE _; rfl
  | succ n ih =>
    intro k cur nextE h
    have hv : slotValidAt arena k = false := h k (by rw [mem_idxList]; omega)
    have hv' : persistRecordValid (IAP_ReadPersist arena (slotAddr k)) = false := hv
    show searchLoop arena (n + 1) (slotAddr k) cur nextE false = _
    simp only [searchLoop, hv', Bool.false_eq_true, if_false, Bool.false_and, slotAddr_succ]
    exact ih (k + 1) cur nextE (fun j hj => h j (by rw [mem_idxList] at hj ⊢; omega))

theorem searchLoop_found (arena : Arena) : ∀ (n k : Nat) (cur : S_PERSIST) (nextE : Nat),
    searchLoop arena n (slotAddr k) cur nextE true =
      (lastValidRecord arena ((idxList k n).takeWhile (fun j => !slotEmptyAt arena j)) cur,
        (match ((idxList k n).dropWhile (fun j => !slotEmptyAt arena j)).head? with
          | some j => slotAddr j
          | none => nextE),
        true) := by
  intro n
  induction n with
  | zero => intro k cur nextE; rfl
  | succ n ih =>
    intro k cur nextE
    rw [idxList_succ]
    by_cases hv : slotValidAt arena k = true
    · have hne : slotEmptyAt arena k = false := by
        cases he : slotEmptyAt arena k with
        | false => rfl
        | true => rw [slotEmptyAt_not_valid he] at hv; exact absurd hv (by simp)
      have hv2 : persistRecordValid (IAP_ReadPersist arena (slotAddr k)) = true := hv
      show searchLoop arena (n + 1) (slotAddr k) cur nextE true = _
      simp only [searchLoop, hv2, if_true, slotAddr_succ]
      rw [ih]
      rw [List.takeWhile_cons, List.dropWhile_cons]
      simp only [hne, Bool.not_false, if_true]
      rw [lastValidRecord_cons_valid hv]
    · have hv' : slotValidAt arena k = false := by
        cases h : slotValidAt arena k with
        | false => rfl
        | true => exact absurd h hv
      by_cases he : slotEmptyAt arena k = true
      · have hv2 : persistRecordValid (IAP_ReadPersist arena (slotAddr k)) = false := hv'
        have he2 : IsSaveBlockEmpty arena (slotAddr k) = true := he
        show searchLoop arena (n + 1) (slotAddr k) cur nextE true = _
        simp only [searchLoop, hv2, Bool.false_eq_true, if_false, he2, Bool.true_and, if_true]
        rw [List.takeWhile_cons, List.dropWhile_cons]
        simp only [he, Bool.not_true, if_false]
        rfl
      · have he' : slotEmptyAt arena k = false := by
          cases h : slotEmptyAt arena k with
          | false => rfl
          | true => exact absurd h he
        have hv2 : persistRecordValid (IAP_ReadPersist arena (slotAddr k)) = false := hv'
        have he2 : IsSaveBlockEmpty arena (slotAddr k) = false := he'
        show searchLoop arena (n + 1) (slotAddr k) cur nextE true = _
        simp only [searchLoop, hv2, Bool.false_eq_true, if_false, he2, Bool.and_false,
          slotAddr_succ]
        rw [ih]
        rw [List.takeWhile_cons, List.dropWhile_cons]
        simp only [he', Bool.not_false, if_true]
        rw [lastValidRecord_cons_invalid hv']

theorem searchLoop_to_first_valid (arena : Arena) :
    ∀ (n k : Nat) (cur : S_PERSIST) (nextE j0 : Nat),
    j0 ∈ idxList k n → slotValidAt arena j0 = true →
    (∀ j ∈ idxList k n, j < j0 → slotValidAt arena j = false) →
    searchLoop arena n (slotAddr k) cur nextE false =
      searchLoop arena (n - (j0 + 1 - k)) (slotAddr (j0 + 1))
        (IAP_ReadPersist arena (slotAddr j0)) nextE true := by
  intro n
  induction n with
  | zero => intro k cur nextE j0 hmem; simp [idxList] at hmem
  | succ n ih =>
    intro k cur nextE j0 hmem hval hmin
    have hk : k ≤ j0 ∧ j0 < k + (n + 1) := mem_idxList.mp hmem
    by_cases heq : k = j0
    · subst heq
      have hv2 : persistRecordValid (IAP_ReadPersist arena (slotAddr k)) = true := hval
      show searchLoop arena (n + 1) (slotAddr k) cur nextE false = _
      simp only [searchLoop, hv2, if_true, slotAddr_succ]
      have harith : n + 1 - (k + 1 - k) = n := by omega
      rw [harith]
    · have hlt : k < j0 := by omega
      have hvk : slotValidAt arena k = false :=
        hmin k (by rw [mem_idxList]; omega) hlt
      have hv2 : persistRecordValid (IAP_ReadPersist arena (slotAddr k)) = false := hvk
      show searchLoop arena (n + 1) (slotAddr k) cur nextE false = _
      simp only [searchLoop, hv2, Bool.false_eq_true, if_false, Bool.false_and, slotAddr_succ]
      have hrec := ih (k + 1) cur nextE j0 (by rw [mem_idxList]; omega) hval
        (fun j hj hjlt => hmin j (by rw [mem_idxList] at hj ⊢; omega) hjlt)
      rw [hrec]
      have : n - (j0 + 1 - (k + 1)) = n + 1 - (j0 + 1 - k) := by omega
      rw [this]

theorem find_idxList_min {p : Nat → Bool} :
    ∀ {n k j0 : Nat}, (idxList k n).find? p = some j0 →
      j0 ∈ idxList k n ∧ p j0 = true ∧ ∀ j, k ≤ j → j < j0 → p j = false := by
  intro n
  induction n with
  | zero => intro k j0 h; simp [idxList, List.find?] at h
  | succ n ih =>
    intro k j0 h
    rw [idxList_succ] at h
    cases hk : p k with
    | true =>
      rw [List.find?_cons_of_pos _ hk] at h
      obtain rfl : k = j0 := by injection h
      exact ⟨by rw [mem_idxList]; omega, hk, fun j h1 h2 => absurd (by omega : k < k) (by omega)⟩
    | false =>
      rw [List.find?_cons_of_neg _ (by simp [hk])] at h
      obtain ⟨hmem, hp, hmin⟩ := ih h
      have hkj : k + 1 ≤ j0 ∧ j0 < k + 1 + n := mem_idxList.mp hmem
      refine ⟨by rw [mem_idxList]; omega, hp, fun j h1 h2 => ?_⟩
      by_cases hjk : j = k
      · subst hjk; exact hk
      · exact hmin j (by omega) h2

set_option maxHeartbeats 1000000 in
theorem persistInit_characterization (arena : Arena) :
    Persist_Init arena powerOnPersist =
      match (idxList 0 NUM_SLOTS).find? (slotValidAt arena) with
      | none => ⟨⟨0, 0⟩, EEPROM_BASEADDRESS⟩
      | some j0 =>
        ⟨lastValidRecord arena
            ((idxList (j0 + 1) (NUM_SLOTS - (j0 + 1))).takeWhile (fun j => !slotEmptyAt arena j))
            (IAP_ReadPersist arena (slotAddr j0)),
          match ((idxList (j0 + 1) (NUM_SLOTS - (j0 + 1))).dropWhile
              (fun j => !slotEmptyAt arena j)).head? with
          | some j => slotAddr j
          | none => 0⟩ := by
  have hbase : EEPROM_BASEADDRESS = slotAddr 0 := by unfold slotAddr; omega
  cases hf : (idxList 0 NUM_SLOTS).find? (slotValidAt arena) with
  | none =>
    have hall : ∀ j ∈ idxList 0 NUM_SLOTS, slotValidAt arena j = false := by
      intro j hj
      have := List.find?_eq_none.mp hf j hj
      cases h : slotValidAt arena j with
      | false => rfl
      | true => exact absurd h this
    unfold Persist_Init SearchForLatestSave
    rw [show EEPROM_SIZE / 3 = NUM_SLOTS from rfl, hbase,
      searchLoop_no_valid arena NUM_SLOTS 0 _ _ hall]
    rfl
  | some j0 =>
    obtain ⟨hmem, hval, hmin⟩ := find_idxList_min hf
    have hrw := searchLoop_to_first_valid arena NUM_SLOTS 0 powerOnPersist.gsPersistentData
      powerOnPersist.gpsNextSaveSlot j0 hmem hval
      (fun j hj hjlt => hmin j (by omega) hjlt)
    unfold Persist_Init SearchForLatestSave
    rw [show EEPROM_SIZE / 3 = NUM_SLOTS from rfl, hbase, hrw]
    have : NUM_SLOTS - (j0 + 1 - 0) = NUM_SLOTS - (j0 + 1) := by omega
    rw [this, searchLoop_found arena]
    rfl

/-! C4 amended machinery -/

theorem takeWhile_idxList {p : Nat → Bool} :
    ∀ {t m a : Nat}, (∀ j, a ≤ j → j < a + t → p j = true) → t < m → p (a + t) = false →
      (idxList a m).takeWhile p = idxList a t ∧
        ((idxList a m).dropWhile p).head? = some (a + t) := by
  intro t
  induction t with
  | zero =>
    intro m a _ hm hf
    obtain ⟨m', rfl⟩ : ∃ m', m = m' + 1 := ⟨m - 1, by omega⟩
    rw [idxList_succ, List.takeWhile_cons, List.dropWhile_cons]
    simp only [Nat.add_zero] at hf
    simp [hf, idxList]
  | succ t ih =>
    intro m a hall hm hf
    obtain ⟨m', rfl⟩ : ∃ m', m = m' + 1 := ⟨m - 1, by omega⟩
    have hpa : p a = true := hall a (by omega) (by omega)
    rw [idxList_succ, List.takeWhile_cons, List.dropWhile_cons]
    simp only [hpa, if_true]
    have := ih (m := m') (a := a + 1)
      (fun j h1 h2 => hall j (by omega) (by omega)) (by omega)
      (by rw [show a + 1 + t = a + (t + 1) from by omega]; exact hf)
    rw [idxList_succ, this.1]
    exact ⟨rfl, by rw [this.2]; congr 1; omega⟩

theorem filter_idxList_all {p : Nat → Bool} :
    ∀ {t a : Nat}, (∀ j, a ≤ j → j < a + t → p j = true) →
      (idxList a t).filter p = idxList a t := by
  intro t
  induction t with
  | zero => intro a _; rfl
  | succ t ih =>
    intro a hall
    rw [idxList_succ, List.filter_cons_of_pos (hall a (by omega) (by omega)),
      ih (fun j h1 h2 => hall j (by omega) (by omega))]

theorem idxList_getLast? : ∀ {t a : Nat}, 1 ≤ t → (idxList a t).getLast? = some (a + t - 1) := by
  intro t
  induction t with
  | zero => intro a h; omega
  | succ t ih =>
    intro a _
    rw [idxList_succ]
    by_cases ht : t = 0
    · subst ht; rfl
    · have hs : (idxList (a + 1) t).getLast? = some (a + 1 + t - 1) := ih (by omega)
      obtain ⟨x, l', hx⟩ : ∃ x l', idxList (a + 1) t = x :: l' := by
        obtain ⟨t', rfl⟩ : ∃ t', t = t' + 1 := ⟨t - 1, by omega⟩
        exact ⟨a + 1, idxList (a + 2) t', rfl⟩
      rw [hx] at hs ⊢
      rw [List.getLast?_cons_cons, hs]
      congr 1
      omega

theorem iapAddr_arena_offset (a : Nat) (h : a < 4096) :
    iapAddr (EEPROM_BASEADDRESS + a) = a := by
  unfold iapAddr EEPROM_BASEADDRESS
  omega

theorem flashProgramByte_read_ne {x a : Nat} (arena : Arena) (v : Nat)
    (h : iapAddr x ≠ iapAddr a) :
    IAP_ReadByte (flashProgramByte arena a v) x = IAP_ReadByte arena x := by
  unfold IAP_ReadByte flashProgramByte
  rw [if_neg h]

theorem flashProgramByte_read_eq {x a : Nat} (arena : Arena) (v : Nat)
    (h : iapAddr x = iapAddr a) :
    IAP_ReadByte (flashProgramByte arena a v) x = (arena (iapAddr a) &&& v) % 256 := by
  unfold IAP_ReadByte flashProgramByte
  rw [h, if_pos rfl]

theorem and255 {v : Nat} (h : v < 256) : 255 &&& v = v := by
  rw [Nat.and_comm]
  have h8 : (255 : Nat) = 2 ^ 8 - 1 := by norm_num
  rw [h8, Nat.and_pow_two_sub_one_eq_mod]
  omega

set_option maxRecDepth 10000 in
theorem crcTable_getD_lt (i : Nat) : gcau16CRC16F3Table.getD i 0 < 65536 := by
  by_cases h : i < gcau16CRC16F3Table.length
  · rw [List.getD_eq_getElem _ _ h]
    have hall : gcau16CRC16F3Table.all (fun x => decide (x < 65536)) = true := by decide
    rw [List.all_eq_true] at hall
    have := hall _ (List.getElem_mem h)
    simpa using this
  · rw [List.getD_eq_default _ _ (by omega)]
    norm_num

theorem crc16Step_lt (crc b : Nat) : crc16Step crc b < 65536 := by
  unfold crc16Step
  have h1 : wrap16 (crc * 256) < 65536 := Nat.mod_lt _ (by norm_num)
  have h2 := crcTable_getD_lt ((crc / 256) ^^^ (b % 256))
  have h16 : (65536 : Nat) = 2 ^ 16 := by norm_num
  rw [h16] at h1 h2 ⊢
  exact Nat.xor_lt_two_pow h1 h2

theorem foldl_crc16_lt : ∀ (l : List Nat) (c : Nat), c < 65536 → l.foldl crc16Step c < 65536 := by
  intro l
  induction l with
  | nil => intro c hc; exact hc
  | cons b bs ih => intro c _; exact ih (crc16Step c b) (crc16Step_lt c b)

theorem crc16_lt (l : List Nat) : Util_CRC16 l < 65536 :=
  foldl_crc16_lt l CRC16_PRECONDITION (by norm_num [CRC16_PRECONDITION])

theorem and_byte_erased {x v : Nat} (hx : x % 256 = 255) (hv : v < 256) : x &&& v = v := by
  have hstep : x &&& v = (x % 256) &&& v := by
    apply Nat.eq_of_testBit_eq
    intro i
    rw [Nat.testBit_and, Nat.testBit_and]
    by_cases hi : i < 8
    · have : (x % 256).testBit i = x.testBit i := by
        rw [show (256 : Nat) = 2 ^ 8 from by norm_num, Nat.testBit_mod_two_pow]
        simp [hi]
      rw [this]
    · have : v.testBit i = false := by
        apply Nat.testBit_lt_two_pow
        calc v < 256 := hv
          _ = 2 ^ 8 := by norm_num
          _ ≤ 2 ^ i := Nat.pow_le_pow_right (by norm_num) (by omega)
      rw [this, Bool.and_false, Bool.and_false]
  rw [hstep, hx]
  exact and255 hv

theorem slotValid_not_empty {arena : Arena} {j : Nat} (h : slotValidAt arena j = true) :
    slotEmptyAt arena j = false := by
  cases he : slotEmptyAt arena j with
  | false => rfl
  | true => rw [slotEmptyAt_not_valid he] at h; exact absurd h (by simp)

theorem mkRecord_valid (idx : Nat) : persistRecordValid (mkRecord idx) = true := by
  unfold persistRecordValid mkRecord
  exact beq_self_eq_true _

theorem iapAddr_slot (k i : Nat) (h : 3 * k + i < 4096) :
    iapAddr (slotAddr k + i) = 3 * k + i := by
  unfold iapAddr slotAddr EEPROM_BASEADDRESS
  omega

theorem IAP_Write3_read_miss (arena : Arena) (k v0 v1 v2 x : Nat) (hk : k ≤ 1363)
    (hx : iapAddr x < 3 * k ∨ 3 * k + 3 ≤ iapAddr x) :
    IAP_ReadByte (IAP_Write arena (slotAddr k) [v0, v1, v2]) x = IAP_ReadByte arena x := by
  have hw : IAP_Write arena (slotAddr k) [v0, v1, v2] =
      flashProgramByte (flashProgramByte (flashProgramByte arena (slotAddr k) v0)
        (slotAddr k + 1) v1) (slotAddr k + 1 + 1) v2 := rfl
  have e0 : iapAddr (slotAddr k) = 3 * k := iapAddr_slot k 0 (by omega)
  have e1 : iapAddr (slotAddr k + 1) = 3 * k + 1 := iapAddr_slot k 1 (by omega)
  have e2 : iapAddr (slotAddr k + 1 + 1) = 3 * k + 2 := by
    rw [show slotAddr k + 1 + 1 = slotAddr k + 2 from by omega]
    exact iapAddr_slot k 2 (by omega)
  rw [hw, flashProgramByte_read_ne _ _ (by rw [e2]; omega),
    flashProgramByte_read_ne _ _ (by rw [e1]; omega),
    flashProgramByte_read_ne _ _ (by rw [e0]; omega)]

theorem IAP_Write3_read_hit (arena : Arena) (k v0 v1 v2 : Nat) (hk : k ≤ 1363)
    (h0 : v0 < 256) (h1 : v1 < 256) (h2 : v2 < 256)
    (he : ∀ off, 3 * k ≤ off → off < 3 * k + 3 → arena off % 256 = 255) :
    IAP_ReadByte (IAP_Write arena (slotAddr k) [v0, v1, v2]) (slotAddr k) = v0 ∧
    IAP_ReadByte (IAP_Write arena (slotAddr k) [v0, v1, v2]) (slotAddr k + 1) = v1 ∧
    IAP_ReadByte (IAP_Write arena (slotAddr k) [v0, v1, v2]) (slotAddr k + 2) = v2 := by
  have hw : IAP_Write arena (slotAddr k) [v0, v1, v2] =
      flashProgramByte (flashProgramByte (flashProgramByte arena (slotAddr k) v0)
        (slotAddr k + 1) v1) (slotAddr k + 1 + 1) v2 := rfl
  have e0 : iapAddr (slotAddr k) = 3 * k := iapAddr_slot k 0 (by omega)
  have e1 : iapAddr (slotAddr k + 1) = 3 * k + 1 := iapAddr_slot k 1 (by omega)
  have e2 : iapAddr (slotAddr k + 1 + 1) = 3 * k + 2 := by
    rw [show slotAddr k + 1 + 1 = slotAddr k + 2 from by omega]
    exact iapAddr_slot k 2 (by omega)
  have e2' : iapAddr (slotAddr k + 2) = 3 * k + 2 := iapAddr_slot k 2 (by omega)
  refine ⟨?_, ?_, ?_⟩
  · rw [hw, flashProgramByte_read_ne _ _ (by rw [e0, e2]; omega),
      flashProgramByte_read_ne _ _ (by rw [e0, e1]; omega),
      flashProgramByte_read_eq _ _ rfl, e0,
      and_byte_erased (he (3 * k) (by omega) (by omega)) h0, Nat.mod_eq_of_lt h0]
  · rw [hw, flashProgramByte_read_ne _ _ (by rw [e1, e2]; omega),
      flashProgramByte_read_eq _ _ rfl]
    have hcell : flashProgramByte arena (slotAddr k) v0 (iapAddr (slotAddr k + 1)) =
        arena (3 * k + 1) := by
      unfold flashProgramByte
      rw [e1, e0, if_neg (by omega)]
    rw [hcell, and_byte_erased (he (3 * k + 1) (by omega) (by omega)) h1, Nat.mod_eq_of_lt h1]
  · rw [hw]
    rw [flashProgramByte_read_eq _ _
      (show iapAddr (slotAddr k + 2) = iapAddr (slotAddr k + 1 + 1) by rw [e2])]
    have hcell : flashProgramByte (flashProgramByte arena (slotAddr k) v0) (slotAddr k + 1) v1
        (iapAddr (slotAddr k + 1 + 1)) = arena (3 * k + 2) := by
      unfold flashProgramByte
      rw [e2, e1, e0, if_neg (by omega), if_neg (by omega)]
    rw [hcell, and_byte_erased (he (3 * k + 2) (by omega) (by omega)) h2, Nat.mod_eq_of_lt h2]

theorem IAP_Write3_slot_miss (arena : Arena) (k v0 v1 v2 j : Nat) (hk : k ≤ 1363)
    (hj : j < NUM_SLOTS) (hne : j ≠ k) :
    slotValidAt (IAP_Write arena (slotAddr k) [v0, v1, v2]) j = slotValidAt arena j ∧
    slotEmptyAt (IAP_Write arena (slotAddr k) [v0, v1, v2]) j = slotEmptyAt arena j := by
  have hns : NUM_SLOTS = 1365 := rfl
  rw [hns] at hj
  have hr : ∀ i, i < 3 →
      IAP_ReadByte (IAP_Write arena (slotAddr k) [v0, v1, v2]) (slotAddr j + i) =
        IAP_ReadByte arena (slotAddr j + i) := by
    intro i hi
    apply IAP_Write3_read_miss arena k v0 v1 v2 _ hk
    rw [iapAddr_slot j i (by omega)]
    omega
  have g0 : IAP_ReadByte (IAP_Write arena (slotAddr k) [v0, v1, v2]) (slotAddr j) =
      IAP_ReadByte arena (slotAddr j) := by
    have := hr 0 (by omega)
    rwa [Nat.add_zero] at this
  have g1 := hr 1 (by omega)
  have g2 := hr 2 (by omega)
  unfold slotValidAt slotEmptyAt IAP_ReadPersist IsSaveBlockEmpty
  rw [g0, g1, g2]
  exact ⟨rfl, rfl⟩

theorem persistInit_of_find (arena : Arena) (j0 : Nat)
    (hf : (idxList 0 NUM_SLOTS).find? (slotValidAt arena) = some j0) :
    Persist_Init arena powerOnPersist =
      ⟨lastValidRecord arena
          ((idxList (j0 + 1) (NUM_SLOTS - (j0 + 1))).takeWhile (fun j => !slotEmptyAt arena j))
          (IAP_ReadPersist arena (slotAddr j0)),
        match ((idxList (j0 + 1) (NUM_SLOTS - (j0 + 1))).dropWhile
            (fun j => !slotEmptyAt arena j)).head? with
        | some j => slotAddr j
        | none => 0⟩ := by
  rw [persistInit_characterization arena, hf]

theorem lastValidRecord_nil (arena : Arena) (cur : S_PERSIST) :
    lastValidRecord arena [] cur = cur := rfl

/-- **C5** (corrected): what `Persist_Init` actually computes, for every
arena content.  The scan does not keep looking for the last checksum-valid
slot of the whole arena: it stops at the first fully-erased slot that
follows the first valid record, selects the last checksum-valid slot
before that stopping point, and leaves the write cursor at the stopping
slot (or at the caller's value, here the power-on `0`, when no erased slot
is hit).  When no slot validates at all, the settings default to index 0
with the cursor at the arena base, as the claim states. -/
theorem init_selects_last_valid_before_stop (arena : Arena) :
    Persist_Init arena powerOnPersist =
      match (idxList 0 NUM_SLOTS).find? (slotValidAt arena) with
      | none => ⟨⟨0, 0⟩, EEPROM_BASEADDRESS⟩
      | some j0 =>
        ⟨lastValidRecord arena
            ((idxList (j0 + 1) (NUM_SLOTS - (j0 + 1))).takeWhile
              (fun j => !slotEmptyAt arena j))
            (IAP_ReadPersist arena (slotAddr j0)),
          match ((idxList (j0 + 1) (NUM_SLOTS - (j0 + 1))).dropWhile
              (fun j => !slotEmptyAt arena j)).head? with
          | some j => slotAddr j
          | none => 0⟩ :=
  persistInit_characterization arena

set_option maxHeartbeats 1000000 in
/-- **C4** (corrected): on a well-formed append-only store — every slot
before the cursor slot `k` checksum-valid, everything from slot `k` on
erased, with at least two free slots (`k ≤ 1363`) — `Persist_Save` of an
index byte followed by a power cycle and `Persist_Init` restores exactly
the saved index: the written slot passes the CRC validation of the scan
and is the record selected as current, and the rebuilt cursor points at
the next free slot.  (Unconstrained reachable stores break the claim; see
the counterexample `save_then_init_loses_saved_index`.) -/
theorem save_roundtrip_restores_index (arena : Arena) (k idx c : Nat)
    (hg : GoodStore arena k) (hk : k ≤ 1363) (hidx : idx < 256) :
    (Persist_Save arena ⟨⟨idx, c⟩, slotAddr k⟩).2.gpsNextSaveSlot = slotAddr (k + 1) ∧
    slotValidAt (Persist_Save arena ⟨⟨idx, c⟩, slotAddr k⟩).1 k = true ∧
    Persist_Init (Persist_Save arena ⟨⟨idx, c⟩, slotAddr k⟩).1 powerOnPersist =
      ⟨mkRecord idx, slotAddr (k + 1)⟩ := by
  have hcrclt : Util_CRC16 [idx] < 65536 := crc16_lt _
  have hraw : ∀ off, 3 * k ≤ off → off < 4096 → arena off % 256 = 255 := by
    intro off h1 h2
    have := hg.2 off h1 h2
    unfold IAP_ReadByte at this
    rwa [iapAddr_arena_offset off h2] at this
  have hbytes : persistBytes (⟨idx, Util_CRC16 [idx]⟩ : S_PERSIST) =
      [idx, Util_CRC16 [idx] / 256, Util_CRC16 [idx] % 256] := by
    unfold persistBytes wrap8
    rw [Nat.mod_eq_of_lt hidx, Nat.mod_eq_of_lt (show Util_CRC16 [idx] / 256 < 256 by omega)]
  obtain ⟨r0, r1, r2⟩ := IAP_Write3_read_hit arena k idx (Util_CRC16 [idx] / 256)
    (Util_CRC16 [idx] % 256) hk hidx (by omega) (by omega)
    (fun off ho1 ho2 => hraw off ho1 (by omega))
  have hreadk : IAP_ReadPersist
      (IAP_Write arena (slotAddr k) [idx, Util_CRC16 [idx] / 256, Util_CRC16 [idx] % 256])
      (slotAddr k) = mkRecord idx := by
    unfold IAP_ReadPersist
    rw [r0, r1, r2]
    unfold persistOfBytes mkRecord
    congr 1
    omega
  have hvalk : slotValidAt
      (IAP_Write arena (slotAddr k) [idx, Util_CRC16 [idx] / 256, Util_CRC16 [idx] % 256])
      k = true := by
    unfold slotValidAt
    rw [hreadk]
    exact mkRecord_valid idx
  have hempty : IsSaveBlockEmpty
      (IAP_Write arena (slotAddr k) [idx, Util_CRC16 [idx] / 256, Util_CRC16 [idx] % 256])
      (slotAddr (k + 1)) = true := by
    have gm : ∀ i, i < 3 → IAP_ReadByte
        (IAP_Write arena (slotAddr k) [idx, Util_CRC16 [idx] / 256, Util_CRC16 [idx] % 256])
        (slotAddr (k + 1) + i) = 255 := by
      intro i hi
      rw [show slotAddr (k + 1) + i = slotAddr k + (3 + i) from by unfold slotAddr; omega]
      rw [IAP_Write3_read_miss arena k _ _ _ _ hk
        (by rw [iapAddr_slot k (3 + i) (by omega)]; omega)]
      rw [show slotAddr k + (3 + i) = EEPROM_BASEADDRESS + (3 * k + (3 + i)) from by
        unfold slotAddr; omega]
      exact hg.2 (3 * k + (3 + i)) (by omega) (by omega)
    have g0 : IAP_ReadByte
        (IAP_Write arena (slotAddr k) [idx, Util_CRC16 [idx] / 256, Util_CRC16 [idx] % 256])
        (slotAddr (k + 1)) = 255 := by
      have := gm 0 (by omega)
      rwa [Nat.add_zero] at this
    unfold IsSaveBlockEmpty
    rw [g0, gm 1 (by omega), gm 2 (by omega)]
    rfl
  have hsave : Persist_Save arena ⟨⟨idx, c⟩, slotAddr k⟩ =
      (IAP_Write arena (slotAddr k) [idx, Util_CRC16 [idx] / 256, Util_CRC16 [idx] % 256],
        ⟨⟨idx, c⟩, slotAddr (k + 1)⟩) := by
    have hws : wrap16 (slotAddr k + 3) = slotAddr (k + 1) := by
      unfold wrap16 slotAddr EEPROM_BASEADDRESS
      omega
    simp only [Persist_Save]
    rw [hbytes, hws, hempty, if_pos rfl]
  rw [hsave]
  refine ⟨rfl, hvalk, ?_⟩
  have hvalle : ∀ j, j ≤ k → slotValidAt
      (IAP_Write arena (slotAddr k) [idx, Util_CRC16 [idx] / 256, Util_CRC16 [idx] % 256])
      j = true := by
    intro j hj
    by_cases hjk : j = k
    · subst hjk; exact hvalk
    · rw [(IAP_Write3_slot_miss arena k _ _ _ j hk
        (by rw [show NUM_SLOTS = 1365 from rfl]; omega) hjk).1]
      exact hg.1 j (by omega)
  have hfind : (idxList 0 NUM_SLOTS).find?
      (slotValidAt (IAP_Write arena (slotAddr k)
        [idx, Util_CRC16 [idx] / 256, Util_CRC16 [idx] % 256])) = some 0 := by
    rw [show NUM_SLOTS = 1364 + 1 from rfl, idxList_succ]
    rw [List.find?_cons_of_pos _ (hvalle 0 (by omega))]
  rw [persistInit_of_find _ 0 hfind]
  have hTW := takeWhile_idxList (p := fun j => !slotEmptyAt
      (IAP_Write arena (slotAddr k) [idx, Util_CRC16 [idx] / 256, Util_CRC16 [idx] % 256]) j)
    (t := k) (m := 1364) (a := 1)
    (fun j h1 h2 => by
      simp only [slotValid_not_empty (hvalle j (by omega)), Bool.not_false])
    (by omega)
    (by
      have hse : slotEmptyAt
          (IAP_Write arena (slotAddr k) [idx, Util_CRC16 [idx] / 256, Util_CRC16 [idx] % 256])
          (1 + k) = true := by
        rw [show 1 + k = k + 1 from by omega]
        exact hempty
      simp only [hse, Bool.not_true])
  rw [show (0 : Nat) + 1 = 1 from rfl, show NUM_SLOTS - 1 = 1364 from rfl, hTW.1, hTW.2]
  rw [show 1 + k = k + 1 from by omega]
  by_cases hk0 : k = 0
  · subst hk0
    rw [show idxList 1 0 = ([] : List Nat) from rfl, lastValidRecord_nil, hreadk]
  · have hfl : (idxList 1 k).filter (slotValidAt
        (IAP_Write arena (slotAddr k) [idx, Util_CRC16 [idx] / 256, Util_CRC16 [idx] % 256])) =
        idxList 1 k :=
      filter_idxList_all (fun j h1 h2 => hvalle j (by omega))
    have hlast : lastValidRecord
        (IAP_Write arena (slotAddr k) [idx, Util_CRC16 [idx] / 256, Util_CRC16 [idx] % 256])
        (idxList 1 k)
        (IAP_ReadPersist
          (IAP_Write arena (slotAddr k) [idx, Util_CRC16 [idx] / 256, Util_CRC16 [idx] % 256])
          (slotAddr 0)) = mkRecord idx := by
      unfold lastValidRecord
      rw [hfl, idxList_getLast? (by omega), show 1 + k - 1 = k from by omega]
      exact hreadk
    rw [hlast]

theorem save_roundtrip_restores_index_witness :
    Persist_Init (Persist_Save erasedArena ⟨⟨7, 0⟩, slotAddr 0⟩).1 powerOnPersist =
      ⟨mkRecord 7, slotAddr (0 + 1)⟩ :=
  (save_roundtrip_restores_index erasedArena 0 7 0
    ⟨fun j hj => absurd hj (by omega), fun a _ _ => rfl⟩ (by omega) (by omega)).2.2

/-! C1 machinery: every opcode keeps brightness bytes in range -/

theorem length_bSet (b : List Nat) (i v : Nat) : (bSet b i v).length = b.length :=
  List.length_set b i v

theorem bGet_bSet_eq : ∀ (b : List Nat) (i v : Nat), i < b.length → bGet (bSet b i v) i = v := by
  intro b
  induction b with
  | nil => intro i v h; simp at h
  | cons x xs ih =>
    intro i v h
    cases i with
    | zero => rfl
    | succ i => exact ih i v (by simpa using h)

theorem bGet_bSet_ne : ∀ (b : List Nat) (i j v : Nat), i ≠ j → bGet (bSet b j v) i = bGet b i := by
  intro b
  induction b with
  | nil => intro i j v _; rfl
  | cons x xs ih =>
    intro i j v hne
    cases j with
    | zero =>
      cases i with
      | zero => exact absurd rfl hne
      | succ i => rfl
    | succ j =>
      cases i with
      | zero => rfl
      | succ i => exact ih i j v (by omega)

theorem mem_bSet (b : List Nat) (i v : Nat) : ∀ x ∈ bSet b i v, x ∈ b ∨ x = v :=
  fun _ hx => List.mem_or_eq_of_mem_set hx

theorem bGet_mem {b : List Nat} {i : Nat} (h : i < b.length) : bGet b i ∈ b := by
  unfold bGet
  rw [List.getD_eq_getElem b 0 h]
  exact b.getElem_mem h

namespace Py32

theorem SaturateBrightness_le {x : Nat} (h : x < 256) : (SaturateBrightness x).1 ≤ 15 := by
  unfold SaturateBrightness i8val
  rw [Nat.mod_eq_of_lt h]
  by_cases hx : x < 128
  · simp only [hx, if_true]
    split_ifs <;> omega
  · simp only [hx, if_false]
    split_ifs <;> omega

theorem addI8_lt (b : Nat) (d : Int) : addI8 b d < 256 := by
  unfold addI8
  have h1 := Int.emod_nonneg ((b : Int) + d) (by norm_num : (256 : Int) ≠ 0)
  have h2 := Int.emod_lt_of_pos ((b : Int) + d) (by norm_num : (0 : Int) < 256)
  omega

theorem satAt_length (b : List Nat) (i : Nat) : (satAt b i).length = b.length :=
  length_bSet b i _

theorem addDeltaAt_length (d b : List Nat) (i : Nat) : (addDeltaAt d b i).length = b.length :=
  length_bSet b i _

theorem mem_satAt {b : List Nat} (i : Nat) (hb : ∀ x ∈ b, x < 256) :
    ∀ x ∈ satAt b i, x < 256 := by
  intro x hx
  rcases mem_bSet b i _ x hx with h | h
  · exact hb x h
  · subst h
    by_cases hi : i < b.length
    · exact Nat.lt_of_le_of_lt (SaturateBrightness_le (hb _ (bGet_mem hi))) (by norm_num)
    · have : bGet b i = 0 := by
        unfold bGet
        exact List.getD_eq_default b 0 (by omega)
      rw [this]
      norm_num [SaturateBrightness, i8val]

theorem mem_addDeltaAt {d b : List Nat} (i : Nat) (hb : ∀ x ∈ b, x < 256) :
    ∀ x ∈ addDeltaAt d b i, x < 256 := by
  intro x hx
  rcases mem_bSet b i _ x hx with h | h
  · exact hb x h
  · subst h; exact addI8_lt _ _

theorem bGet_addDeltaAt_ne (d b : List Nat) (i p : Nat) (h : p ≠ i) :
    bGet (addDeltaAt d b i) p = bGet b p :=
  bGet_bSet_ne b p i _ h

theorem bGet_satAt_ne (b : List Nat) (i p : Nat) (h : p ≠ i) :
    bGet (satAt b i) p = bGet b p :=
  bGet_bSet_ne b p i _ h

theorem bGet_satAt_eq {b : List Nat} (i : Nat) (hi : i < b.length) (hb : ∀ x ∈ b, x < 256) :
    bGet (satAt b i) i ≤ 15 := by
  unfold satAt
  rw [bGet_bSet_eq b i _ hi]
  exact SaturateBrightness_le (hb _ (bGet_mem hi))

theorem carrySegUp_succ (b : List Nat) (j fuel : Nat) :
    carrySegUp b j (fuel + 1) =
      carrySegUp (bSet (bSet b j (SaturateBrightness (bGet b j)).1) (j + 1)
        (addI8 (bGet (bSet b j (SaturateBrightness (bGet b j)).1) (j + 1))
          (SaturateBrightness (bGet b j)).2)) (j + 1) fuel := rfl

theorem carrySegDown_succ (b : List Nat) (j fuel : Nat) :
    carrySegDown b j (fuel + 1) =
      carrySegDown (bSet (bSet b j (SaturateBrightness (bGet b j)).1) (j - 1)
        (addI8 (bGet (bSet b j (SaturateBrightness (bGet b j)).1) (j - 1))
          (SaturateBrightness (bGet b j)).2)) (j - 1) fuel := rfl

theorem carrySegUp_length : ∀ (fuel : Nat) (b : List Nat) (j : Nat),
    (carrySegUp b j fuel).length = b.length := by
  intro fuel
  induction fuel with
  | zero => intro b j; rfl
  | succ fuel ih =>
    intro b j
    rw [carrySegUp_succ, ih, length_bSet, length_bSet]

theorem carrySegDown_length : ∀ (fuel : Nat) (b : List Nat) (j : Nat),
    (carrySegDown b j fuel).length = b.length := by
  intro fuel
  induction fuel with
  | zero => intro b j; rfl
  | succ fuel ih =>
    intro b j
    rw [carrySegDown_succ, ih, length_bSet, length_bSet]

theorem carrySegUp_spec : ∀ (fuel : Nat) (b : List Nat) (j : Nat), (∀ x ∈ b, x < 256) →
    (∀ x ∈ carrySegUp b j fuel, x < 256) ∧
    (∀ i, i < j ∨ j + fuel < i → bGet (carrySegUp b j fuel) i = bGet b i) ∧
    (∀ i, j ≤ i → i + 1 ≤ j + fuel → i < b.length → bGet (carrySegUp b j fuel) i ≤ 15) := by
  intro fuel
  induction fuel with
  | zero =>
    intro b j hb
    exact ⟨hb, fun i _ => rfl, fun i h1 h2 _ => by omega⟩
  | succ fuel ih =>
    intro b j hb
    have hc : (SaturateBrightness (bGet b j)).1 < 256 := by
      by_cases hj : j < b.length
      · exact Nat.lt_of_le_of_lt (SaturateBrightness_le (hb _ (bGet_mem hj))) (by norm_num)
      · have hz : bGet b j = 0 := by
          unfold bGet
          exact List.getD_eq_default b 0 (by omega)
        rw [hz]
        norm_num [SaturateBrightness, i8val]
    have hb1 : ∀ x ∈ bSet (bSet b j (SaturateBrightness (bGet b j)).1) (j + 1)
        (addI8 (bGet (bSet b j (SaturateBrightness (bGet b j)).1) (j + 1))
          (SaturateBrightness (bGet b j)).2), x < 256 := by
      intro x hx
      rcases mem_bSet _ _ _ x hx with h | h
      · rcases mem_bSet _ _ _ x h with h2 | h2
        · exact hb x h2
        · omega
      · subst h; exact addI8_lt _ _
    obtain ⟨ih1, ih2, ih3⟩ := ih _ (j + 1) hb1
    rw [carrySegUp_succ]
    refine ⟨ih1, ?_, ?_⟩
    · intro i hi
      rw [ih2 i (by omega)]
      rw [bGet_bSet_ne _ _ _ _ (by omega), bGet_bSet_ne _ _ _ _ (by omega)]
    · intro i h1 h2 h3
      by_cases hij : i = j
      · subst hij
        rw [ih2 i (by omega)]
        rw [bGet_bSet_ne _ _ _ _ (by omega), bGet_bSet_eq _ _ _ h3]
        exact SaturateBrightness_le (hb _ (bGet_mem h3))
      · exact ih3 i (by omega) (by omega) (by rw [length_bSet, length_bSet]; omega)

theorem carrySegDown_spec : ∀ (fuel : Nat) (b : List Nat) (j : Nat), fuel ≤ j →
    (∀ x ∈ b, x < 256) →
    (∀ x ∈ carrySegDown b j fuel, x < 256) ∧
    (∀ i, i < j - fuel ∨ j < i → bGet (carrySegDown b j fuel) i = bGet b i) ∧
    (∀ i, i ≤ j → j + 1 ≤ i + fuel → i < b.length → bGet (carrySegDown b j fuel) i ≤ 15) := by
  intro fuel
  induction fuel with
  | zero =>
    intro b j _ hb
    exact ⟨hb, fun i _ => rfl, fun i h1 h2 _ => by omega⟩
  | succ fuel ih =>
    intro b j hfj hb
    have hc : (SaturateBrightness (bGet b j)).1 < 256 := by
      by_cases hj : j < b.length
      · exact Nat.lt_of_le_of_lt (SaturateBrightness_le (hb _ (bGet_mem hj))) (by norm_num)
      · have hz : bGet b j = 0 := by
          unfold bGet
          exact List.getD_eq_default b 0 (by omega)
        rw [hz]
        norm_num [SaturateBrightness, i8val]
    have hb1 : ∀ x ∈ bSet (bSet b j (SaturateBrightness (bGet b j)).1) (j - 1)
        (addI8 (bGet (bSet b j (SaturateBrightness (bGet b j)).1) (j - 1))
          (SaturateBrightness (bGet b j)).2), x < 256 := by
      intro x hx
      rcases mem_bSet _ _ _ x hx with h | h
      · rcases mem_bSet _ _ _ x h with h2 | h2
        · exact hb x h2
        · omega
      · subst h; exact addI8_lt _ _
    obtain ⟨ih1, ih2, ih3⟩ := ih _ (j - 1) (by omega) hb1
    rw [carrySegDown_succ]
    refine ⟨ih1, ?_, ?_⟩
    · intro i hi
      rw [ih2 i (by omega)]
      rw [bGet_bSet_ne _ _ _ _ (by omega), bGet_bSet_ne _ _ _ _ (by omega)]
    · intro i h1 h2 h3
      by_cases hij : i = j
      · subst hij
        rw [ih2 i (by omega)]
        rw [bGet_bSet_ne _ _ _ _ (by omega), bGet_bSet_eq _ _ _ h3]
        exact SaturateBrightness_le (hb _ (bGet_mem h3))
      · exact ih3 i (by omega) (by omega) (by rw [length_bSet, length_bSet]; omega)

end Py32

theorem applyADD_le : ∀ (b d : List Nat), ∀ x ∈ applyADD d b, x ≤ 15 := by
  intro b
  induction b with
  | nil => intro d x hx; simp [applyADD] at hx
  | cons y ys ih =>
    intro d x hx
    cases d with
    | nil => simp [applyADD] at hx
    | cons e es =>
      unfold applyADD at hx
      rw [List.zipWith_cons_cons] at hx
      rcases List.mem_cons.mp hx with h | h
      · subst h
        show (if 15 < wrap8 (y + e) then 0 else wrap8 (y + e)) ≤ 15
        split_ifs with h15 <;> omega
      · exact ih es x h

theorem applyADD_length (d b : List Nat) : (applyADD d b).length = min b.length d.length :=
  List.length_zipWith _ _ _

theorem applyDIV_le : ∀ (b d : List Nat), (∀ x ∈ b, x ≤ 15) → ∀ x ∈ applyDIV d b, x ≤ 15 := by
  intro b
  induction b with
  | nil => intro d _ x hx; simp [applyDIV] at hx
  | cons y ys ih =>
    intro d hb x hx
    cases d with
    | nil => simp [applyDIV] at hx
    | cons e es =>
      unfold applyDIV at hx
      rw [List.zipWith_cons_cons] at hx
      rcases List.mem_cons.mp hx with h | h
      · subst h
        have hy : y ≤ 15 := hb y (by simp)
        show (if e ≠ 0 then y / e else y) ≤ 15
        split_ifs with he
        · exact le_trans (Nat.div_le_self y e) hy
        · exact hy
      · exact ih es (fun z hz => hb z (by simp [hz])) x h

theorem applyDIV_length (d b : List Nat) : (applyDIV d b).length = min b.length d.length :=
  List.length_zipWith _ _ _

theorem rotateRight_length (b : List Nat) : (rotateRight b).length = b.length := by
  cases b with
  | nil => rfl
  | cons x xs =>
    unfold rotateRight
    cases hb : (x :: xs).getLast? with
    | none => exact absurd (List.getLast?_eq_none_iff.mp hb) (by simp)
    | some t => simp

theorem rotateRight_mem (b : List Nat) : ∀ x ∈ rotateRight b, x ∈ b := by
  intro x hx
  unfold rotateRight at hx
  cases hb : b.getLast? with
  | none => rw [hb] at hx; simp at hx
  | some t =>
    rw [hb] at hx
    rcases List.mem_cons.mp hx with h | h
    · subst h; exact List.mem_of_getLast?_eq_some hb
    · exact List.dropLast_subset b h

theorem rotateLeft_length (b : List Nat) : (rotateLeft b).length = b.length := by
  cases b with
  | nil => rfl
  | cons x xs => simp [rotateLeft]

theorem rotateLeft_mem (b : List Nat) : ∀ x ∈ rotateLeft b, x ∈ b := by
  intro x hx
  cases b with
  | nil => simp [rotateLeft] at hx
  | cons y ys =>
    unfold rotateLeft at hx
    rcases List.mem_append.mp hx with h | h
    · exact List.mem_cons_of_mem y h
    · simp at h; subst h; simp

theorem all_le_of_bGet {b : List Nat} (h : ∀ p, p < b.length → bGet b p ≤ 15) :
    ∀ x ∈ b, x ≤ 15 := by
  intro x hx
  obtain ⟨p, hp, rfl⟩ := List.mem_iff_getElem.mp hx
  have := h p hp
  rwa [bGet, List.getD_eq_getElem b 0 hp] at this

theorem lt256_of_le15 {b : List Nat} (h : ∀ x ∈ b, x ≤ 15) : ∀ x ∈ b, x < 256 :=
  fun x hx => Nat.lt_of_le_of_lt (h x hx) (by norm_num)

namespace Py32

theorem usourceLeftLoop_succ (d b : List Nat) (i fuel : Nat) :
    usourceLeftLoop d b i (fuel + 1) =
      usourceLeftLoop d (carrySegUp (addDeltaAt d b i) i (5 - i)) (i + 1) fuel := rfl

theorem usourceLeftLoop_spec : ∀ (fuel : Nat) (d b : List Nat) (i : Nat),
    (∀ x ∈ b, x < 256) → b.length = 12 → i + fuel = 5 →
    (∀ x ∈ usourceLeftLoop d b i fuel, x < 256) ∧
    (usourceLeftLoop d b i fuel).length = 12 ∧
    (∀ p, p < i ∨ 5 < p → bGet (usourceLeftLoop d b i fuel) p = bGet b p) ∧
    (∀ p, i ≤ p → p ≤ 4 → bGet (usourceLeftLoop d b i fuel) p ≤ 15) := by
  intro fuel
  induction fuel with
  | zero =>
    intro d b i hb hlen hi
    exact ⟨hb, hlen, fun p _ => rfl, fun p h1 h2 => by omega⟩
  | succ fuel ih =>
    intro d b i hb hlen hi
    rw [usourceLeftLoop_succ]
    have hba : ∀ x ∈ addDeltaAt d b i, x < 256 := mem_addDeltaAt i hb
    obtain ⟨hc1, hc2, hc3⟩ := carrySegUp_spec (5 - i) (addDeltaAt d b i) i hba
    have hlen1 : (carrySegUp (addDeltaAt d b i) i (5 - i)).length = 12 := by
      rw [carrySegUp_length, addDeltaAt_length]; exact hlen
    obtain ⟨ih1, ih2, ih3, ih4⟩ := ih d _ (i + 1) hc1 hlen1 (by omega)
    refine ⟨ih1, ih2, ?_, ?_⟩
    · intro p hp
      rw [ih3 p (by omega), hc2 p (by omega), bGet_addDeltaAt_ne d b i p (by omega)]
    · intro p h1 h2
      by_cases hpi : p = i
      · subst hpi
        rw [ih3 p (by omega)]
        exact hc3 p (by omega) (by omega) (by rw [addDeltaAt_length]; omega)
      · exact ih4 p (by omega) h2

theorem usourceRightLoop_succ (d b : List Nat) (i fuel : Nat) :
    usourceRightLoop d b i (fuel + 1) =
      usourceRightLoop d (carrySegDown (addDeltaAt d b i) 11 5) (i - 1) fuel := rfl

theorem usourceRightLoop_spec : ∀ (fuel : Nat) (d b : List Nat) (i : Nat),
    (∀ x ∈ b, x < 256) → b.length = 12 → i = fuel + 6 →
    (∀ x ∈ usourceRightLoop d b i fuel, x < 256) ∧
    (usourceRightLoop d b i fuel).length = 12 ∧
    (∀ p, p < 6 → bGet (usourceRightLoop d b i fuel) p = bGet b p) ∧
    (1 ≤ fuel → ∀ p, 7 ≤ p → p ≤ 11 → bGet (usourceRightLoop d b i fuel) p ≤ 15) := by
  intro fuel
  induction fuel with
  | zero =>
    intro d b i hb hlen hi
    exact ⟨hb, hlen, fun p _ => rfl, fun h => by omega⟩
  | succ fuel ih =>
    intro d b i hb hlen hi
    rw [usourceRightLoop_succ]
    have hba : ∀ x ∈ addDeltaAt d b i, x < 256 := mem_addDeltaAt i hb
    obtain ⟨hc1, hc2, hc3⟩ := carrySegDown_spec 5 (addDeltaAt d b i) 11 (by omega) hba
    have hlen1 : (carrySegDown (addDeltaAt d b i) 11 5).length = 12 := by
      rw [carrySegDown_length, addDeltaAt_length]; exact hlen
    obtain ⟨ih1, ih2, ih3, ih4⟩ := ih d _ (i - 1) hc1 hlen1 (by omega)
    refine ⟨ih1, ih2, ?_, ?_⟩
    · intro p hp
      rw [ih3 p hp, hc2 p (by omega), bGet_addDeltaAt_ne d b i p (by omega)]
    · intro _ p h1 h2
      cases fuel with
      | zero =>
        show bGet (carrySegDown (addDeltaAt d b i) 11 5) p ≤ 15
        exact hc3 p (by omega) (by omega) (by rw [addDeltaAt_length]; omega)
      | succ fuel2 => exact ih4 (by omega) p h1 h2

theorem dsourceLeftLoop_succ (d b : List Nat) (i fuel : Nat) :
    dsourceLeftLoop d b i (fuel + 1) =
      dsourceLeftLoop d (carrySegDown (addDeltaAt d b i) i i) (i - 1) fuel := rfl

theorem dsourceLeftLoop_spec : ∀ (fuel : Nat) (d b : List Nat) (i : Nat),
    (∀ x ∈ b, x < 256) → b.length = 12 → i = fuel → i ≤ 5 →
    (∀ x ∈ dsourceLeftLoop d b i fuel, x < 256) ∧
    (dsourceLeftLoop d b i fuel).length = 12 ∧
    (∀ p, i < p → bGet (dsourceLeftLoop d b i fuel) p = bGet b p) ∧
    (∀ p, 1 ≤ p → p ≤ i → bGet (dsourceLeftLoop d b i fuel) p ≤ 15) := by
  intro fuel
  induction fuel with
  | zero =>
    intro d b i hb hlen hi _
    exact ⟨hb, hlen, fun p _ => rfl, fun p h1 h2 => by omega⟩
  | succ fuel ih =>
    intro d b i hb hlen hi hi5
    rw [dsourceLeftLoop_succ]
    have hba : ∀ x ∈ addDeltaAt d b i, x < 256 := mem_addDeltaAt i hb
    obtain ⟨hc1, hc2, hc3⟩ := carrySegDown_spec i (addDeltaAt d b i) i (by omega) hba
    have hlen1 : (carrySegDown (addDeltaAt d b i) i i).length = 12 := by
      rw [carrySegDown_length, addDeltaAt_length]; exact hlen
    obtain ⟨ih1, ih2, ih3, ih4⟩ := ih d _ (i - 1) hc1 hlen1 (by omega) (by omega)
    refine ⟨ih1, ih2, ?_, ?_⟩
    · intro p hp
      rw [ih3 p (by omega), hc2 p (by omega), bGet_addDeltaAt_ne d b i p (by omega)]
    · intro p h1 h2
      by_cases hpi : p = i
      · subst hpi
        rw [ih3 p (by omega)]
        exact hc3 p (by omega) (by omega) (by rw [addDeltaAt_length]; omega)
      · exact ih4 p h1 (by omega)

theorem dsourceRightLoop_succ (d b : List Nat) (i fuel : Nat) :
    dsourceRightLoop d b i (fuel + 1) =
      dsourceRightLoop d (carrySegUp (addDeltaAt d b i) 6 5) (i + 1) fuel := rfl

theorem dsourceRightLoop_spec : ∀ (fuel : Nat) (d b : List Nat) (i : Nat),
    (∀ x ∈ b, x < 256) → b.length = 12 → i + fuel = 11 → 6 ≤ i →
    (∀ x ∈ dsourceRightLoop d b i fuel, x < 256) ∧
    (dsourceRightLoop d b i fuel).length = 12 ∧
    (∀ p, p < 6 → bGet (dsourceRightLoop d b i fuel) p = bGet b p) ∧
    (1 ≤ fuel → ∀ p, 6 ≤ p → p ≤ 10 → bGet (dsourceRightLoop d b i fuel) p ≤ 15) := by
  intro fuel
  induction fuel with
  | zero =>
    intro d b i hb hlen hi _
    exact ⟨hb, hlen, fun p _ => rfl, fun h => by omega⟩
  | succ fuel ih =>
    intro d b i hb hlen hi hi6
    rw [dsourceRightLoop_succ]
    have hba : ∀ x ∈ addDeltaAt d b i, x < 256 := mem_addDeltaAt i hb
    obtain ⟨hc1, hc2, hc3⟩ := carrySegUp_spec 5 (addDeltaAt d b i) 6 hba
    have hlen1 : (carrySegUp (addDeltaAt d b i) 6 5).length = 12 := by
      rw [carrySegUp_length, addDeltaAt_length]; exact hlen
    obtain ⟨ih1, ih2, ih3, ih4⟩ := ih d _ (i + 1) hc1 hlen1 (by omega) (by omega)
    refine ⟨ih1, ih2, ?_, ?_⟩
    · intro p hp
      rw [ih3 p hp, hc2 p (by omega), bGet_addDeltaAt_ne d b i p (by omega)]
    · intro _ p h1 h2
      cases fuel with
      | zero =>
        show bGet (carrySegUp (addDeltaAt d b i) 6 5) p ≤ 15
        exact hc3 p (by omega) (by omega) (by rw [addDeltaAt_length]; omega)
      | succ fuel2 => exact ih4 (by omega) p h1 h2

end Py32

namespace Py32

theorem applyUSOURCE_eq (d b : List Nat) :
    applyUSOURCE d b =
      satAt (addDeltaAt d
        (usourceRightLoop d (satAt (addDeltaAt d (usourceLeftLoop d b 0 5) 5) 5) 11 5) 6) 6 := rfl

theorem applyDSOURCE_eq (d b : List Nat) :
    applyDSOURCE d b =
      satAt (addDeltaAt d
        (dsourceRightLoop d (satAt (addDeltaAt d (dsourceLeftLoop d b 5 5) 0) 0) 6 5) 11) 11 := rfl

theorem applyUSOURCE_spec (d b : List Nat) (hb : ∀ x ∈ b, x < 256) (hlen : b.length = 12) :
    (∀ x ∈ applyUSOURCE d b, x ≤ 15) ∧ (applyUSOURCE d b).length = 12 := by
  rw [applyUSOURCE_eq]
  obtain ⟨l1, l2, l3, l4⟩ := usourceLeftLoop_spec 5 d b 0 hb hlen (by omega)
  have m2 : ∀ x ∈ satAt (addDeltaAt d (usourceLeftLoop d b 0 5) 5) 5, x < 256 :=
    mem_satAt 5 (mem_addDeltaAt 5 l1)
  have n2 : (satAt (addDeltaAt d (usourceLeftLoop d b 0 5) 5) 5).length = 12 := by
    rw [satAt_length, addDeltaAt_length]; exact l2
  obtain ⟨r1, r2, r3, r4⟩ := usourceRightLoop_spec 5 d _ 11 m2 n2 (by omega)
  have hfin_len : (satAt (addDeltaAt d
      (usourceRightLoop d (satAt (addDeltaAt d (usourceLeftLoop d b 0 5) 5) 5) 11 5) 6) 6).length
      = 12 := by
    rw [satAt_length, addDeltaAt_length]; exact r2
  refine ⟨all_le_of_bGet ?_, hfin_len⟩
  intro p hp
  rw [hfin_len] at hp
  by_cases h6 : p = 6
  · subst h6
    exact bGet_satAt_eq 6 (by rw [addDeltaAt_length]; omega) (mem_addDeltaAt 6 r1)
  · rw [bGet_satAt_ne _ _ _ h6, bGet_addDeltaAt_ne _ _ _ _ h6]
    by_cases h5 : p < 6
    · rw [r3 p h5]
      by_cases h5e : p = 5
      · subst h5e
        exact bGet_satAt_eq 5 (by rw [addDeltaAt_length]; omega) (mem_addDeltaAt 5 l1)
      · rw [bGet_satAt_ne _ _ _ h5e, bGet_addDeltaAt_ne _ _ _ _ h5e]
        exact l4 p (by omega) (by omega)
    · exact r4 (by omega) p (by omega) (by omega)

theorem applyDSOURCE_spec (d b : List Nat) (hb : ∀ x ∈ b, x < 256) (hlen : b.length = 12) :
    (∀ x ∈ applyDSOURCE d b, x ≤ 15) ∧ (applyDSOURCE d b).length = 12 := by
  rw [applyDSOURCE_eq]
  obtain ⟨l1, l2, l3, l4⟩ := dsourceLeftLoop_spec 5 d b 5 hb hlen (by omega) (by omega)
  have m2 : ∀ x ∈ satAt (addDeltaAt d (dsourceLeftLoop d b 5 5) 0) 0, x < 256 :=
    mem_satAt 0 (mem_addDeltaAt 0 l1)
  have n2 : (satAt (addDeltaAt d (dsourceLeftLoop d b 5 5) 0) 0).length = 12 := by
    rw [satAt_length, addDeltaAt_length]; exact l2
  obtain ⟨r1, r2, r3, r4⟩ := dsourceRightLoop_spec 5 d _ 6 m2 n2 (by omega) (by omega)
  have hfin_len : (satAt (addDeltaAt d
      (dsourceRightLoop d (satAt (addDeltaAt d (dsourceLeftLoop d b 5 5) 0) 0) 6 5) 11) 11).length
      = 12 := by
    rw [satAt_length, addDeltaAt_length]; exact r2
  refine ⟨all_le_of_bGet ?_, hfin_len⟩
  intro p hp
  rw [hfin_len] at hp
  by_cases h11 : p = 11
  · subst h11
    exact bGet_satAt_eq 11 (by rw [addDeltaAt_length]; omega) (mem_addDeltaAt 11 r1)
  · rw [bGet_satAt_ne _ _ _ h11, bGet_addDeltaAt_ne _ _ _ _ h11]
    by_cases h5 : p < 6
    · rw [r3 p h5]
      by_cases h0 : p = 0
      · subst h0
        exact bGet_satAt_eq 0 (by rw [addDeltaAt_length]; omega) (mem_addDeltaAt 0 l1)
      · rw [bGet_satAt_ne _ _ _ h0, bGet_addDeltaAt_ne _ _ _ _ h0]
        exact l4 p (by omega) (by omega)
    · exact r4 (by omega) p (by omega) (by omega)

theorem stage_preserve {c : Prop} [Decidable c] (f : List Nat → List Nat) (b : List Nat)
    (hb : (∀ x ∈ b, x ≤ 15) ∧ b.length = 12)
    (hf : (∀ x ∈ f b, x ≤ 15) ∧ (f b).length = 12) :
    (∀ x ∈ (if c then f b else b), x ≤ 15) ∧ (if c then f b else b).length = 12 := by
  split_ifs
  · exact hf
  · exact hb

theorem executeNormalOps_spec (ins : InstrNormal) (b : List Nat)
    (hb : ∀ x ∈ b, x ≤ 15) (hlen : b.length = 12) (hd : ins.au8LEDBrightness.length = 12) :
    (∀ x ∈ executeNormalOps ins b, x ≤ 15) ∧ (executeNormalOps ins b).length = 12 := by
  have p1 := stage_preserve (c := ins.u8AnimationOpcode &&& ADD ≠ 0)
    (applyADD ins.au8LEDBrightness) b ⟨hb, hlen⟩
    ⟨applyADD_le b ins.au8LEDBrightness, by rw [applyADD_length, hlen, hd]; decide⟩
  have p2 := stage_preserve (c := ins.u8AnimationOpcode &&& RSHIFT ≠ 0) rotateRight _ p1
    ⟨fun x hx => p1.1 x (rotateRight_mem _ x hx), by rw [rotateRight_length]; exact p1.2⟩
  have p3 := stage_preserve (c := ins.u8AnimationOpcode &&& LSHIFT ≠ 0) rotateLeft _ p2
    ⟨fun x hx => p2.1 x (rotateLeft_mem _ x hx), by rw [rotateLeft_length]; exact p2.2⟩
  have p4 := stage_preserve (c := ins.u8AnimationOpcode &&& USOURCE ≠ 0)
    (applyUSOURCE ins.au8LEDBrightness) _ p3
    (applyUSOURCE_spec _ _ (lt256_of_le15 p3.1) p3.2)
  have p5 := stage_preserve (c := ins.u8AnimationOpcode &&& DSOURCE ≠ 0)
    (applyDSOURCE ins.au8LEDBrightness) _ p4
    (applyDSOURCE_spec _ _ (lt256_of_le15 p4.1) p4.2)
  have p6 := stage_preserve (c := ins.u8AnimationOpcode &&& DIV ≠ 0)
    (applyDIV ins.au8LEDBrightness) _ p5
    ⟨applyDIV_le _ ins.au8LEDBrightness p5.1, by rw [applyDIV_length, p5.2, hd]; decide⟩
  exact p6

theorem executeRGBOps_spec (ins : InstrRGB) (b : List Nat)
    (hb : ∀ x ∈ b, x ≤ 15) (hlen : b.length = 3) (hd : ins.au8RGBLEDBrightness.length = 3) :
    (∀ x ∈ executeRGBOps ins b, x ≤ 15) ∧ (executeRGBOps ins b).length = 3 := by
  have hstep : ∀ (c : Prop) [Decidable c] (f : List Nat → List Nat) (b : List Nat),
      ((∀ x ∈ b, x ≤ 15) ∧ b.length = 3) →
      ((∀ x ∈ f b, x ≤ 15) ∧ (f b).length = 3) →
      (∀ x ∈ (if c then f b else b), x ≤ 15) ∧ (if c then f b else b).length = 3 := by
    intro c _ f b h1 h2
    split_ifs
    · exact h2
    · exact h1
  have p1 := hstep (ins.u8AnimationOpcode &&& ADD ≠ 0) (applyADD ins.au8RGBLEDBrightness) b
    ⟨hb, hlen⟩ ⟨applyADD_le b _, by rw [applyADD_length, hlen, hd]; decide⟩
  have p2 := hstep (ins.u8AnimationOpcode &&& DIV ≠ 0) (applyDIV ins.au8RGBLEDBrightness) _ p1
    ⟨applyDIV_le _ _ p1.1, by rw [applyDIV_length, p1.2, hd]; decide⟩
  exact p2

end Py32

namespace Py32

set_option maxRecDepth 100000 in
theorem tableGood_gasAnimations : tableGood gasAnimations = true := by decide

theorem anim_good_getD (i : Nat) :
    animationGood (gasAnimations.getD i ⟨[], []⟩) = true := by
  by_cases hi : i < gasAnimations.length
  · rw [List.getD_eq_getElem _ _ hi]
    have hall := tableGood_gasAnimations
    unfold tableGood at hall
    rw [List.all_eq_true] at hall
    exact hall _ (List.getElem_mem hi)
  · rw [List.getD_eq_default _ _ (by omega)]
    rfl

theorem instrNormalGood_fields {ins : InstrNormal} (h : instrNormalGood ins = true) :
    ins.au8LEDBrightness.length = 12 ∧
      (ins.u8AnimationOpcode = LOAD → ∀ x ∈ ins.au8LEDBrightness, x ≤ 15) := by
  unfold instrNormalGood at h
  rw [Bool.and_eq_true] at h
  obtain ⟨h1, h2⟩ := h
  refine ⟨by simpa [LEDS_NUM] using h1, fun hop x hx => ?_⟩
  rw [Bool.or_eq_true] at h2
  rcases h2 with h2 | h2
  · rw [Bool.not_eq_true', beq_eq_false_iff_ne] at h2
    exact absurd hop h2
  · rw [List.all_eq_true] at h2
    simpa using h2 x hx

theorem instrRGBGood_fields {ins : InstrRGB} (h : instrRGBGood ins = true) :
    ins.au8RGBLEDBrightness.length = 3 ∧
      (ins.u8AnimationOpcode = LOAD → ∀ x ∈ ins.au8RGBLEDBrightness, x ≤ 15) := by
  unfold instrRGBGood at h
  rw [Bool.and_eq_true] at h
  obtain ⟨h1, h2⟩ := h
  refine ⟨by simpa [NUM_RGBLED_COLORS] using h1, fun hop x hx => ?_⟩
  rw [Bool.or_eq_true] at h2
  rcases h2 with h2 | h2
  · rw [Bool.not_eq_true', beq_eq_false_iff_ne] at h2
    exact absurd hop h2
  · rw [List.all_eq_true] at h2
    simpa using h2 x hx

theorem afterNormal_good (l : List InstrNormal) (hall : l.all instrNormalGood = true)
    (b0 : List Nat) (hb0 : ∀ x ∈ b0, x ≤ 15) (hl0 : b0.length = 12)
    (lastN0 stN nt1 cnt0 : Nat) (b : List Nat) (nt2 cnt lastN : Nat)
    (h : (if lastN0 ≠ stN then
        match l.get? stN with
        | none => none
        | some ins =>
          if ins.u8AnimationOpcode = LOAD then
            some (ins.au8LEDBrightness, nt1, cnt0, stN)
          else
            some (executeNormalOps ins b0,
              (repeatStep REPEAT ins.u16TimingMs ins.u8AnimationOperand
                ins.u8AnimationOpcode stN nt1 cnt0 lastN0).1,
              (repeatStep REPEAT ins.u16TimingMs ins.u8AnimationOperand
                ins.u8AnimationOpcode stN nt1 cnt0 lastN0).2.1,
              (repeatStep REPEAT ins.u16TimingMs ins.u8AnimationOperand
                ins.u8AnimationOpcode stN nt1 cnt0 lastN0).2.2)
      else some (b0, nt1, cnt0, lastN0)) = some (b, nt2, cnt, lastN)) :
    (∀ x ∈ b, x ≤ 15) ∧ b.length = 12 := by
  split at h
  · split at h
    · exact absurd h (by simp)
    · rename_i ins heqIns
      have hgood : instrNormalGood ins = true :=
        (List.all_eq_true.mp hall) ins (List.get?_mem heqIns)
      obtain ⟨hdlen, hload⟩ := instrNormalGood_fields hgood
      split at h
      · rename_i hop
        simp only [Option.some.injEq, Prod.mk.injEq] at h
        obtain ⟨hb1, -, -, -⟩ := h
        subst hb1
        exact ⟨hload hop, hdlen⟩
      · simp only [Option.some.injEq, Prod.mk.injEq] at h
        obtain ⟨hb1, -, -, -⟩ := h
        subst hb1
        exact executeNormalOps_spec ins b0 hb0 hl0 hdlen
  · simp only [Option.some.injEq, Prod.mk.injEq] at h
    obtain ⟨hb1, -, -, -⟩ := h
    subst hb1
    exact ⟨hb0, hl0⟩

theorem afterRGB_good (l : List InstrRGB) (hall : l.all instrRGBGood = true)
    (r0 : List Nat) (hr0 : ∀ x ∈ r0, x ≤ 15) (hl0 : r0.length = 3)
    (lastR0 stR rt1 cntR0 : Nat) (rg : List Nat) (rt2 cntR lastR : Nat)
    (h : (if lastR0 ≠ stR then
        match l.get? stR with
        | none => none
        | some ins =>
          if ins.u8AnimationOpcode = LOAD then
            some (ins.au8RGBLEDBrightness, rt1, cntR0, stR)
          else
            some (executeRGBOps ins r0,
              (repeatStep REPEAT ins.u16TimingMs ins.u8AnimationOperand
                ins.u8AnimationOpcode stR rt1 cntR0 lastR0).1,
              (repeatStep REPEAT ins.u16TimingMs ins.u8AnimationOperand
                ins.u8AnimationOpcode stR rt1 cntR0 lastR0).2.1,
              (repeatStep REPEAT ins.u16TimingMs ins.u8AnimationOperand
                ins.u8AnimationOpcode stR rt1 cntR0 lastR0).2.2)
      else some (r0, rt1, cntR0, lastR0)) = some (rg, rt2, cntR, lastR)) :
    (∀ x ∈ rg, x ≤ 15) ∧ rg.length = 3 := by
  split at h
  · split at h
    · exact absurd h (by simp)
    · rename_i ins heqIns
      have hgood : instrRGBGood ins = true :=
        (List.all_eq_true.mp hall) ins (List.get?_mem heqIns)
      obtain ⟨hdlen, hload⟩ := instrRGBGood_fields hgood
      split at h
      · rename_i hop
        simp only [Option.some.injEq, Prod.mk.injEq] at h
        obtain ⟨hb1, -, -, -⟩ := h
        subst hb1
        exact ⟨hload hop, hdlen⟩
      · simp only [Option.some.injEq, Prod.mk.injEq] at h
        obtain ⟨hb1, -, -, -⟩ := h
        subst hb1
        exact executeRGBOps_spec ins r0 hr0 hl0 hdlen
  · simp only [Option.some.injEq, Prod.mk.injEq] at h
    obtain ⟨hb1, -, -, -⟩ := h
    subst hb1
    exact ⟨hr0, hl0⟩

theorem cycle_preserves (t : Nat) {s s' : EngineState}
    (hws : wellShaped s) (hbr : brightnessInRange s)
    (h : Animation_Cycle gasAnimations NUM_ANIMATIONS t s = some s') :
    wellShaped s' ∧ brightnessInRange s' := by
  obtain ⟨hlb, hlr⟩ := hws
  obtain ⟨hbb, hbr2⟩ := hbr
  simp only [Animation_Cycle] at h
  by_cases ht : t = s.gu16LastCall
  · rw [if_pos ht] at h
    injection h with h
    subst h
    exact ⟨⟨hlb, hlr⟩, hbb, hbr2⟩
  · rw [if_neg ht] at h
    split at h
    · exact absurd h (by simp)
    · rename_i b nt2 cnt lastN heqN
      split at h
      · exact absurd h (by simp)
      · rename_i rg rt2 cntR lastR heqR
        injection h with h
        subst h
        have hanim := anim_good_getD
          (if NUM_ANIMATIONS ≤ s.u8AnimationIndex then 0 else s.u8AnimationIndex)
        unfold animationGood at hanim
        rw [Bool.and_eq_true] at hanim
        have hbprops : (∀ x ∈ b, x ≤ 15) ∧ b.length = 12 :=
          afterNormal_good _ hanim.1 _ hbb hlb _ _ _ _ _ _ _ _ heqN
        have hrprops : (∀ x ∈ rg, x ≤ 15) ∧ rg.length = 3 :=
          afterRGB_good _ hanim.2 _ hbr2 hlr _ _ _ _ _ _ _ _ heqR
        exact ⟨⟨hbprops.2, hrprops.2⟩, hbprops.1, hrprops.1⟩

end Py32

namespace Py32

theorem set_preserves (idx : Nat) {s : EngineState}
    (h : wellShaped s ∧ brightnessInRange s) :
    wellShaped (Animation_Set NUM_ANIMATIONS idx s) ∧
      brightnessInRange (Animation_Set NUM_ANIMATIONS idx s) := by
  unfold Animation_Set
  split_ifs
  · exact ⟨⟨h.1.1, h.1.2⟩, h.2.1, h.2.2⟩
  · exact h

theorem boot_inv (idx t0 : Nat) :
    wellShaped (bootEngine idx t0) ∧ brightnessInRange (bootEngine idx t0) := by
  refine ⟨⟨rfl, rfl⟩, ?_, ?_⟩ <;>
    · intro x hx
      rw [List.eq_of_mem_replicate hx]
      omega

theorem reachable_inv {s : EngineState} (h : Reachable s) :
    wellShaped s ∧ brightnessInRange s := by
  induction h with
  | boot idx t0 => exact boot_inv idx t0
  | cycle t hr hcyc ih => exact cycle_preserves t ih.1 ih.2 hcyc
  | set idx hr ih => exact set_preserves idx ih

/-- **C1** (confirmed): in every engine state reachable from boot by
(defined) `Animation_Cycle` and `Animation_Set` calls against the fw_py32
catalog, every element of the matrix brightness array and of the 3-element
RGB array lies in `[0, 15]` — across plain loads, wrapping adds,
rotations, clamped-carry cascades, divides, repeats and animation
switches. -/
theorem animation_brightness_in_range {s : EngineState} (h : Reachable s) :
    brightnessInRange s := (reachable_inv h).2

theorem animation_brightness_in_range_witness : brightnessInRange (bootEngine 0 0) :=
  animation_brightness_in_range (Reachable.boot 0 0)

end Py32

namespace Py32

theorem walk2_zero {dur0 dur x : Nat} (h : x < dur0) (hb : dur0 < 65536) :
    walkIdx [dur0, dur] 0 x = 0 := by
  simp only [walkIdx]
  rw [Nat.zero_add]
  unfold wrap16
  rw [Nat.mod_eq_of_lt hb, if_pos h]

theorem walk2_one {dur0 dur x : Nat} (h1 : dur0 ≤ x) (h2 : x < dur0 + dur)
    (hb : dur0 + dur < 65536) : walkIdx [dur0, dur] 0 x = 1 := by
  simp only [walkIdx]
  rw [Nat.zero_add]
  unfold wrap16
  rw [Nat.mod_eq_of_lt (by omega : dur0 < 65536), if_neg (by omega),
    Nat.mod_eq_of_lt hb, if_pos h2]

theorem walk2_two {dur0 dur x : Nat} (h : dur0 + dur ≤ x) (hb : dur0 + dur < 65536) :
    walkIdx [dur0, dur] 0 x = 2 := by
  simp only [walkIdx]
  rw [Nat.zero_add]
  unfold wrap16
  rw [Nat.mod_eq_of_lt (by omega : dur0 < 65536), if_neg (by omega),
    Nat.mod_eq_of_lt hb, if_neg (by omega)]

theorem walk1_zero {x : Nat} (h : x < 65535) : walkIdx [65535] 0 x = 0 := by
  simp only [walkIdx]
  rw [Nat.zero_add]
  unfold wrap16
  rw [Nat.mod_eq_of_lt (by omega : (65535 : Nat) < 65536), if_pos h]

theorem sub16_small {a b : Nat} (h : b ≤ a) (ha : a < 65536) : sub16 a b = a - b := by
  unfold sub16
  omega

theorem repeatStep_first (dur n st timer last : Nat) :
    repeatStep REPEAT dur n (ADD ||| REPEAT) st timer 0 last = (sub16 timer dur, n, last) := by
  unfold repeatStep
  rw [if_pos (by decide), if_pos rfl]

theorem repeatStep_mid (dur n st timer last c : Nat) :
    repeatStep REPEAT dur n (ADD ||| REPEAT) st timer (c + 2) last =
      (sub16 timer dur, c + 1, last) := by
  unfold repeatStep
  rw [if_pos (by decide), if_neg (by omega)]
  rw [show c + 2 - 1 = c + 1 from by omega, if_pos (by omega)]

theorem repeatStep_last (dur n st timer last : Nat) :
    repeatStep REPEAT dur n (ADD ||| REPEAT) st timer 1 last = (timer, 0, st) := by
  unfold repeatStep
  rw [if_pos (by decide), if_neg (by omega)]
  simp only [Nat.sub_self]
  rw [if_neg (by omega)]

theorem executeNormalOps_addrep (dur n : Nat) (d b : List Nat) :
    executeNormalOps ⟨dur, d, ADD ||| REPEAT, n⟩ b = applyADD d b := by
  simp only [executeNormalOps]
  rw [if_neg (by decide), if_neg (by decide), if_neg (by decide), if_neg (by decide),
    if_neg (by decide), if_pos (by decide)]

theorem fade_quiet (v d : List Nat) (dur0 dur n : Nat) (b rgb : List Nat)
    (nt rt t cnt cntR : Nat)
    (h1 : nt + 1 < dur0) (h2 : rt + 1 < 65535) (h3 : t < 65536) (h4 : dur0 < 65536) :
    Animation_Cycle (fadeTable v d dur0 dur n) 1 (t + 1)
        ⟨b, rgb, nt, rt, t, 0, cnt, 0, cntR, 0⟩ =
      some ⟨b, rgb, nt + 1, rt + 1, t + 1, 0, cnt, 0, cntR, 0⟩ := by
  have hδ : sub16 (t + 1) t = 1 := by unfold sub16; omega
  have hnt : wrap16 (nt + 1) = nt + 1 := by unfold wrap16; omega
  have hrt : wrap16 (rt + 1) = rt + 1 := by unfold wrap16; omega
  simp only [Animation_Cycle]
  rw [if_neg (by omega : ¬ t + 1 = t), if_neg (by omega : ¬ (1 : Nat) ≤ 0)]
  simp only [fadeTable, fadeAnimation, List.getD_cons_zero, List.map_cons, List.map_nil,
    List.length_cons, List.length_nil, hδ, hnt, hrt]
  rw [walk2_zero h1 h4]
  simp only [show (0 + 1 + 1 : Nat) = 2 from rfl, if_neg (show ¬ (2 : Nat) ≤ 0 by omega)]
  simp only [if_neg (show ¬ (0 : Nat) ≠ 0 by omega)]
  rw [walk1_zero h2]
  simp only [if_neg (show ¬ (0 : Nat) ≠ 0 by omega)]

end Py32

namespace Py32

theorem fade_first (v d : List Nat) (dur0 dur n : Nat)
    (h1 : 2 ≤ dur0) (h4 : dur0 < 65536) :
    Animation_Cycle (fadeTable v d dur0 dur n) 1 1 (bootEngine 0 0) =
      some ⟨v, [0, 0, 0], 1, 1, 1, 0, 0, 0, 0, 0⟩ := by
  have hδ : sub16 1 0 = 1 := by decide
  have h01 : wrap16 (0 + 1) = 1 := by decide
  simp only [Animation_Cycle, bootEngine]
  rw [if_neg (by omega : ¬ (1 : Nat) = 0), if_neg (by omega : ¬ (1 : Nat) ≤ 0)]
  simp only [fadeTable, fadeAnimation, List.getD_cons_zero, List.map_cons, List.map_nil,
    List.length_cons, List.length_nil, hδ, h01]
  rw [walk2_zero (show (1 : Nat) < dur0 by omega) h4]
  simp only [show (0 + 1 + 1 : Nat) = 2 from rfl, if_neg (show ¬ (2 : Nat) ≤ 0 by omega)]
  simp only [if_pos (show (255 : Nat) ≠ 0 by omega), List.get?_cons_zero]
  simp only [eq_self_iff_true, if_true]
  rw [walk1_zero (by omega : (1 : Nat) < 65535)]
  simp only [if_pos (show (255 : Nat) ≠ 0 by omega), List.get?_cons_zero]
  simp only [eq_self_iff_true, if_true]

theorem fade_exec (v d : List Nat) (dur0 dur n : Nat) (b rgb : List Nat) (rt t cnt cntR : Nat)
    (hd0 : 1 ≤ dur0) (hd : 1 ≤ dur) (hb : dur0 + dur < 65536)
    (h2 : rt + 1 < 65535) (h3 : t < 65536) :
    Animation_Cycle (fadeTable v d dur0 dur n) 1 (t + 1)
        ⟨b, rgb, dur0 - 1, rt, t, 0, cnt, 0, cntR, 0⟩ =
      some ⟨applyADD d b, rgb,
        (repeatStep REPEAT dur n (ADD ||| REPEAT) 1 dur0 cnt 0).1, rt + 1, t + 1,
        (repeatStep REPEAT dur n (ADD ||| REPEAT) 1 dur0 cnt 0).2.2,
        (repeatStep REPEAT dur n (ADD ||| REPEAT) 1 dur0 cnt 0).2.1, 0, cntR, 0⟩ := by
  have hδ : sub16 (t + 1) t = 1 := by unfold sub16; omega
  have hnt : wrap16 (dur0 - 1 + 1) = dur0 := by unfold wrap16; omega
  have hrt : wrap16 (rt + 1) = rt + 1 := by unfold wrap16; omega
  simp only [Animation_Cycle]
  rw [if_neg (by omega : ¬ t + 1 = t), if_neg (by omega : ¬ (1 : Nat) ≤ 0)]
  simp only [fadeTable, fadeAnimation, List.getD_cons_zero, List.map_cons, List.map_nil,
    List.length_cons, List.length_nil, hδ, hnt, hrt]
  rw [walk2_one (Nat.le_refl dur0) (by omega : dur0 < dur0 + dur) hb]
  simp only [show (0 + 1 + 1 : Nat) = 2 from rfl, if_neg (show ¬ (2 : Nat) ≤ 1 by omega)]
  simp only [if_pos (show (0 : Nat) ≠ 1 by omega), List.get?_cons_succ, List.get?_cons_zero]
  rw [if_neg (by decide : ¬ (ADD ||| REPEAT) = LOAD)]
  rw [walk1_zero h2]
  simp only [if_neg (show ¬ (0 : Nat) ≠ 0 by omega)]
  rw [executeNormalOps_addrep]

theorem fade_quiet2 (v d : List Nat) (dur0 dur n : Nat) (b rgb : List Nat)
    (nt rt t cntR : Nat)
    (ha : dur0 ≤ nt + 1) (hc : nt + 1 < dur0 + dur) (hb : dur0 + dur < 65536)
    (h2 : rt + 1 < 65535) (h3 : t < 65536) :
    Animation_Cycle (fadeTable v d dur0 dur n) 1 (t + 1)
        ⟨b, rgb, nt, rt, t, 1, 0, 0, cntR, 0⟩ =
      some ⟨b, rgb, nt + 1, rt + 1, t + 1, 1, 0, 0, cntR, 0⟩ := by
  have hδ : sub16 (t + 1) t = 1 := by unfold sub16; omega
  have hnt : wrap16 (nt + 1) = nt + 1 := by unfold wrap16; omega
  have hrt : wrap16 (rt + 1) = rt + 1 := by unfold wrap16; omega
  simp only [Animation_Cycle]
  rw [if_neg (by omega : ¬ t + 1 = t), if_neg (by omega : ¬ (1 : Nat) ≤ 0)]
  simp only [fadeTable, fadeAnimation, List.getD_cons_zero, List.map_cons, List.map_nil,
    List.length_cons, List.length_nil, hδ, hnt, hrt]
  rw [walk2_one ha hc hb]
  simp only [show (0 + 1 + 1 : Nat) = 2 from rfl, if_neg (show ¬ (2 : Nat) ≤ 1 by omega)]
  simp only [if_neg (show ¬ (1 : Nat) ≠ 1 by omega)]
  rw [walk1_zero h2]
  simp only [if_neg (show ¬ (0 : Nat) ≠ 0 by omega)]

theorem fade_restart (v d : List Nat) (dur0 dur n : Nat) (b rgb : List Nat)
    (rt t cntR : Nat)
    (hd0 : 1 ≤ dur0) (hd : 1 ≤ dur) (hb : dur0 + dur < 65536) (h3 : t < 65536) :
    Animation_Cycle (fadeTable v d dur0 dur n) 1 (t + 1)
        ⟨b, rgb, dur0 + dur - 1, rt, t, 1, 0, 0, cntR, 0⟩ =
      some ⟨v, rgb, 0, 0, t + 1, 0, 0, 0, cntR, 0⟩ := by
  have hδ : sub16 (t + 1) t = 1 := by unfold sub16; omega
  have hnt : wrap16 (dur0 + dur - 1 + 1) = dur0 + dur := by unfold wrap16; omega
  simp only [Animation_Cycle]
  rw [if_neg (by omega : ¬ t + 1 = t), if_neg (by omega : ¬ (1 : Nat) ≤ 0)]
  simp only [fadeTable, fadeAnimation, List.getD_cons_zero, List.map_cons, List.map_nil,
    List.length_cons, List.length_nil, hδ, hnt]
  rw [walk2_two (Nat.le_refl (dur0 + dur)) hb]
  simp only [show (0 + 1 + 1 : Nat) = 2 from rfl, if_pos (show (2 : Nat) ≤ 2 by omega)]
  simp only [if_pos (show (1 : Nat) ≠ 0 by omega), List.get?_cons_zero]
  simp only [eq_self_iff_true, if_true]
  rw [walk1_zero (by omega : (0 : Nat) < 65535)]
  simp only [if_neg (show ¬ (0 : Nat) ≠ 0 by omega)]

end Py32

namespace Py32

theorem fade_run_quiet (v d : List Nat) (dur0 dur n : Nat) (hd4 : dur0 < 65536) :
    ∀ (m : Nat) (b rgb : List Nat) (nt rt t cnt cntR : Nat),
    nt + m < dur0 → rt + m < 65535 → t + m < 65536 →
    runMsO (fadeTable v d dur0 dur n) 1 m (some ⟨b, rgb, nt, rt, t, 0, cnt, 0, cntR, 0⟩) =
      some ⟨b, rgb, nt + m, rt + m, t + m, 0, cnt, 0, cntR, 0⟩ := by
  intro m
  induction m with
  | zero =>
    intro b rgb nt rt t cnt cntR _ _ _
    simp only [runMsO, Nat.add_zero]
  | succ m ih =>
    intro b rgb nt rt t cnt cntR hnt hrt ht
    show runMsO _ 1 m (stepMs _ 1 (some _)) = _
    rw [show stepMs (fadeTable v d dur0 dur n) 1 (some ⟨b, rgb, nt, rt, t, 0, cnt, 0, cntR, 0⟩) =
        Animation_Cycle (fadeTable v d dur0 dur n) 1 (wrap16 (t + 1))
          ⟨b, rgb, nt, rt, t, 0, cnt, 0, cntR, 0⟩ from rfl]
    rw [show wrap16 (t + 1) = t + 1 from by unfold wrap16; omega]
    rw [fade_quiet v d dur0 dur n b rgb nt rt t cnt cntR (by omega) (by omega) (by omega) hd4]
    rw [ih b rgb (nt + 1) (rt + 1) (t + 1) cnt cntR (by omega) (by omega) (by omega)]
    have e : ∀ x : Nat, x + 1 + m = x + (m + 1) := by omega
    rw [e, e, e]

theorem fade_run_quiet2 (v d : List Nat) (dur0 dur n : Nat) (hb : dur0 + dur < 65536) :
    ∀ (m : Nat) (b rgb : List Nat) (nt rt t cntR : Nat),
    dur0 ≤ nt → nt + m < dur0 + dur → rt + m < 65535 → t + m < 65536 →
    runMsO (fadeTable v d dur0 dur n) 1 m (some ⟨b, rgb, nt, rt, t, 1, 0, 0, cntR, 0⟩) =
      some ⟨b, rgb, nt + m, rt + m, t + m, 1, 0, 0, cntR, 0⟩ := by
  intro m
  induction m with
  | zero =>
    intro b rgb nt rt t cntR _ _ _ _
    simp only [runMsO, Nat.add_zero]
  | succ m ih =>
    intro b rgb nt rt t cntR h0 hnt hrt ht
    show runMsO _ 1 m (stepMs _ 1 (some _)) = _
    rw [show stepMs (fadeTable v d dur0 dur n) 1 (some ⟨b, rgb, nt, rt, t, 1, 0, 0, cntR, 0⟩) =
        Animation_Cycle (fadeTable v d dur0 dur n) 1 (wrap16 (t + 1))
          ⟨b, rgb, nt, rt, t, 1, 0, 0, cntR, 0⟩ from rfl]
    rw [show wrap16 (t + 1) = t + 1 from by unfold wrap16; omega]
    rw [fade_quiet2 v d dur0 dur n b rgb nt rt t cntR (by omega) (by omega) hb
      (by omega) (by omega)]
    rw [ih b rgb (nt + 1) (rt + 1) (t + 1) cntR (by omega) (by omega) (by omega) (by omega)]
    have e : ∀ x : Nat, x + 1 + m = x + (m + 1) := by omega
    rw [e, e, e]

theorem fade_round (v d : List Nat) (dur0 dur n : Nat) (b rgb : List Nat)
    (rt t cnt cntR : Nat)
    (h1d : 1 ≤ dur) (hdd : dur ≤ dur0) (hb : dur0 + dur < 65536)
    (hrt : rt + dur < 65535) (ht : t + dur < 65536) :
    runMsO (fadeTable v d dur0 dur n) 1 dur
        (some ⟨b, rgb, dur0 - dur, rt, t, 0, cnt, 0, cntR, 0⟩) =
      some ⟨applyADD d b, rgb,
        (repeatStep REPEAT dur n (ADD ||| REPEAT) 1 dur0 cnt 0).1, rt + dur, t + dur,
        (repeatStep REPEAT dur n (ADD ||| REPEAT) 1 dur0 cnt 0).2.2,
        (repeatStep REPEAT dur n (ADD ||| REPEAT) 1 dur0 cnt 0).2.1, 0, cntR, 0⟩ := by
  have hsplit : runMsO (fadeTable v d dur0 dur n) 1 dur
      (some ⟨b, rgb, dur0 - dur, rt, t, 0, cnt, 0, cntR, 0⟩) =
      runMsO (fadeTable v d dur0 dur n) 1 1
        (runMsO (fadeTable v d dur0 dur n) 1 (dur - 1)
          (some ⟨b, rgb, dur0 - dur, rt, t, 0, cnt, 0, cntR, 0⟩)) := by
    rw [← runMsO_add]
    congr 1
    omega
  rw [hsplit]
  rw [fade_run_quiet v d dur0 dur n (by omega) (dur - 1) b rgb (dur0 - dur) rt t cnt cntR
    (by omega) (by omega) (by omega)]
  rw [show dur0 - dur + (dur - 1) = dur0 - 1 from by omega]
  show stepMs _ 1 (some _) = _
  rw [show stepMs (fadeTable v d dur0 dur n) 1
      (some ⟨b, rgb, dur0 - 1, rt + (dur - 1), t + (dur - 1), 0, cnt, 0, cntR, 0⟩) =
      Animation_Cycle (fadeTable v d dur0 dur n) 1 (wrap16 (t + (dur - 1) + 1))
        ⟨b, rgb, dur0 - 1, rt + (dur - 1), t + (dur - 1), 0, cnt, 0, cntR, 0⟩ from rfl]
  rw [show wrap16 (t + (dur - 1) + 1) = t + (dur - 1) + 1 from by unfold wrap16; omega]
  rw [fade_exec v d dur0 dur n b rgb (rt + (dur - 1)) (t + (dur - 1)) cnt cntR
    (by omega) h1d hb (by omega) (by omega)]
  have e : ∀ x : Nat, x + (dur - 1) + 1 = x + dur := by omega
  rw [e, e]

end Py32

namespace Py32

theorem fade_traj (v d : List Nat) (dur0 dur n : Nat) (h2 : 2 ≤ dur0) (h1d : 1 ≤ dur)
    (hdd : dur ≤ dur0) (htot : dur0 + (n + 1) * dur ≤ 65534) :
    ∀ j, j + 1 ≤ n →
      runMsO (fadeTable v d dur0 dur n) 1 (dur0 + j * dur) (some (bootEngine 0 0)) =
        some ⟨addIter d (j + 1) v, [0, 0, 0], dur0 - dur, dur0 + j * dur, dur0 + j * dur,
          0, n - j, 0, 0, 0⟩ := by
  have hmul : ∀ k : Nat, k ≤ n + 1 → k * dur ≤ (n + 1) * dur :=
    fun k hk => Nat.mul_le_mul_right dur hk
  have hdur1 : 1 * dur ≤ (n + 1) * dur := hmul 1 (by omega)
  intro j
  induction j with
  | zero =>
    intro hj
    have hstep2 : runMsO (fadeTable v d dur0 dur n) 1 (dur0 + 0 * dur)
        (some (bootEngine 0 0)) =
        runMsO (fadeTable v d dur0 dur n) 1 1
          (runMsO (fadeTable v d dur0 dur n) 1 (dur0 - 2)
            (runMsO (fadeTable v d dur0 dur n) 1 1 (some (bootEngine 0 0)))) := by
      rw [← runMsO_add, ← runMsO_add]
      congr 1
      omega
    rw [hstep2]
    have hrun1 : runMsO (fadeTable v d dur0 dur n) 1 1 (some (bootEngine 0 0)) =
        some ⟨v, [0, 0, 0], 1, 1, 1, 0, 0, 0, 0, 0⟩ := by
      have hone : runMsO (fadeTable v d dur0 dur n) 1 1 (some (bootEngine 0 0)) =
          Animation_Cycle (fadeTable v d dur0 dur n) 1 (wrap16 (0 + 1)) (bootEngine 0 0) := rfl
      rw [hone, show wrap16 (0 + 1) = 1 from by decide]
      exact fade_first v d dur0 dur n h2 (by omega)
    rw [hrun1]
    rw [fade_run_quiet v d dur0 dur n (by omega) (dur0 - 2) v [0, 0, 0] 1 1 1 0 0
      (by omega) (by omega) (by omega)]
    rw [show (1 : Nat) + (dur0 - 2) = dur0 - 1 from by omega]
    have hone2 : runMsO (fadeTable v d dur0 dur n) 1 1
        (some ⟨v, [0, 0, 0], dur0 - 1, dur0 - 1, dur0 - 1, 0, 0, 0, 0, 0⟩) =
        Animation_Cycle (fadeTable v d dur0 dur n) 1 (wrap16 (dur0 - 1 + 1))
          ⟨v, [0, 0, 0], dur0 - 1, dur0 - 1, dur0 - 1, 0, 0, 0, 0, 0⟩ := rfl
    rw [hone2]
    rw [show wrap16 (dur0 - 1 + 1) = dur0 - 1 + 1 from by unfold wrap16; omega]
    rw [fade_exec v d dur0 dur n v [0, 0, 0] (dur0 - 1) (dur0 - 1) 0 0
      (by omega) h1d (by omega) (by omega) (by omega)]
    rw [repeatStep_first]
    rw [sub16_small hdd (by omega)]
    have e1 : dur0 - 1 + 1 = dur0 + 0 * dur := by omega
    rw [e1]
    rfl
  | succ j ih =>
    intro hj
    have hj1 : j + 1 ≤ n := by omega
    have hsplit : runMsO (fadeTable v d dur0 dur n) 1 (dur0 + (j + 1) * dur)
        (some (bootEngine 0 0)) =
        runMsO (fadeTable v d dur0 dur n) 1 dur
          (runMsO (fadeTable v d dur0 dur n) 1 (dur0 + j * dur)
            (some (bootEngine 0 0))) := by
      rw [← runMsO_add]
      congr 1
      rw [Nat.succ_mul]
      omega
    rw [hsplit, ih hj1]
    have hbd : (j + 1) * dur ≤ (n + 1) * dur := hmul _ (by omega)
    have hbd2 : j * dur + dur = (j + 1) * dur := by rw [Nat.succ_mul]
    rw [fade_round v d dur0 dur n (addIter d (j + 1) v) [0, 0, 0]
      (dur0 + j * dur) (dur0 + j * dur) (n - j) 0 h1d hdd (by omega)
      (by omega) (by omega)]
    rw [show n - j = n - (j + 1) - 1 + 2 from by omega]
    rw [repeatStep_mid]
    rw [sub16_small hdd (by omega)]
    have e2 : dur0 + j * dur + dur = dur0 + (j + 1) * dur := by
      rw [Nat.succ_mul]
      omega
    rw [e2]
    rw [show n - (j + 1) - 1 + 1 = n - (j + 1) from by omega]
    rfl

end Py32

namespace Py32

/-- **C3** (confirmed): for the generic fade program — `LOAD v` held
`dur0` ms, then `ADD|REPEAT` with delta vector `d`, duration `dur` and
operand `n` — driven by well-paced 1 ms cycles from boot: the step
resolves at wall times `dur0 + (k-1)*dur` for `k = 1..n+1`, applying the
add each time (value `addIter d k v`, i.e. `v + k·d` with wrap-to-zero
outside `[0,15]`); on the first `n` resolutions the channel clock is
rewound by `dur` (timer left at `dur0 - dur`), on resolution `n+1` it is
not (timer `dur0`, step marked executed, counter `0`); the cursor moves
past the step only at wall time `dur0 + (n+1)*dur`, when the sequence
restarts and reloads `v` — so the step consumes `(n+1)·dur` ms and the
element ends at `v + d·(n+1)`; the witness checks `d=1, n=14, v=0`
ending at 15. -/
theorem add_repeat_semantics (v d : List Nat) (dur0 dur n : Nat)
    (h2 : 2 ≤ dur0) (h1d : 1 ≤ dur) (hdd : dur ≤ dur0) (hn : 1 ≤ n)
    (htot : dur0 + (n + 1) * dur ≤ 65534) :
    (∀ k, 1 ≤ k → k ≤ n →
      runMsO (fadeTable v d dur0 dur n) 1 (dur0 + (k - 1) * dur) (some (bootEngine 0 0)) =
        some ⟨addIter d k v, [0, 0, 0], dur0 - dur, dur0 + (k - 1) * dur,
          dur0 + (k - 1) * dur, 0, n - (k - 1), 0, 0, 0⟩) ∧
    runMsO (fadeTable v d dur0 dur n) 1 (dur0 + n * dur) (some (bootEngine 0 0)) =
      some ⟨addIter d (n + 1) v, [0, 0, 0], dur0, dur0 + n * dur, dur0 + n * dur,
        1, 0, 0, 0, 0⟩ ∧
    runMsO (fadeTable v d dur0 dur n) 1 (dur0 + (n + 1) * dur) (some (bootEngine 0 0)) =
      some ⟨v, [0, 0, 0], 0, 0, dur0 + (n + 1) * dur, 0, 0, 0, 0, 0⟩ := by
  have hmul : ∀ k : Nat, k ≤ n + 1 → k * dur ≤ (n + 1) * dur :=
    fun k hk => Nat.mul_le_mul_right dur hk
  have hdur1 : 1 * dur ≤ (n + 1) * dur := hmul 1 (by omega)
  have hbdn : n * dur ≤ (n + 1) * dur := hmul n (by omega)
  have hlink : (n - 1) * dur + dur = n * dur := by
    rw [← Nat.succ_mul]
    congr 1
    omega
  have hlink2 : n * dur + dur = (n + 1) * dur := by rw [← Nat.succ_mul]
  have hc1 : ∀ k, 1 ≤ k → k ≤ n →
      runMsO (fadeTable v d dur0 dur n) 1 (dur0 + (k - 1) * dur) (some (bootEngine 0 0)) =
        some ⟨addIter d k v, [0, 0, 0], dur0 - dur, dur0 + (k - 1) * dur,
          dur0 + (k - 1) * dur, 0, n - (k - 1), 0, 0, 0⟩ := by
    intro k hk1 hkn
    have h := fade_traj v d dur0 dur n h2 h1d hdd htot (k - 1) (by omega)
    rwa [show k - 1 + 1 = k from by omega] at h
  have hc2 : runMsO (fadeTable v d dur0 dur n) 1 (dur0 + n * dur) (some (bootEngine 0 0)) =
      some ⟨addIter d (n + 1) v, [0, 0, 0], dur0, dur0 + n * dur, dur0 + n * dur,
        1, 0, 0, 0, 0⟩ := by
    have hP := fade_traj v d dur0 dur n h2 h1d hdd htot (n - 1) (by omega)
    rw [show n - 1 + 1 = n from by omega] at hP
    have hsplit : runMsO (fadeTable v d dur0 dur n) 1 (dur0 + n * dur)
        (some (bootEngine 0 0)) =
        runMsO (fadeTable v d dur0 dur n) 1 dur
          (runMsO (fadeTable v d dur0 dur n) 1 (dur0 + (n - 1) * dur)
            (some (bootEngine 0 0))) := by
      rw [← runMsO_add]
      congr 1
      omega
    rw [hsplit, hP]
    rw [fade_round v d dur0 dur n (addIter d n v) [0, 0, 0] (dur0 + (n - 1) * dur)
      (dur0 + (n - 1) * dur) (n - (n - 1)) 0 h1d hdd (by omega) (by omega) (by omega)]
    rw [show n - (n - 1) = 1 from by omega, repeatStep_last]
    rw [show dur0 + (n - 1) * dur + dur = dur0 + n * dur from by omega]
    rfl
  refine ⟨hc1, hc2, ?_⟩
  have hsplit3 : runMsO (fadeTable v d dur0 dur n) 1 (dur0 + (n + 1) * dur)
      (some (bootEngine 0 0)) =
      runMsO (fadeTable v d dur0 dur n) 1 dur
        (runMsO (fadeTable v d dur0 dur n) 1 (dur0 + n * dur)
          (some (bootEngine 0 0))) := by
    rw [← runMsO_add]
    congr 1
    omega
  rw [hsplit3, hc2]
  have hsplit4 : runMsO (fadeTable v d dur0 dur n) 1 dur
      (some ⟨addIter d (n + 1) v, [0, 0, 0], dur0, dur0 + n * dur, dur0 + n * dur,
        1, 0, 0, 0, 0⟩) =
      runMsO (fadeTable v d dur0 dur n) 1 1
        (runMsO (fadeTable v d dur0 dur n) 1 (dur - 1)
          (some ⟨addIter d (n + 1) v, [0, 0, 0], dur0, dur0 + n * dur, dur0 + n * dur,
            1, 0, 0, 0, 0⟩)) := by
    rw [← runMsO_add]
    congr 1
    omega
  rw [hsplit4]
  rw [fade_run_quiet2 v d dur0 dur n (by omega) (dur - 1) (addIter d (n + 1) v) [0, 0, 0]
    dur0 (dur0 + n * dur) (dur0 + n * dur) 0 (Nat.le_refl dur0) (by omega) (by omega)
    (by omega)]
  rw [show dur0 + (dur - 1) = dur0 + dur - 1 from by omega]
  have hone : runMsO (fadeTable v d dur0 dur n) 1 1
      (some ⟨addIter d (n + 1) v, [0, 0, 0], dur0 + dur - 1, dur0 + n * dur + (dur - 1),
        dur0 + n * dur + (dur - 1), 1, 0, 0, 0, 0⟩) =
      Animation_Cycle (fadeTable v d dur0 dur n) 1
        (wrap16 (dur0 + n * dur + (dur - 1) + 1))
        ⟨addIter d (n + 1) v, [0, 0, 0], dur0 + dur - 1, dur0 + n * dur + (dur - 1),
          dur0 + n * dur + (dur - 1), 1, 0, 0, 0, 0⟩ := rfl
  rw [hone]
  rw [show wrap16 (dur0 + n * dur + (dur - 1) + 1) = dur0 + n * dur + (dur - 1) + 1 from by
    unfold wrap16; omega]
  rw [fade_restart v d dur0 dur n (addIter d (n + 1) v) [0, 0, 0]
    (dur0 + n * dur + (dur - 1)) (dur0 + n * dur + (dur - 1)) 0 (by omega) h1d
    (by omega) (by omega)]
  rw [show dur0 + n * dur + (dur - 1) + 1 = dur0 + (n + 1) * dur from by omega]

theorem add_repeat_semantics_witness :
    runMsO (fadeTable (List.replicate 12 0) (List.replicate 12 1) 125 125 14) 1
        (125 + 14 * 125) (some (bootEngine 0 0)) =
      some ⟨addIter (List.replicate 12 1) (14 + 1) (List.replicate 12 0), [0, 0, 0], 125,
        125 + 14 * 125, 125 + 14 * 125, 1, 0, 0, 0, 0⟩ ∧
    addIter (List.replicate 12 1) (14 + 1) (List.replicate 12 0) = List.replicate 12 15 := by
  refine ⟨(add_repeat_semantics (List.replicate 12 0) (List.replicate 12 1) 125 125 14
    (by norm_num) (by norm_num) (by norm_num) (by norm_num) (by norm_num)).2.1, by decide⟩

end Py32
